import Mathlib

/-!
# Microphone toggler: device binding and the mute toggle

A shallow embedding of `microphone_toggler.cpp` (class `MicrophoneController`).

* Member functions become functions from the controller state (and the answers of
  the operating system during the call) to the new state and the list of
  operating-system calls issued, in program order.
* `steady_clock` time points are integers counting nanoseconds; a default
  constructed `time_point` is `0`.  The function-local `static last_toggle_time`
  is a field of the state (there is one controller per process).
* COM objects are records of the answers they give; a `ComPtr` is an `Option`
  (or a `Bool` where only "held or not" matters).
* Conversions between narrow and wide strings are the identity; the length of a
  wide string is counted in UTF-16 code units (`WCHAR`s).
* A call that ends the process is traced as the last call; the state that comes
  with it is the memory at that moment.
-/

namespace MicToggler

/-! ## Constants -/

/-- Source line 35. -/
def MAX_SOUND_VOLUME : Int := 100
/-- Source line 36. -/
def MIN_SOUND_VOLUME : Int := 0
/-- Source line 37. -/
def MIN_TOGGLE_COOLDOWN : Int := 0
/-- Source line 38. -/
def MAX_TOGGLE_COOLDOWN : Int := 60000

/-- Windows modifier flag `MOD_ALT`. -/
def MOD_ALT : Nat := 1
/-- Windows modifier flag `MOD_CONTROL`. -/
def MOD_CONTROL : Nat := 2
/-- Windows modifier flag `MOD_SHIFT`. -/
def MOD_SHIFT : Nat := 4
/-- Windows modifier flag `MOD_WIN`. -/
def MOD_WIN : Nat := 8
/-- Windows virtual key code of F1. -/
def VK_F1 : Nat := 112
/-- Windows device state `DEVICE_STATE_ACTIVE`. -/
def DEVICE_STATE_ACTIVE : Nat := 1
/-- Nanoseconds in one millisecond: `std::chrono::milliseconds` compared with a
`steady_clock` duration is converted to the clock's period. -/
def NS_PER_MS : Int := 1000000

/-! ## Data model -/

/-- The `Config` struct with its default member initialisers (source lines 41-55). -/
structure Config where
  hotkey_mod : Nat := MOD_CONTROL ||| MOD_SHIFT
  hotkey_vk : Nat := VK_F1
  use_keyboard_hook : Bool := true
  play_sounds : Bool := true
  unmute_on_exit : Bool := true
  use_default_device : Bool := true
  sound_volume : Int := 50
  toggle_cooldown : Int := 1000
  device_name : String := ""
  mute_sound_file : String := "mute.wav"
  unmute_sound_file : String := "unmute.wav"
  config_file : String := "mic_config.txt"
  devices_list_file : String := "available_devices.txt"
deriving DecidableEq

/-- The `AudioDevice` struct (source lines 58-64). -/
structure AudioDevice where
  id : String
  name : String
  description : String
  is_default : Bool
  is_enabled : Bool
deriving DecidableEq

/-- An `IAudioEndpointVolume` object: `get_mute` is the answer of `GetMute`
(`none` when the call fails). -/
structure IAudioEndpointVolume where
  get_mute : Option Bool
deriving DecidableEq

/-- An `IPropertyStore` object: the two values read by the enumeration, `none`
when `GetValue` fails or the value is not a `VT_LPWSTR`. -/
structure IPropertyStore where
  friendly_name : Option String
  device_desc : Option String
deriving DecidableEq

/-- An `IMMDevice` object, as the answers of `GetId`, `OpenPropertyStore`,
`GetState` and `Activate(IAudioEndpointVolume)`; `none` is a failed call. -/
structure IMMDevice where
  get_id : Option String
  property_store : Option IPropertyStore
  get_state : Option Nat
  activate : Option IAudioEndpointVolume
deriving DecidableEq

/-- The answers of the operating system during one call of a member function. -/
structure OsAnswers where
  /-- `CoCreateInstance(MMDeviceEnumerator)` succeeds. -/
  create_enumerator : Bool
  /-- `EnumAudioEndpoints(eCapture, DEVICE_STATE_ACTIVE)`: `none` when it fails,
  else the collection; an entry is `none` when `Item(i)` fails. -/
  enum_audio_endpoints : Option (List (Option IMMDevice))
  /-- `GetDefaultAudioEndpoint(eCapture, eConsole)`. -/
  default_audio_endpoint : Option IMMDevice
  /-- `GetDevice(id)`. -/
  get_device : String → Option IMMDevice
  /-- `SetMute(value)` on the bound endpoint succeeds. -/
  set_mute : Bool → Bool
  /-- `GetFileAttributesA(path)` is not `INVALID_FILE_ATTRIBUTES`. -/
  file_exists : String → Bool

/-- Operating-system calls issued by the controller, in program order.  Queries on
the items of an enumerated collection are not traced. -/
inductive Effect where
  | CoCreateInstance
  | ReleaseEnumerator
  | ReleaseDevice
  | ReleaseEndpointVolume
  | GetDefaultAudioEndpoint
  | EnumAudioEndpoints
  | GetDevice (id : String)
  | Activate
  | GetMute
  | SetMute (mute : Bool)
  | GetFileAttributes (path : String)
  /-- `PlaySoundA(nullptr, nullptr, 0)`: stop the sound being played. -/
  | PlaySoundStop
  /-- `waveOutSetVolume`; the argument is the clamped percentage, the scaling to
  a `DWORD` is floating point and is not modelled. -/
  | waveOutSetVolume (percent : Int)
  /-- `PlaySoundA(file, nullptr, SND_ASYNC | SND_FILENAME | SND_NODEFAULT)`. -/
  | PlaySound (file : String)
  /-- `Shell_NotifyIcon(NIM_MODIFY)` with the icon (muted or not) and the tip. -/
  | ShellNotifyModify (muted_icon : Bool) (tip : String)
  /-- `std::ifstream file(path)`. -/
  | OpenIfstream (path : String)
  /-- `std::ofstream file(config.config_file)` in `save_config` and everything
  streamed into it; `none` when the stream could not be opened. -/
  | WriteConfig (path : String) (text : Option String)
  /-- `std::ofstream file(config.devices_list_file)` in `save_devices_list` and
  everything streamed into it; `none` when the stream could not be opened. -/
  | WriteDevicesList (path : String) (text : Option String)
  | MessageBox (text caption : String)
  | CoInitializeEx
  | InitCommonControlsEx
  | CoUninitialize
  | RegisterClass
  | CreateWindow
  | DestroyWindow
  /-- `Shell_NotifyIcon(NIM_ADD)` with the icon (muted or not) and the tip. -/
  | ShellNotifyAdd (muted_icon : Bool) (tip : String)
  /-- `Shell_NotifyIcon(NIM_DELETE)`. -/
  | ShellNotifyDelete
  | RegisterHotKey (modifiers vk : Nat)
  | UnregisterHotKey
  | SetWindowsHookEx
  | UnhookWindowsHookEx
  | ShellExecute (path : String)
  /-- `PostMessage(main_hwnd, WM_CLOSE, 0, 0)`. -/
  | PostMessageClose
  /-- The invalid-parameter handler of the C runtime, invoked by `wcscpy_s` when
  the text does not fit the destination.  The program installs no handler of its
  own and the default one ends the process, so no call follows this one. -/
  | InvalidParameter
deriving DecidableEq

/-- The data members of `MicrophoneController` (source lines 111-126), the static
`last_toggle_time` of `toggle_microphone_mute` (line 720), and of
`notification_icon_data` the icon and the tip. -/
structure MicrophoneController where
  main_hwnd : Bool
  notification_icon_muted : Bool
  notification_tip : String
  device_enumerator : Bool
  current_device : Option IMMDevice
  endpoint_volume : Option IAudioEndpointVolume
  is_muted : Bool
  initial_mute_state : Bool
  config : Config
  com_initialized : Bool
  hotkey_registered : Bool
  tray_icon_added : Bool
  keyboard_hook : Bool
  use_keyboard_hook : Bool
  available_devices : List AudioDevice
  current_device_name : String
  last_toggle_time : Int
deriving DecidableEq

/-- The constructor (source lines 129-137) and the default member initialisers;
the static `last_toggle_time` starts at the clock's epoch. -/
def MicrophoneController.new : MicrophoneController where
  main_hwnd := false
  notification_icon_muted := false
  notification_tip := ""
  device_enumerator := false
  current_device := none
  endpoint_volume := none
  is_muted := false
  initial_mute_state := false
  config := {}
  com_initialized := false
  hotkey_registered := false
  tray_icon_added := false
  keyboard_hook := false
  use_keyboard_hook := false
  available_devices := []
  current_device_name := ""
  last_toggle_time := 0

/-! ## Device directory -/

/-- The body of the loop of `enumerate_audio_devices` for one item
(source lines 203-249); `default_id` is the id of the default device when there
is one and its `GetId` succeeds. -/
def make_audio_device (default_id : Option String) (device : IMMDevice) : AudioDevice :=
  let id := device.get_id.getD ""
  { id := id
    name := (device.property_store.bind fun p => p.friendly_name).getD ""
    description := (device.property_store.bind fun p => p.device_desc).getD ""
    is_default :=
      match default_id with
      | some d => id == d
      | none => false
    is_enabled := device.get_state == some DEVICE_STATE_ACTIVE }

/-- Member `enumerate_audio_devices` (source lines 180-254). -/
def enumerate_audio_devices (os : OsAnswers) (s : MicrophoneController) :
    List AudioDevice × MicrophoneController × List Effect :=
  if !s.device_enumerator && !os.create_enumerator then
    ([], s, [Effect.CoCreateInstance])
  else
    let e0 := if s.device_enumerator then [] else [Effect.CoCreateInstance]
    let s1 := { s with device_enumerator := true }
    match os.enum_audio_endpoints with
    | none => ([], s1, e0 ++ [Effect.EnumAudioEndpoints])
    | some collection =>
      let default_id := os.default_audio_endpoint.bind fun d => d.get_id
      (collection.filterMap fun item => item.map (make_audio_device default_id),
        s1, e0 ++ [Effect.EnumAudioEndpoints, Effect.GetDefaultAudioEndpoint])

/-! ## Device binding -/

/-- The search loop of `find_and_set_target_device` (source lines 324-335): the
first device with the configured name that is enabled and that `GetDevice`
opens; a matching device that `GetDevice` does not open is passed over. -/
def find_named_device (os : OsAnswers) (device_name : String) :
    List AudioDevice → Option (AudioDevice × IMMDevice) × List Effect
  | [] => (none, [])
  | device :: rest =>
    if device.name = device_name ∧ device.is_enabled = true then
      match os.get_device device.id with
      | some d => (some (device, d), [Effect.GetDevice device.id])
      | none =>
        let r := find_named_device os device_name rest
        (r.1, Effect.GetDevice device.id :: r.2)
    else find_named_device os device_name rest

/-- The end of `find_and_set_target_device` (source lines 342-355): obtain the
endpoint volume interface of `current_device` and read the mute state. -/
def activate_and_read_mute (s : MicrophoneController) (device : IMMDevice)
    (issued : List Effect) : Bool × MicrophoneController × List Effect :=
  match device.activate with
  | none => (false, s, issued ++ [Effect.Activate])
  | some volume =>
    let s1 := { s with endpoint_volume := some volume }
    match volume.get_mute with
    | none => (false, s1, issued ++ [Effect.Activate, Effect.GetMute])
    | some muted =>
      (true, { s1 with is_muted := muted, initial_mute_state := muted },
        issued ++ [Effect.Activate, Effect.GetMute])

/-- Member `find_and_set_target_device` (source lines 298-356). -/
def find_and_set_target_device (os : OsAnswers) (s : MicrophoneController) :
    Bool × MicrophoneController × List Effect :=
  if !s.device_enumerator && !os.create_enumerator then
    (false, s, [Effect.CoCreateInstance])
  else
    let e0 := if s.device_enumerator then [] else [Effect.CoCreateInstance]
    let e1 := e0 ++ (if s.current_device.isSome then [Effect.ReleaseDevice] else [])
      ++ (if s.endpoint_volume.isSome then [Effect.ReleaseEndpointVolume] else [])
    let s1 := { s with device_enumerator := true, current_device := none,
                       endpoint_volume := none }
    if s1.config.use_default_device then
      match os.default_audio_endpoint with
      | none => (false, s1, e1 ++ [Effect.GetDefaultAudioEndpoint])
      | some device =>
        activate_and_read_mute
          { s1 with current_device := some device, current_device_name := "Default Device" }
          device (e1 ++ [Effect.GetDefaultAudioEndpoint])
    else if s1.config.device_name = "" then
      (false, s1, e1)
    else
      let r := enumerate_audio_devices os s1
      let s2 := { r.2.1 with available_devices := r.1 }
      match find_named_device os s2.config.device_name s2.available_devices with
      | (none, e3) => (false, s2, e1 ++ r.2.2 ++ e3)
      | (some (device, d), e3) =>
        activate_and_read_mute
          { s2 with current_device := some d, current_device_name := device.name }
          d (e1 ++ r.2.2 ++ e3)

/-! ## Sound and tray -/

/-- Member `play_sound` (source lines 540-579). -/
def play_sound (config : Config) (os : OsAnswers) (sound_file : String) : List Effect :=
  if !config.play_sounds || sound_file = "" then []
  else
    let clamped_volume : Int :=
      if config.sound_volume < 0 then 0
      else if config.sound_volume > 100 then 100
      else config.sound_volume
    if clamped_volume = 0 then []
    else if !os.file_exists sound_file then [Effect.GetFileAttributes sound_file]
    else
      [Effect.GetFileAttributes sound_file, Effect.PlaySoundStop]
        ++ (if clamped_volume ≠ 100 then [Effect.waveOutSetVolume clamped_volume] else [])
        ++ [Effect.PlaySound sound_file]

/-- The tooltip text built by `setup_tray_icon` and `update_tray_icon`
(source lines 645-646). -/
def tooltip (is_muted : Bool) (current_device_name : String) : String :=
  (if is_muted then "🔇 MUTED" else "🎤 UNMUTED") ++ " - " ++ current_device_name

/-- The number of `WCHAR`s (UTF-16 code units) that a character takes. -/
def wchar_units (c : Char) : Nat :=
  if c.toNat < 0x10000 then 1 else 2

/-- The length of a wide string in `WCHAR`s, as `wcslen` counts it. -/
def wcslen (text : String) : Nat :=
  (text.data.map wchar_units).sum

/-- The number of elements of `NOTIFYICONDATAW::szTip` (`WCHAR szTip[128]`). -/
def SZTIP_SIZE : Nat := 128

/-- The overload `wcscpy_s(dest, src)` for a destination array of `size`
elements: the text stored when it fits together with its terminating null
character, `none` when it does not.  In that case `wcscpy_s` invokes the
invalid-parameter handler. -/
def wcscpy_s (size : Nat) (src : String) : Option String :=
  if wcslen src < size then some src else none

/-- The call is the invalid-parameter handler. -/
def Effect.is_invalid_parameter : Effect → Bool
  | Effect.InvalidParameter => true
  | _ => false

/-- The process was ended during these calls. -/
def terminated (calls : List Effect) : Bool :=
  calls.any Effect.is_invalid_parameter

/-- Member `update_tray_icon` (source lines 641-649). -/
def update_tray_icon (s : MicrophoneController) : MicrophoneController × List Effect :=
  if !s.tray_icon_added then (s, [])
  else
    let s1 := { s with notification_icon_muted := s.is_muted }
    match wcscpy_s SZTIP_SIZE (tooltip s.is_muted s.current_device_name) with
    | none => (s1, [Effect.InvalidParameter])
    | some tip =>
      ({ s1 with notification_tip := tip }, [Effect.ShellNotifyModify s.is_muted tip])

/-! ## Toggle state machine -/

/-- Member `toggle_microphone_mute` (source lines 719-745), called when the clock
reads `now`. -/
def toggle_microphone_mute (os : OsAnswers) (now : Int) (s : MicrophoneController) :
    MicrophoneController × List Effect :=
  let cooldown := s.config.toggle_cooldown * NS_PER_MS
  if now - s.last_toggle_time < cooldown then (s, [])
  else
    let s1 := { s with last_toggle_time := now }
    match s1.endpoint_volume with
    | none => (s1, [])
    | some _ =>
      let s2 := { s1 with is_muted := !s1.is_muted }
      if os.set_mute s2.is_muted then
        let sound := play_sound s2.config os
          (if s2.is_muted then s2.config.mute_sound_file else s2.config.unmute_sound_file)
        let r := update_tray_icon s2
        (r.1, [Effect.SetMute s2.is_muted] ++ sound ++ r.2)
      else (s2, [Effect.SetMute s2.is_muted])

/-- Member `restore_initial_mute_state` (source lines 747-754); the result of
`SetMute` is not looked at. -/
def restore_initial_mute_state (s : MicrophoneController) :
    MicrophoneController × List Effect :=
  if s.endpoint_volume.isNone || !s.config.unmute_on_exit then (s, [])
  else if s.is_muted then (s, [Effect.SetMute false])
  else (s, [])

/-- A run of toggles: each call has its own clock reading and operating-system
answers; the result is the final state and all calls issued.  No toggle follows
one that ended the process. -/
def toggle_sequence : List (Int × OsAnswers) → MicrophoneController →
    MicrophoneController × List Effect
  | [], s => (s, [])
  | (now, os) :: rest, s =>
    let r := toggle_microphone_mute os now s
    if terminated r.2 then r
    else
      let r2 := toggle_sequence rest r.1
      (r2.1, r.2 ++ r2.2)

/-! ## Classifying the calls issued -/

/-- The call is a `SetMute`. -/
def Effect.is_set_mute : Effect → Bool
  | Effect.SetMute _ => true
  | _ => false

/-- The call is a tray refresh, `Shell_NotifyIcon(NIM_MODIFY)`. -/
def Effect.is_tray_refresh : Effect → Bool
  | Effect.ShellNotifyModify _ _ => true
  | _ => false

/-- The call starts the playback of a sound file. -/
def Effect.is_playback : Effect → Bool
  | Effect.PlaySound _ => true
  | _ => false

/-! ## Sample inputs -/

/-- A capture device that is active, can be activated and reports "not muted". -/
def sample_device : IMMDevice where
  get_id := some "dev-0"
  property_store := some { friendly_name := some "USB Mic", device_desc := some "Microphone" }
  get_state := some DEVICE_STATE_ACTIVE
  activate := some { get_mute := some false }

/-- An operating system with `sample_device` as its only and default capture
device, on which every call succeeds and every sound file exists. -/
def sample_os : OsAnswers where
  create_enumerator := true
  enum_audio_endpoints := some [some sample_device]
  default_audio_endpoint := some sample_device
  get_device := fun id => if id = "dev-0" then some sample_device else none
  set_mute := fun _ => true
  file_exists := fun _ => true

/-- The same operating system when `SetMute` fails. -/
def sample_os_set_mute_fails : OsAnswers :=
  { sample_os with set_mute := fun _ => false }

/-- The controller after start-up on `sample_os` with the default configuration:
bound to the default device, tray icon added, not muted, no toggle yet. -/
def sample_bound : MicrophoneController :=
  { MicrophoneController.new with
      main_hwnd := true
      notification_tip := "🎤 UNMUTED - Default Device"
      device_enumerator := true
      current_device := some sample_device
      endpoint_volume := some { get_mute := some false }
      com_initialized := true
      tray_icon_added := true
      keyboard_hook := true
      current_device_name := "Default Device" }


/-- A capture device named "USB Mic" with the given id and device state, whose
endpoint volume can be obtained and reports "not muted". -/
def usb_mic (id : String) (state : Nat) : IMMDevice where
  get_id := some id
  property_store := some { friendly_name := some "USB Mic", device_desc := some "Microphone" }
  get_state := some state
  activate := some { get_mute := some false }

/-- An operating system listing two devices named "USB Mic": "usb-1" is not in
the active state (state 8, unplugged), "usb-2" is active. -/
def sample_os_two_usb_mics : OsAnswers where
  create_enumerator := true
  enum_audio_endpoints := some [some (usb_mic "usb-1" 8), some (usb_mic "usb-2" 1)]
  default_audio_endpoint := none
  get_device := fun id =>
    if id = "usb-1" then some (usb_mic "usb-1" 8)
    else if id = "usb-2" then some (usb_mic "usb-2" 1)
    else none
  set_mute := fun _ => true
  file_exists := fun _ => true

/-- An operating system listing two active devices named "USB Mic", of which the
first one, "usb-1", can no longer be opened by `GetDevice`. -/
def sample_os_first_mic_gone : OsAnswers where
  create_enumerator := true
  enum_audio_endpoints := some [some (usb_mic "usb-1" 1), some (usb_mic "usb-2" 1)]
  default_audio_endpoint := none
  get_device := fun id => if id = "usb-2" then some (usb_mic "usb-2" 1) else none
  set_mute := fun _ => true
  file_exists := fun _ => true

/-- An operating system whose default capture device can be activated but does
not answer `GetMute`. -/
def sample_os_get_mute_fails : OsAnswers :=
  { sample_os with
      default_audio_endpoint :=
        some { sample_device with activate := some { get_mute := none } } }

/-- An operating system whose default capture device cannot be activated. -/
def sample_os_activate_fails : OsAnswers :=
  { sample_os with
      default_audio_endpoint := some { sample_device with activate := none } }

/-- The freshly constructed controller with a configuration that selects the
device named "USB Mic". -/
def sample_by_name : MicrophoneController :=
  { MicrophoneController.new with
      config := { use_default_device := false, device_name := "USB Mic" } }

/-- The freshly constructed controller with a configuration that selects a
device by name and gives no name. -/
def sample_empty_name : MicrophoneController :=
  { MicrophoneController.new with config := { use_default_device := false } }

/-- A device of the list that binding by name can target: its name is the
configured one, it is enabled, and `GetDevice` opens it. -/
def bindable (os : OsAnswers) (device_name : String) (device : AudioDevice) : Bool :=
  decide (device.name = device_name) && device.is_enabled && (os.get_device device.id).isSome

/-! ## The configuration file

The file is text: a `String`, read through `std::getline` line by line.  Streams
are taken in binary mode (no translation of line ends).  `unsigned long` and
`long` are 32 bits wide, as on Windows. -/

/-- Largest `unsigned long`. -/
def ULONG_MAX : Nat := 4294967295
/-- Largest `int` (and `long`). -/
def INT_MAX : Int := 2147483647
/-- Smallest `int` (and `long`). -/
def INT_MIN : Int := -2147483648

/-- The answers of the rest of the operating system (files, windows, shell)
during one call of a member function. -/
structure HostAnswers where
  /-- `std::ifstream file(path)`: the contents, `none` when it cannot be opened. -/
  read_file : String → Option String
  /-- `std::ofstream file(path)` can be opened. -/
  open_for_write : String → Bool
  /-- `CoInitializeEx` succeeds or answers `RPC_E_CHANGED_MODE`. -/
  co_initialize : Bool
  /-- `InitCommonControlsEx` succeeds. -/
  init_common_controls : Bool
  /-- `GetModuleHandle(nullptr)` is not null. -/
  get_module_handle : Bool
  /-- `RegisterClassW` succeeds or fails with `ERROR_CLASS_ALREADY_EXISTS`. -/
  register_class : Bool
  /-- `CreateWindowW` returns a window. -/
  create_window : Bool
  /-- `Shell_NotifyIcon(NIM_ADD)` succeeds. -/
  shell_notify_add : Bool
  /-- `RegisterHotKey(main_hwnd, HOTKEY_ID, modifiers, vk)` succeeds. -/
  register_hot_key : Nat → Nat → Bool
  /-- `SetWindowsHookEx(WH_KEYBOARD_LL)` returns a hook. -/
  set_windows_hook : Bool
  /-- The user answers `IDYES` to a `MB_YESNO` message box. -/
  message_box_yes : Bool

/-- The loop of `std::getline(file, line)`: `current` holds the characters of
the line being read, last one first.  At the end of the input a line without
characters is not delivered. -/
def getline_loop : List Char → List Char → List (List Char)
  | current, [] => if current = [] then [] else [current.reverse]
  | current, c :: rest =>
    if c = '\n' then current.reverse :: getline_loop [] rest
    else getline_loop (c :: current) rest

/-- The lines that `std::getline` delivers for a text. -/
def getlines (text : String) : List (List Char) :=
  getline_loop [] text.data

/-- The characters of `" \t\r\n"`. -/
def is_line_blank (c : Char) : Bool :=
  c = ' ' || c = '\t' || c = '\r' || c = '\n'

/-- The characters of `" \t"`. -/
def is_key_blank (c : Char) : Bool :=
  c = ' ' || c = '\t'

/-- The body of the reading loop of `load_config` for one line (source lines
417-435): the key and the value stored into `settings`, `none` for a line that
is skipped. -/
def parse_line (raw : List Char) : Option (List Char × List Char) :=
  let line := (raw.dropWhile is_line_blank).rdropWhile is_line_blank
  match line with
  | [] => none
  | c :: _ =>
    if c = '#' ∨ c = '=' then none
    else if '=' ∈ line then
      let key := (line.takeWhile fun x => x ≠ '=').rdropWhile is_key_blank
      let value := (((line.dropWhile fun x => x ≠ '=').tail).dropWhile is_key_blank).rdropWhile
        is_key_blank
      some (key, value)
    else none

/-- The `settings` map after the reading loop, as an association list with the
entry of the latest line first: `settings[key] = value` replaces the value of a
key, and the map is only looked up by key. -/
def parse_settings (lines : List (List Char)) : List (List Char × List Char) :=
  (lines.filterMap parse_line).reverse

/-- The lookup `s.find(key) != s.end()` together with `s.at(key)`. -/
def find_setting (settings : List (List Char × List Char)) (key : String) :
    Option (List Char) :=
  settings.lookup key.data

/-- The lambda `parse_bool` (source lines 440-445). -/
def parse_bool (val : List Char) : Bool :=
  let lower := val.map Char.toLower
  lower = "1".data || lower = "true".data || lower = "yes".data || lower = "on".data

/-- C `isspace` in the "C" locale. -/
def isspace (c : Char) : Bool :=
  c = ' ' || c = '\t' || c = '\n' || c = '\x0b' || c = '\x0c' || c = '\r'

/-- The number written by a sequence of decimal digits. -/
def digits_value (digits : List Char) : Nat :=
  digits.foldl (fun acc c => 10 * acc + (c.toNat - 48)) 0

/-- The scan shared by `strtol` and `strtoul` in base 10: white space, an
optional sign, decimal digits; what follows the digits is ignored.  The result
is the sign (true for `-`) and the magnitude, `none` when there is no digit. -/
def scan_integer (val : List Char) : Option (Bool × Nat) :=
  let skipped := val.dropWhile isspace
  let signed : Bool × List Char :=
    match skipped with
    | [] => (false, [])
    | c :: rest =>
      if c = '-' then (true, rest)
      else if c = '+' then (false, rest)
      else (false, c :: rest)
  let digits := signed.2.takeWhile Char.isDigit
  if digits = [] then none else some (signed.1, digits_value digits)

/-- Library function `std::stoul`: `none` when it throws (`invalid_argument` without a
digit, `out_of_range` beyond `ULONG_MAX`); a minus sign negates modulo 2^32. -/
def stoul (val : List Char) : Option Nat :=
  match scan_integer val with
  | none => none
  | some (negative, magnitude) =>
    if magnitude > ULONG_MAX then none
    else some (if negative then (ULONG_MAX + 1 - magnitude) % (ULONG_MAX + 1) else magnitude)

/-- Library function `std::stoi`: `none` when it throws (`invalid_argument` without a
digit, `out_of_range` outside the range of `int`). -/
def stoi (val : List Char) : Option Int :=
  match scan_integer val with
  | none => none
  | some (negative, magnitude) =>
    let value : Int := if negative then -(magnitude : Int) else (magnitude : Int)
    if value < INT_MIN ∨ value > INT_MAX then none else some value

/-- The lambda `parse_uint` (source line 447). -/
def parse_uint (val : List Char) : Option Nat :=
  stoul val

/-- The lambda `parse_int_clamped` (source lines 448-450), `none` when `std::stoi`
throws. -/
def parse_int_clamped (val : List Char) (min max : Int) : Option Int :=
  (stoi val).map fun v => Max.max min (Min.min max v)

/-- One line `if (s.find(key) != s.end()) config.field = parse_uint(s.at(key));`:
`none` when `parse_uint` throws. -/
def assign_uint (s : List (List Char × List Char)) (key : String)
    (set : Config → Nat → Config) (config : Config) : Option Config :=
  match find_setting s key with
  | none => some config
  | some val => (parse_uint val).map (set config)

/-- One line `if (s.find(key) != s.end()) config.field = parse_int_clamped(s.at(key), min, max);`:
`none` when `parse_int_clamped` throws. -/
def assign_int_clamped (s : List (List Char × List Char)) (key : String) (min max : Int)
    (set : Config → Int → Config) (config : Config) : Option Config :=
  match find_setting s key with
  | none => some config
  | some val => (parse_int_clamped val min max).map (set config)

/-- One line `if (s.find(key) != s.end()) config.field = parse_bool(s.at(key));`. -/
def assign_bool (s : List (List Char × List Char)) (key : String)
    (set : Config → Bool → Config) (config : Config) : Config :=
  match find_setting s key with
  | none => config
  | some val => set config (parse_bool val)

/-- One line `if (s.find(key) != s.end()) config.field = s.at(key);`. -/
def assign_string (s : List (List Char × List Char)) (key : String)
    (set : Config → String → Config) (config : Config) : Config :=
  match find_setting s key with
  | none => config
  | some val => set config (String.mk val)

/-- The `try` block of `load_config` (source lines 439-468).  The assignments are
made one after the other; when a conversion throws, the `catch` clause is empty
and the assignments made before stay. -/
def apply_settings (s : List (List Char × List Char)) (config : Config) : Config :=
  match assign_uint s "hotkey_mod" (fun c v => { c with hotkey_mod := v }) config with
  | none => config
  | some c1 =>
    match assign_uint s "hotkey_vk" (fun c v => { c with hotkey_vk := v }) c1 with
    | none => c1
    | some c2 =>
      match assign_int_clamped s "toggle_cooldown" MIN_TOGGLE_COOLDOWN MAX_TOGGLE_COOLDOWN
          (fun c v => { c with toggle_cooldown := v }) c2 with
      | none => c2
      | some c3 =>
        let c4 := assign_bool s "use_keyboard_hook"
          (fun c v => { c with use_keyboard_hook := v }) c3
        let c5 := assign_bool s "play_sounds" (fun c v => { c with play_sounds := v }) c4
        let c6 := assign_bool s "unmute_on_exit" (fun c v => { c with unmute_on_exit := v }) c5
        let c7 := assign_bool s "use_default_device"
          (fun c v => { c with use_default_device := v }) c6
        match assign_int_clamped s "sound_volume" MIN_SOUND_VOLUME MAX_SOUND_VOLUME
            (fun c v => { c with sound_volume := v }) c7 with
        | none => c7
        | some c8 =>
          let c9 := assign_string s "device_name" (fun c v => { c with device_name := v }) c8
          let c10 := assign_string s "mute_sound_file"
            (fun c v => { c with mute_sound_file := v }) c9
          assign_string s "unmute_sound_file" (fun c v => { c with unmute_sound_file := v }) c10

/-- The configuration that `load_config` leaves for a file with the given text. -/
def load_config_text (text : String) (config : Config) : Config :=
  apply_settings (parse_settings (getlines text)) config

/-- The character of a decimal digit. -/
def digit_char (d : Nat) : Char :=
  Char.ofNat (48 + d)

/-- The digits of `n`, most significant first, put in front of `acc`; `fuel`
bounds the number of digits. -/
def decimal_loop : Nat → Nat → List Char → List Char
  | 0, _, acc => acc
  | fuel + 1, n, acc =>
    if n / 10 = 0 then digit_char (n % 10) :: acc
    else decimal_loop fuel (n / 10) (digit_char (n % 10) :: acc)

/-- What `operator<<` writes for an unsigned integer. -/
def decimal (n : Nat) : List Char :=
  decimal_loop (n + 1) n []

/-- What `operator<<` writes for an `int`. -/
def decimal_int (v : Int) : List Char :=
  if v < 0 then '-' :: decimal v.natAbs else decimal v.natAbs

/-- The conditional `(flag ? "true" : "false")`. -/
def bool_text (flag : Bool) : String :=
  if flag then "true" else "false"

/-- The text of a file, from its lines: each line is followed by a line feed. -/
def unlines : List String → String
  | [] => ""
  | line :: rest => line ++ "\n" ++ unlines rest

/-- The line of 47 `=` characters above and below the two headings of the file
(source lines 474, 476, 527 and 529). -/
def rule_line : String :=
  String.mk (List.replicate 47 '=')

/-- What `save_config` streams into the file (source lines 474-536), cut at the
line feeds. -/
def save_config_lines (config : Config) : List String :=
  [rule_line,
    "    MICROPHONE CONTROLLER CONFIGURATION",
    rule_line,
    "",
    "# Lines starting with # are comments",
    "# Boolean values: true/false, yes/no, 1/0, on/off",
    "",
    "=== DEVICE SELECTION ===",
    "",
    "# Use system default microphone device",
    "use_default_device = " ++ bool_text config.use_default_device,
    "",
    "# Specific device name (only used if use_default_device = false)",
    "# Run the program to generate '" ++ config.devices_list_file ++ "' with available devices",
    "# Copy the exact device name from that file",
    "device_name = " ++ config.device_name,
    "",
    "=== HOTKEY CONFIGURATION ===",
    "",
    "# Hotkey modifier keys (can be combined by adding values):",
    "#   Alt = 1, Control = 2, Shift = 4, Windows Key = 8",
    "#   Examples: Control+Shift = 6, Alt+Control = 3, Shift only = 4",
    "hotkey_mod = " ++ String.mk (decimal config.hotkey_mod),
    "",
    "# Main key for hotkey (virtual key codes):",
    "#   Function keys: F1=112, F2=113, F3=114, ..., F12=123",
    "#   Letters: A=65, B=66, C=67, ..., Z=90",
    "#   Numbers: 0=48, 1=49, 2=50, ..., 9=57",
    "#   Other: Space=32, Enter=13, Tab=9",
    "hotkey_vk = " ++ String.mk (decimal config.hotkey_vk),
    "",
    "# Cooldown for toggling the microphone (0-60000, 0=none, 500=half a second, 1000=second)",
    "toggle_cooldown = " ++ String.mk (decimal_int config.toggle_cooldown),
    "",
    "# Use low-level keyboard hook for more reliable hotkey detection",
    "# (May work better in some apps like Visual Studio)",
    "use_keyboard_hook = " ++ bool_text config.use_keyboard_hook,
    "",
    "=== SOUND SETTINGS ===",
    "",
    "# Play notification sounds when muting/unmuting",
    "play_sounds = " ++ bool_text config.play_sounds,
    "",
    "# Volume for notification sounds (0-100, 0=silent, 100=loudest)",
    "sound_volume = " ++ String.mk (decimal_int config.sound_volume),
    "",
    "# Sound files (must be WAV format, leave empty to disable specific sounds)",
    "# Files should be in the same folder as this program, or you can specify the exact path",
    "mute_sound_file = " ++ config.mute_sound_file,
    "unmute_sound_file = " ++ config.unmute_sound_file,
    "",
    "=== BEHAVIOR SETTINGS ===",
    "",
    "# Automatically unmute microphone when program exits",
    "# Set to false if you want to keep the mute state when closing",
    "unmute_on_exit = " ++ bool_text config.unmute_on_exit,
    "",
    rule_line,
    "                QUICK SETUP",
    rule_line,
    "",
    "1. Run this program to generate device list",
    "2. Check '" ++ config.devices_list_file ++ "' for available microphones",
    "3. Edit this config file with your preferred settings",
    "4. Right-click tray icon -> 'Reload Config' to apply changes",
    "",
    "Default hotkey: Ctrl+Shift+F1",
    "Left-click tray icon: Toggle mute",
    "Right-click tray icon: Show menu",
    "" ]

/-- The text that `save_config` writes. -/
def save_config_text (config : Config) : String :=
  unlines (save_config_lines config)

/-- Member `save_config` (source lines 471-538). -/
def save_config (host : HostAnswers) (s : MicrophoneController) :
    MicrophoneController × List Effect :=
  (s, [Effect.WriteConfig s.config.config_file
        (if host.open_for_write s.config.config_file then some (save_config_text s.config)
          else none)])

/-- Member `load_config` (source lines 406-469). -/
def load_config (host : HostAnswers) (s : MicrophoneController) :
    MicrophoneController × List Effect :=
  match host.read_file s.config.config_file with
  | none =>
    let r := save_config host s
    (r.1, Effect.OpenIfstream s.config.config_file :: r.2)
  | some text =>
    ({ s with config := load_config_text text s.config },
      [Effect.OpenIfstream s.config.config_file])

/-- The keys that `load_config` looks up. -/
def known_keys : List String :=
  ["hotkey_mod", "hotkey_vk", "toggle_cooldown", "use_keyboard_hook", "play_sounds",
    "unmute_on_exit", "use_default_device", "sound_volume", "device_name",
    "mute_sound_file", "unmute_sound_file"]

/-- The value of a key is well formed for a conversion: when the key is present,
the conversion of its value does not throw. -/
def well_formed_value {α : Type} (s : List (List Char × List Char)) (key : String)
    (parse : List Char → Option α) : Prop :=
  ∀ val, find_setting s key = some val → (parse val).isSome = true

/-- The value that a field takes from a key: the converted value of the key when
it is present (and converts), the given field value otherwise. -/
def setting_or {α : Type} (s : List (List Char × List Char)) (key : String)
    (parse : List Char → Option α) (otherwise : α) : α :=
  match find_setting s key with
  | none => otherwise
  | some val => (parse val).getD otherwise

/-- The bounds of the two clamped fields. -/
def Config.in_bounds (config : Config) : Prop :=
  MIN_SOUND_VOLUME ≤ config.sound_volume ∧ config.sound_volume ≤ MAX_SOUND_VOLUME
    ∧ MIN_TOGGLE_COOLDOWN ≤ config.toggle_cooldown
    ∧ config.toggle_cooldown ≤ MAX_TOGGLE_COOLDOWN

/-- A host on which every call succeeds and the configuration file has the given
text (`none`: there is no such file). -/
def sample_host (config_text : Option String) : HostAnswers where
  read_file := fun _ => config_text
  open_for_write := fun _ => true
  co_initialize := true
  init_common_controls := true
  get_module_handle := true
  register_class := true
  create_window := true
  shell_notify_add := true
  register_hot_key := fun _ _ => true
  set_windows_hook := true
  message_box_yes := false

/-! ## The device list file -/

/-- The lines written first by `save_devices_list` (source lines 261-263). -/
def devices_list_header (config : Config) : String :=
  "=== AVAILABLE AUDIO INPUT DEVICES ===\n\n"
    ++ "Copy the exact device name (including spaces and special characters) to your config file.\n"
    ++ "Use the 'device_name' setting in " ++ config.config_file ++ "\n\n"

/-- The message written when there is no device (source lines 266-267). -/
def no_devices_message : String :=
  "No active audio input devices found!\n"
    ++ "Make sure your microphone is connected and enabled.\n"

/-- The entry of one device; `i` is its index in the list (source lines 271-281). -/
def device_entry (i : Nat) (device : AudioDevice) : String :=
  "Device " ++ String.mk (decimal (i + 1)) ++ ":\n"
    ++ "  Name: " ++ device.name ++ "\n"
    ++ "  Description: " ++ device.description ++ "\n"
    ++ "  Status: " ++ (if device.is_enabled then "Active" else "Inactive") ++ "\n"
    ++ "  Default: " ++ (if device.is_default then "Yes" else "No") ++ "\n"
    ++ "\n"
    ++ (if device.is_default then "  *** This is your system's default microphone ***\n\n"
        else "")

/-- The entries of the devices, the first of which has index `i`. -/
def device_entries : Nat → List AudioDevice → String
  | _, [] => ""
  | i, device :: rest => device_entry i device ++ device_entries (i + 1) rest

/-- The instructions written after the entries (source lines 284-293). -/
def configuration_instructions (config : Config) (devices : List AudioDevice) : String :=
  "=== CONFIGURATION INSTRUCTIONS ===\n\n"
    ++ "To use a specific device:\n"
    ++ "1. Open " ++ config.config_file ++ "\n"
    ++ "2. Set 'use_default_device = false'\n"
    ++ "3. Set 'device_name = [exact device name from above]'\n\n"
    ++ "Example:\n"
    ++ "use_default_device = false\n"
    ++ (match devices with
        | [] => ""
        | first :: _ => "device_name = " ++ first.name ++ "\n")

/-- The text that `save_devices_list` writes (source lines 261-294). -/
def devices_list_text (config : Config) (devices : List AudioDevice) : String :=
  devices_list_header config
    ++ (if devices.isEmpty then no_devices_message
        else device_entries 0 devices ++ configuration_instructions config devices)

/-- Member `save_devices_list` (source lines 256-296). -/
def save_devices_list (os : OsAnswers) (host : HostAnswers) (s : MicrophoneController) :
    MicrophoneController × List Effect :=
  let r := enumerate_audio_devices os s
  let s1 := { r.2.1 with available_devices := r.1 }
  (s1, r.2.2 ++ [Effect.WriteDevicesList s1.config.devices_list_file
    (if host.open_for_write s1.config.devices_list_file
      then some (devices_list_text s1.config s1.available_devices) else none)])

/-! ## Start-up, reload and shutdown -/

/-- Source line 29. -/
def ID_TRAY_EXIT : Nat := 1001
/-- Source line 30. -/
def ID_TRAY_TOGGLE : Nat := 1002
/-- Source line 31. -/
def ID_TRAY_CONFIG : Nat := 1003
/-- Source line 32. -/
def ID_TRAY_RELOAD_CONFIG : Nat := 1004
/-- Source line 33. -/
def ID_TRAY_LIST_DEVICES : Nat := 1005

/-- Member `initialize_system` (source lines 161-178). -/
def initialize_system (host : HostAnswers) (s : MicrophoneController) :
    Bool × MicrophoneController × List Effect :=
  if !host.co_initialize then (false, s, [Effect.CoInitializeEx])
  else
    let s1 := { s with com_initialized := true }
    if !host.init_common_controls then
      (false, s1, [Effect.CoInitializeEx, Effect.InitCommonControlsEx])
    else (true, s1, [Effect.CoInitializeEx, Effect.InitCommonControlsEx])

/-- Member `initialize_audio` (source lines 358-404). -/
def initialize_audio (os : OsAnswers) (host : HostAnswers) (s : MicrophoneController) :
    Bool × MicrophoneController × List Effect :=
  let r := find_and_set_target_device os s
  if !r.1 then
    let s1 := r.2.1
    let saved := save_devices_list os host s1
    if !s1.config.use_default_device && !(s1.config.device_name = "") then
      (false, saved.1, r.2.2 ++ saved.2 ++ [Effect.MessageBox
        ("Could not find the specified microphone device: '" ++ s1.config.device_name
          ++ "'\n\nA list of available devices has been saved to '"
          ++ s1.config.devices_list_file
          ++ "'.\n\nPlease check this file and update your configuration.")
        "Device Not Found"])
    else if !s1.config.use_default_device && s1.config.device_name = "" then
      (false, saved.1, r.2.2 ++ saved.2 ++ [Effect.MessageBox
        ("No device name specified in configuration.\n\n"
          ++ "A list of available devices has been saved to '"
          ++ s1.config.devices_list_file
          ++ "'.\n\nPlease choose a device from the list and update your configuration.")
        "Configuration Required"])
    else
      (false, saved.1, r.2.2 ++ saved.2 ++ [Effect.MessageBox
        ("Could not access the default microphone device.\n\n"
          ++ "Please check:\n"
          ++ "1. Microphone is connected and enabled\n"
          ++ "2. Audio drivers are properly installed\n"
          ++ "3. Windows audio service is running\n\n"
          ++ "A list of available devices has been saved to '"
          ++ s1.config.devices_list_file
          ++ "' for reference.")
        "Audio System Error"])
  else (true, r.2.1, r.2.2)

/-- Member `create_main_window` (source lines 581-618). -/
def create_main_window (host : HostAnswers) (s : MicrophoneController) :
    Bool × MicrophoneController × List Effect :=
  if !host.get_module_handle then (false, s, [])
  else if !host.register_class then (false, s, [Effect.RegisterClass])
  else
    ((host.create_window), { s with main_hwnd := host.create_window },
      [Effect.RegisterClass, Effect.CreateWindow])

/-- Member `setup_tray_icon` (source lines 620-639); when the process is ended
the first component has no meaning. -/
def setup_tray_icon (host : HostAnswers) (s : MicrophoneController) :
    Bool × MicrophoneController × List Effect :=
  let s0 := { s with notification_icon_muted := s.is_muted }
  match wcscpy_s SZTIP_SIZE (tooltip s.is_muted s.current_device_name) with
  | none => (false, s0, [Effect.InvalidParameter])
  | some tip =>
    let s1 := { s0 with notification_tip := tip }
    (host.shell_notify_add,
      (if host.shell_notify_add then { s1 with tray_icon_added := true } else s1),
      [Effect.ShellNotifyAdd s.is_muted tip])

/-- Member `register_global_hotkey` (source lines 651-657). -/
def register_global_hotkey (host : HostAnswers) (s : MicrophoneController) :
    Bool × MicrophoneController × List Effect :=
  let success := host.register_hot_key s.config.hotkey_mod s.config.hotkey_vk
  (success, (if success then { s with hotkey_registered := true } else s),
    [Effect.RegisterHotKey s.config.hotkey_mod s.config.hotkey_vk])

/-- Member `reload_configuration` (source lines 756-784). -/
def reload_configuration (os : OsAnswers) (host : HostAnswers) (s : MicrophoneController) :
    MicrophoneController × List Effect :=
  let e1 := if s.hotkey_registered then [Effect.UnregisterHotKey] else []
  let s1 := if s.hotkey_registered then { s with hotkey_registered := false } else s
  let loaded := load_config host s1
  let bound := find_and_set_target_device os loaded.1
  let shown : MicrophoneController × List Effect :=
    if !bound.1 then
      (bound.2.1, [Effect.MessageBox
        ("Failed to reinitialize audio device after config reload.\n"
          ++ (if !bound.2.1.config.use_default_device
              then "Check your device_name setting in the config file." else ""))
        "Device Error"])
    else update_tray_icon bound.2.1
  if terminated shown.2 then (shown.1, e1 ++ loaded.2 ++ bound.2.2 ++ shown.2)
  else
    let registered := register_global_hotkey host shown.1
    (registered.2.1,
      e1 ++ loaded.2 ++ bound.2.2 ++ shown.2 ++ registered.2.2
        ++ (if !registered.1 then
              [Effect.MessageBox
                "Failed to register new hotkey after config reload.\nThe key combination might be in use."
                "Hotkey Registration Failed"]
            else []))

/-- Member `handle_menu_command` (source lines 867-903); `now` is the reading of
the clock if the command toggles. -/
def handle_menu_command (os : OsAnswers) (host : HostAnswers) (now : Int)
    (command_id : Nat) (s : MicrophoneController) : MicrophoneController × List Effect :=
  if command_id = ID_TRAY_TOGGLE then toggle_microphone_mute os now s
  else if command_id = ID_TRAY_LIST_DEVICES then
    let saved := save_devices_list os host s
    (saved.1, saved.2 ++ [Effect.MessageBox
        ("Audio device list has been saved to '" ++ saved.1.config.devices_list_file
          ++ "'.\n\nWould you like to open the file now?")
        "Device List Generated"]
      ++ (if host.message_box_yes then [Effect.ShellExecute saved.1.config.devices_list_file]
          else []))
  else if command_id = ID_TRAY_CONFIG then (s, [Effect.ShellExecute s.config.config_file])
  else if command_id = ID_TRAY_RELOAD_CONFIG then
    let reloaded := reload_configuration os host s
    if terminated reloaded.2 then reloaded
    else
      (reloaded.1, reloaded.2
        ++ [Effect.MessageBox "Configuration reloaded successfully!" "Config Reload"])
  else if command_id = ID_TRAY_EXIT then (s, [Effect.PostMessageClose])
  else (s, [])

/-- Member `cleanup` (source lines 905-942). -/
def cleanup (s : MicrophoneController) : MicrophoneController × List Effect :=
  let restored := restore_initial_mute_state s
  let s0 := restored.1
  let e_tray := if s0.tray_icon_added then [Effect.ShellNotifyDelete] else []
  let e_hotkey := if s0.hotkey_registered && s0.main_hwnd then [Effect.UnregisterHotKey] else []
  let e_hook := if s0.keyboard_hook then [Effect.UnhookWindowsHookEx] else []
  let e_volume := if s0.endpoint_volume.isSome then [Effect.ReleaseEndpointVolume] else []
  let e_device := if s0.current_device.isSome then [Effect.ReleaseDevice] else []
  let e_enumerator := if s0.device_enumerator then [Effect.ReleaseEnumerator] else []
  let e_com := if s0.com_initialized then [Effect.CoUninitialize] else []
  let e_window := if s0.main_hwnd then [Effect.DestroyWindow] else []
  ({ s0 with
      tray_icon_added := false
      hotkey_registered := if s0.hotkey_registered && s0.main_hwnd then false
        else s0.hotkey_registered
      keyboard_hook := false
      endpoint_volume := none
      current_device := none
      device_enumerator := false
      com_initialized := false
      main_hwnd := false },
    restored.2 ++ e_tray ++ e_hotkey ++ e_hook ++ e_volume ++ e_device ++ e_enumerator
      ++ e_com ++ e_window)

/-- The text of the notice shown when the hotkey cannot be registered at start-up
(source lines 970-973). -/
def hotkey_error_msg : String :=
  "Failed to register global hotkey.\n"
    ++ "The key combination might already be in use by another application.\n\n"
    ++ "You can still use the tray icon to control the microphone."

/-- The registration of the hotkey delivery in `run` (source lines 975-993). -/
def run_register_hotkey (host : HostAnswers) (s : MicrophoneController) :
    MicrophoneController × List Effect :=
  if s.config.use_keyboard_hook then
    let s1 := { s with keyboard_hook := host.set_windows_hook }
    if !host.set_windows_hook then
      let registered := register_global_hotkey host s1
      (registered.2.1,
        [Effect.SetWindowsHookEx,
          Effect.MessageBox "Failed to install keyboard hook. Falling back to standard hotkey."
            "Hook Error"]
          ++ registered.2.2
          ++ (if !registered.1
              then [Effect.MessageBox hotkey_error_msg "Hotkey Registration Failed"] else []))
    else (s1, [Effect.SetWindowsHookEx])
  else
    let registered := register_global_hotkey host s
    (registered.2.1, registered.2.2
      ++ (if !registered.1
          then [Effect.MessageBox hotkey_error_msg "Hotkey Registration Failed"] else []))

/-- Member `run` (source lines 944-1003) up to the message loop.  The first
component is the status returned before the loop is reached, `none` when the
loop is entered, and also when the process is ended in `setup_tray_icon`, where
neither happens. -/
def run (os : OsAnswers) (host : HostAnswers) (s : MicrophoneController) :
    Option Nat × MicrophoneController × List Effect :=
  let system := initialize_system host s
  if !system.1 then
    (some 1, system.2.1, system.2.2
      ++ [Effect.MessageBox "Failed to initialize system components." "Initialization Error"])
  else
    let loaded := load_config host system.2.1
    let audio := initialize_audio os host loaded.1
    if !audio.1 then (some 1, audio.2.1, system.2.2 ++ loaded.2 ++ audio.2.2)
    else
      let window := create_main_window host audio.2.1
      if !window.1 then
        (some 1, window.2.1, system.2.2 ++ loaded.2 ++ audio.2.2 ++ window.2.2
          ++ [Effect.MessageBox "Failed to create application window."
                "Window Creation Error"])
      else
        let tray := setup_tray_icon host window.2.1
        if terminated tray.2.2 then
          (none, tray.2.1, system.2.2 ++ loaded.2 ++ audio.2.2 ++ window.2.2 ++ tray.2.2)
        else if !tray.1 then
          (some 1, tray.2.1, system.2.2 ++ loaded.2 ++ audio.2.2 ++ window.2.2 ++ tray.2.2
            ++ [Effect.MessageBox "Failed to create system tray icon." "Tray Icon Error"])
        else
          let hotkey := run_register_hotkey host tray.2.1
          (none, hotkey.1,
            system.2.2 ++ loaded.2 ++ audio.2.2 ++ window.2.2 ++ tray.2.2 ++ hotkey.2)

/-! ## The keyboard hook -/

/-- Windows message `WM_KEYDOWN`. -/
def WM_KEYDOWN : Nat := 0x0100
/-- Windows message `WM_SYSKEYDOWN`. -/
def WM_SYSKEYDOWN : Nat := 0x0104
/-- Windows virtual key code `VK_SHIFT`. -/
def VK_SHIFT : Nat := 0x10
/-- Windows virtual key code `VK_CONTROL`. -/
def VK_CONTROL : Nat := 0x11
/-- Windows virtual key code `VK_MENU` (Alt). -/
def VK_MENU : Nat := 0x12
/-- Windows virtual key code `VK_LWIN`. -/
def VK_LWIN : Nat := 0x5B
/-- Windows virtual key code `VK_RWIN`. -/
def VK_RWIN : Nat := 0x5C

/-- The test `(keyboardState[vk] & 0x80) != 0` on the array filled by
`GetKeyboardState`. -/
def key_pressed (keyboardState : Nat → Nat) (vk : Nat) : Bool :=
  (keyboardState vk &&& 0x80) != 0

/-- The local `exact_match` of `should_handle_hotkey` (source lines 675-691). -/
def exact_match (config : Config) (keyboardState : Nat → Nat) : Bool :=
  let ctrl_pressed := key_pressed keyboardState VK_CONTROL
  let alt_pressed := key_pressed keyboardState VK_MENU
  let shift_pressed := key_pressed keyboardState VK_SHIFT
  let win_pressed := key_pressed keyboardState VK_LWIN || key_pressed keyboardState VK_RWIN
  let ctrl_required := (config.hotkey_mod &&& MOD_CONTROL) != 0
  let alt_required := (config.hotkey_mod &&& MOD_ALT) != 0
  let shift_required := (config.hotkey_mod &&& MOD_SHIFT) != 0
  let win_required := (config.hotkey_mod &&& MOD_WIN) != 0
  (ctrl_pressed == ctrl_required) && (alt_pressed == alt_required)
    && (shift_pressed == shift_required) && (win_pressed == win_required)

/-- Member `should_handle_hotkey` (source lines 659-700): `vkCode` is
`kbStruct->vkCode`, `keyboardState` the answer of `GetKeyboardState`. -/
def should_handle_hotkey (s : MicrophoneController) (keyboardState : Nat → Nat)
    (vkCode wParam : Nat) : Bool :=
  if wParam ≠ WM_KEYDOWN ∧ wParam ≠ WM_SYSKEYDOWN then false
  else if vkCode ≠ s.config.hotkey_vk then false
  else if s.config.hotkey_mod = 0 then
    exact_match s.config keyboardState
      && !key_pressed keyboardState VK_CONTROL && !key_pressed keyboardState VK_MENU
      && !key_pressed keyboardState VK_SHIFT
      && !(key_pressed keyboardState VK_LWIN || key_pressed keyboardState VK_RWIN)
  else exact_match s.config keyboardState

/-- A keyboard state in which exactly the listed virtual keys are down. -/
def keys_down (keys : List Nat) : Nat → Nat :=
  fun vk => if vk ∈ keys then 0x80 else 0

/-- The stage of `cleanup` that a call belongs to: 1 the mute restore, 2 the tray
icon, 3 the hotkey delivery, 4 the bound device, 5 the device enumerator,
6 COM, 7 the window; 0 for a call that `cleanup` does not make. -/
def cleanup_stage : Effect → Nat
  | Effect.SetMute _ => 1
  | Effect.ShellNotifyDelete => 2
  | Effect.UnregisterHotKey => 3
  | Effect.UnhookWindowsHookEx => 3
  | Effect.ReleaseEndpointVolume => 4
  | Effect.ReleaseDevice => 4
  | Effect.ReleaseEnumerator => 5
  | Effect.CoUninitialize => 6
  | Effect.DestroyWindow => 7
  | _ => 0

/-- The call goes to the audio subsystem and is one that binding a device can
make. -/
def Effect.is_audio_call : Effect → Bool
  | Effect.CoCreateInstance => true
  | Effect.ReleaseDevice => true
  | Effect.ReleaseEndpointVolume => true
  | Effect.GetDefaultAudioEndpoint => true
  | Effect.EnumAudioEndpoints => true
  | Effect.GetDevice _ => true
  | Effect.Activate => true
  | Effect.GetMute => true
  | _ => false

/-- The caption of a message box, `none` for any other call. -/
def Effect.caption : Effect → Option String
  | Effect.MessageBox _ caption => some caption
  | _ => none

/-- The captions of the message boxes shown, in order. -/
def message_captions (calls : List Effect) : List String :=
  calls.filterMap Effect.caption

/-- The call writes the device list file. -/
def Effect.is_devices_list_write : Effect → Bool
  | Effect.WriteDevicesList _ _ => true
  | _ => false

/-- The call creates a window, a tray icon or a hotkey delivery. -/
def Effect.creates_ui : Effect → Bool
  | Effect.RegisterClass => true
  | Effect.CreateWindow => true
  | Effect.ShellNotifyAdd _ _ => true
  | Effect.RegisterHotKey _ _ => true
  | Effect.SetWindowsHookEx => true
  | _ => false

/-- The call is a `RegisterHotKey`. -/
def Effect.is_register_hot_key : Effect → Bool
  | Effect.RegisterHotKey _ _ => true
  | _ => false

/-- Two states agree on everything but the audio side: the configuration, the
window, the tray icon and the hotkey delivery. -/
def same_shell (a b : MicrophoneController) : Prop :=
  a.config = b.config ∧ a.main_hwnd = b.main_hwnd ∧ a.tray_icon_added = b.tray_icon_added
    ∧ a.hotkey_registered = b.hotkey_registered ∧ a.keyboard_hook = b.keyboard_hook
    ∧ a.com_initialized = b.com_initialized ∧ a.use_keyboard_hook = b.use_keyboard_hook

/-- An operating system without any capture device. -/
def sample_os_no_devices : OsAnswers where
  create_enumerator := true
  enum_audio_endpoints := some []
  default_audio_endpoint := none
  get_device := fun _ => none
  set_mute := fun _ => true
  file_exists := fun _ => true

/-- The host of `sample_host` on which `RegisterHotKey` fails. -/
def sample_host_hotkey_taken (config_text : Option String) : HostAnswers :=
  { sample_host config_text with register_hot_key := fun _ _ => false }

/-- A value that a line `key = value` gives back: no line feed in it, no space or
tab at its start, no space, tab, carriage return or line feed at its end. -/
def clean_value (v : List Char) : Prop :=
  '\n' ∉ v ∧ (∀ c, v.head? = some c → is_key_blank c = false)
    ∧ (∀ c, v.getLast? = some c → is_line_blank c = false)

/-! ## The fixed lines of the configuration file -/

/-- Fixed lines of `save_config`, part 0. -/
def config_block_0 : List String :=
  [rule_line,
    "    MICROPHONE CONTROLLER CONFIGURATION",
    rule_line,
    "",
    "# Lines starting with # are comments",
    "# Boolean values: true/false, yes/no, 1/0, on/off",
    "",
    "=== DEVICE SELECTION ===",
    "",
    "# Use system default microphone device"]

/-- Fixed lines of `save_config`, part 1. -/
def config_block_1 : List String :=
  ["",
    "# Specific device name (only used if use_default_device = false)"]

/-- Fixed lines of `save_config`, part 2. -/
def config_block_2 : List String :=
  ["# Copy the exact device name from that file"]

/-- Fixed lines of `save_config`, part 3. -/
def config_block_3 : List String :=
  ["",
    "=== HOTKEY CONFIGURATION ===",
    "",
    "# Hotkey modifier keys (can be combined by adding values):",
    "#   Alt = 1, Control = 2, Shift = 4, Windows Key = 8",
    "#   Examples: Control+Shift = 6, Alt+Control = 3, Shift only = 4"]

/-- Fixed lines of `save_config`, part 4. -/
def config_block_4 : List String :=
  ["",
    "# Main key for hotkey (virtual key codes):",
    "#   Function keys: F1=112, F2=113, F3=114, ..., F12=123",
    "#   Letters: A=65, B=66, C=67, ..., Z=90",
    "#   Numbers: 0=48, 1=49, 2=50, ..., 9=57",
    "#   Other: Space=32, Enter=13, Tab=9"]

/-- Fixed lines of `save_config`, part 5. -/
def config_block_5 : List String :=
  ["",
    "# Cooldown for toggling the microphone (0-60000, 0=none, 500=half a second, 1000=second)"]

/-- Fixed lines of `save_config`, part 6. -/
def config_block_6 : List String :=
  ["",
    "# Use low-level keyboard hook for more reliable hotkey detection",
    "# (May work better in some apps like Visual Studio)"]

/-- Fixed lines of `save_config`, part 7. -/
def config_block_7 : List String :=
  ["",
    "=== SOUND SETTINGS ===",
    "",
    "# Play notification sounds when muting/unmuting"]

/-- Fixed lines of `save_config`, part 8. -/
def config_block_8 : List String :=
  ["",
    "# Volume for notification sounds (0-100, 0=silent, 100=loudest)"]

/-- Fixed lines of `save_config`, part 9. -/
def config_block_9 : List String :=
  ["",
    "# Sound files (must be WAV format, leave empty to disable specific sounds)",
    "# Files should be in the same folder as this program, or you can specify the exact path"]

/-- Fixed lines of `save_config`, part 10. -/
def config_block_10 : List String :=
  ["",
    "=== BEHAVIOR SETTINGS ===",
    "",
    "# Automatically unmute microphone when program exits",
    "# Set to false if you want to keep the mute state when closing"]

/-- Fixed lines of `save_config`, part 11. -/
def config_block_11 : List String :=
  ["",
    rule_line,
    "                QUICK SETUP",
    rule_line,
    "",
    "1. Run this program to generate device list"]

/-- Fixed lines of `save_config`, part 12. -/
def config_block_12 : List String :=
  ["3. Edit this config file with your preferred settings",
    "4. Right-click tray icon -> 'Reload Config' to apply changes",
    "",
    "Default hotkey: Ctrl+Shift+F1",
    "Left-click tray icon: Toggle mute",
    "Right-click tray icon: Show menu",
    ""]

/-- The condition under which the file written by `save_config` reads back: the
two hotkey numbers fit `UINT`, the two clamped fields are within their bounds,
the three names are clean values, and `devices_list_file` has no line feed. -/
def Config.saveable (config : Config) : Prop :=
  config.hotkey_mod ≤ ULONG_MAX ∧ config.hotkey_vk ≤ ULONG_MAX ∧ config.in_bounds
    ∧ clean_value config.device_name.data ∧ clean_value config.mute_sound_file.data
    ∧ clean_value config.unmute_sound_file.data ∧ '\n' ∉ config.devices_list_file.data

/-- The settings of the eleven setting lines of `save_config`, the last one first. -/
def config_settings_list (config : Config) : List (List Char × List Char) :=
  [("unmute_on_exit".data, (bool_text config.unmute_on_exit).data),
    ("unmute_sound_file".data, config.unmute_sound_file.data),
    ("mute_sound_file".data, config.mute_sound_file.data),
    ("sound_volume".data, (decimal_int config.sound_volume)),
    ("play_sounds".data, (bool_text config.play_sounds).data),
    ("use_keyboard_hook".data, (bool_text config.use_keyboard_hook).data),
    ("toggle_cooldown".data, (decimal_int config.toggle_cooldown)),
    ("hotkey_vk".data, (decimal config.hotkey_vk)),
    ("hotkey_mod".data, (decimal config.hotkey_mod)),
    ("device_name".data, config.device_name.data),
    ("use_default_device".data, (bool_text config.use_default_device).data)]

/-- The rebind of `reload_configuration` (source lines 758-767): the answer of
`find_and_set_target_device`, called after the hotkey was released and the file
loaded. -/
def reload_rebind (os : OsAnswers) (host : HostAnswers) (s : MicrophoneController) :
    Bool × MicrophoneController × List Effect :=
  find_and_set_target_device os (load_config host { s with hotkey_registered := false }).1

/-- The tray refresh of `reload_configuration` does not overflow `szTip`: when
the rebind succeeds and the tray icon has been added, the tip for the device
just bound fits.  (After a failed rebind no refresh is made.) -/
def reload_tip_fits (os : OsAnswers) (host : HostAnswers) (s : MicrophoneController) : Prop :=
  (reload_rebind os host s).1 = true → s.tray_icon_added = true →
    wcslen (tooltip (reload_rebind os host s).2.1.is_muted
      (reload_rebind os host s).2.1.current_device_name) < SZTIP_SIZE

/-- The captions of the notices shown other than the one captioned
"Config Reload", with which `handle_menu_command` closes the Reload Config
command. -/
def failure_notices (calls : List Effect) : List String :=
  (message_captions calls).filter fun caption => caption ≠ "Config Reload"

/-- The controller of `sample_bound` after a toggle has muted the device. -/
def sample_muted : MicrophoneController :=
  (toggle_microphone_mute sample_os 5000000000 sample_bound).1

/-- A device name of 116 characters. -/
def long_device_name : String :=
  String.mk (List.replicate 116 'm')

/-- A capture device with that name, active, whose endpoint volume reports
"muted". -/
def long_named_mic : IMMDevice where
  get_id := some "usb-long"
  property_store :=
    some { friendly_name := some long_device_name, device_desc := some "Microphone" }
  get_state := some DEVICE_STATE_ACTIVE
  activate := some { get_mute := some true }

/-- An operating system with `long_named_mic` as its only capture device, on
which every call succeeds and every sound file exists. -/
def sample_os_long_name : OsAnswers where
  create_enumerator := true
  enum_audio_endpoints := some [some long_named_mic]
  default_audio_endpoint := some long_named_mic
  get_device := fun id => if id = "usb-long" then some long_named_mic else none
  set_mute := fun _ => true
  file_exists := fun _ => true

/-- A configuration file that selects `long_named_mic` by its name. -/
def long_name_config_text : String :=
  "use_default_device = false\ndevice_name = " ++ long_device_name ++ "\n"

/-- The controller when `run` enters the message loop on `sample_os_long_name`
with that configuration file. -/
def sample_long_name_started : MicrophoneController :=
  (run sample_os_long_name (sample_host (some long_name_config_text))
    MicrophoneController.new).2.1

/-! ## Facts about the sound and tray helpers -/

theorem play_sound_mem (config : Config) (os : OsAnswers) (sound_file : String) (e : Effect)
    (h : e ∈ play_sound config os sound_file) :
    e = Effect.GetFileAttributes sound_file ∨ e = Effect.PlaySoundStop
      ∨ (∃ v, e = Effect.waveOutSetVolume v) ∨ e = Effect.PlaySound sound_file := by
  unfold play_sound at h
  split_ifs at h <;> simp at h <;> aesop

theorem play_sound_requested (config : Config) (os : OsAnswers) (sound_file file : String)
    (h : Effect.PlaySound file ∈ play_sound config os sound_file) :
    file = sound_file ∧ config.play_sounds = true ∧ 0 < config.sound_volume := by
  unfold play_sound at h
  split_ifs at h <;> simp at h <;> simp_all <;> omega

theorem play_sound_no_set_mute (config : Config) (os : OsAnswers) (sound_file : String) :
    (play_sound config os sound_file).filter Effect.is_set_mute = [] := by
  rw [List.filter_eq_nil_iff]
  intro e he
  rcases play_sound_mem config os sound_file e he with h | h | ⟨v, h⟩ | h <;>
    simp [h, Effect.is_set_mute]

theorem play_sound_no_tray_refresh (config : Config) (os : OsAnswers) (sound_file : String) :
    (play_sound config os sound_file).filter Effect.is_tray_refresh = [] := by
  rw [List.filter_eq_nil_iff]
  intro e he
  rcases play_sound_mem config os sound_file e he with h | h | ⟨v, h⟩ | h <;>
    simp [h, Effect.is_tray_refresh]

/-- Member `update_tray_icon`, case by case: nothing without a tray icon, the
refresh when the tip fits `szTip`, the end of the process when it does not. -/
theorem update_tray_icon_eq (s : MicrophoneController) :
    update_tray_icon s
      = if s.tray_icon_added = true then
          if wcslen (tooltip s.is_muted s.current_device_name) < SZTIP_SIZE then
            ({ s with notification_icon_muted := s.is_muted,
                      notification_tip := tooltip s.is_muted s.current_device_name },
              [Effect.ShellNotifyModify s.is_muted (tooltip s.is_muted s.current_device_name)])
          else ({ s with notification_icon_muted := s.is_muted }, [Effect.InvalidParameter])
        else (s, []) := by
  unfold update_tray_icon wcscpy_s
  cases s.tray_icon_added
  · rfl
  · by_cases h : wcslen (tooltip s.is_muted s.current_device_name) < SZTIP_SIZE <;>
      simp [h]

theorem update_tray_icon_no_set_mute (s : MicrophoneController) :
    (update_tray_icon s).2.filter Effect.is_set_mute = [] := by
  rw [update_tray_icon_eq]
  split_ifs <;> simp [Effect.is_set_mute]

/-- What `update_tray_icon` leaves alone, and when it ends the process. -/
theorem update_tray_icon_fields (s : MicrophoneController) :
    (update_tray_icon s).1.is_muted = s.is_muted
      ∧ (update_tray_icon s).1.last_toggle_time = s.last_toggle_time
      ∧ (update_tray_icon s).1.config = s.config
      ∧ (update_tray_icon s).1.endpoint_volume = s.endpoint_volume
      ∧ (update_tray_icon s).1.current_device_name = s.current_device_name
      ∧ (update_tray_icon s).1.tray_icon_added = s.tray_icon_added
      ∧ (terminated (update_tray_icon s).2 = true
          ↔ s.tray_icon_added = true
            ∧ ¬ wcslen (tooltip s.is_muted s.current_device_name) < SZTIP_SIZE) := by
  rw [update_tray_icon_eq]
  split_ifs <;> simp_all [terminated, Effect.is_invalid_parameter]

theorem play_sound_not_terminated (config : Config) (os : OsAnswers) (sound_file : String) :
    terminated (play_sound config os sound_file) = false := by
  unfold terminated
  rw [List.any_eq_false]
  intro e he
  rcases play_sound_mem config os sound_file e he with h | h | ⟨v, h⟩ | h <;>
    simp [h, Effect.is_invalid_parameter]

/-- An accepted toggle whose mute-set succeeds: the result, field by field. -/
theorem toggle_accepted (os : OsAnswers) (now : Int) (s : MicrophoneController)
    (hbound : s.endpoint_volume.isSome = true)
    (hgate : ¬ now - s.last_toggle_time < s.config.toggle_cooldown * NS_PER_MS)
    (hset : os.set_mute (!s.is_muted) = true) :
    (toggle_microphone_mute os now s).1.is_muted = (!s.is_muted)
      ∧ (toggle_microphone_mute os now s).1.last_toggle_time = now
      ∧ (toggle_microphone_mute os now s).1.config = s.config
      ∧ (toggle_microphone_mute os now s).1.endpoint_volume = s.endpoint_volume
      ∧ (toggle_microphone_mute os now s).2 =
          [Effect.SetMute (!s.is_muted)]
            ++ play_sound s.config os
                (if (!s.is_muted) = true then s.config.mute_sound_file
                  else s.config.unmute_sound_file)
            ++ (update_tray_icon { s with last_toggle_time := now, is_muted := !s.is_muted }).2
      ∧ (toggle_microphone_mute os now s).1.current_device_name = s.current_device_name
      ∧ (terminated (toggle_microphone_mute os now s).2 = true
          ↔ s.tray_icon_added = true
            ∧ ¬ wcslen (tooltip (!s.is_muted) s.current_device_name) < SZTIP_SIZE) := by
  obtain ⟨v, hv⟩ := Option.isSome_iff_exists.mp hbound
  have hr : toggle_microphone_mute os now s
      = ((update_tray_icon { s with last_toggle_time := now, is_muted := !s.is_muted }).1,
          [Effect.SetMute (!s.is_muted)]
            ++ play_sound s.config os
                (if (!s.is_muted) = true then s.config.mute_sound_file
                  else s.config.unmute_sound_file)
            ++ (update_tray_icon
                { s with last_toggle_time := now, is_muted := !s.is_muted }).2) := by
    simp [toggle_microphone_mute, hgate, hv, hset]
  obtain ⟨f1, f2, f3, f4, f5, _, f7⟩ :=
    update_tray_icon_fields { s with last_toggle_time := now, is_muted := !s.is_muted }
  rw [hr]
  refine ⟨f1, f2, f3, f4, rfl, f5, ?_⟩
  rw [← f7]
  have hp := play_sound_not_terminated s.config os
    (if (!s.is_muted) = true then s.config.mute_sound_file else s.config.unmute_sound_file)
  unfold terminated at hp ⊢
  simp only [List.any_append, hp]
  simp [Effect.is_invalid_parameter]

theorem toggle_accepted_set_mute_calls (os : OsAnswers) (now : Int) (s : MicrophoneController)
    (hbound : s.endpoint_volume.isSome = true)
    (hgate : ¬ now - s.last_toggle_time < s.config.toggle_cooldown * NS_PER_MS)
    (hset : os.set_mute (!s.is_muted) = true) :
    (toggle_microphone_mute os now s).2.filter Effect.is_set_mute
      = [Effect.SetMute (!s.is_muted)] := by
  rw [(toggle_accepted os now s hbound hgate hset).2.2.2.2.1]
  simp [List.filter_append, play_sound_no_set_mute, update_tray_icon_no_set_mute,
    Effect.is_set_mute]

/-! ## The cooldown gate -/

/-- C1.  A call of `toggle_microphone_mute` at a time `now` with
`now - last_toggle_time < toggle_cooldown` is a no-op, bound or not: the whole
state (so `is_muted` and `last_toggle_time`) is unchanged and no call at all
(mute-set, sound, tray) is issued. -/
theorem toggle_within_cooldown_is_noop (os : OsAnswers) (now : Int) (s : MicrophoneController)
    (h : now - s.last_toggle_time < s.config.toggle_cooldown * NS_PER_MS) :
    (toggle_microphone_mute os now s).1 = s ∧ (toggle_microphone_mute os now s).2 = [] := by
  simp [toggle_microphone_mute, h]

/-- Cooldown 1000 ms, a first toggle at 5000 ms and a second one 50 ms later: the
first one mutes, the second one is dropped. -/
theorem toggle_within_cooldown_is_noop_witness :
    sample_bound.config.toggle_cooldown = 1000
      ∧ (toggle_microphone_mute sample_os 5000000000 sample_bound).1.is_muted = true
      ∧ ((toggle_microphone_mute sample_os 5050000000
            (toggle_microphone_mute sample_os 5000000000 sample_bound).1).1
          = (toggle_microphone_mute sample_os 5000000000 sample_bound).1
        ∧ (toggle_microphone_mute sample_os 5050000000
            (toggle_microphone_mute sample_os 5000000000 sample_bound).1).2 = []) :=
  ⟨by decide, by decide,
    toggle_within_cooldown_is_noop sample_os 5050000000
      (toggle_microphone_mute sample_os 5000000000 sample_bound).1 (by decide)⟩

/-! ## Alternation -/

/-- C2, as stated, fails on the first call of a sequence.  The static
`last_toggle_time` starts at the clock's epoch and is not reset by a bind, so
the first toggle is dropped when it comes less than the cooldown after the
epoch (500 ms, cooldown 1000 ms), and also when it comes less than the cooldown
after a toggle made before a rebind (toggle at 5000 ms, rebind, toggle at
5500 ms), although no two calls of the sequence are closer than the cooldown. -/
theorem toggle_sequence_first_call_dropped :
    (¬ ∀ (s : MicrophoneController) (calls : List (Int × OsAnswers)),
        s.endpoint_volume.isSome = true →
        (∀ c ∈ calls, ∀ b, c.2.set_mute b = true) →
        List.Chain' (fun a b => s.config.toggle_cooldown * NS_PER_MS ≤ b - a)
          (calls.map Prod.fst) →
        (toggle_sequence calls s).1.is_muted = Nat.iterate not calls.length s.is_muted)
      ∧ (toggle_sequence [(500000000, sample_os)] sample_bound).1.is_muted
          = sample_bound.is_muted
      ∧ (find_and_set_target_device sample_os
          (toggle_microphone_mute sample_os 5000000000 sample_bound).1).1 = true
      ∧ (find_and_set_target_device sample_os
          (toggle_microphone_mute sample_os 5000000000 sample_bound).1).2.1.is_muted = false
      ∧ (toggle_sequence [(5500000000, sample_os)]
          (find_and_set_target_device sample_os
            (toggle_microphone_mute sample_os 5000000000 sample_bound).1).2.1).1.is_muted
          = false := by
  refine ⟨?_, by decide, by decide, by decide, by decide⟩
  intro h
  have h1 := h sample_bound [(500000000, sample_os)] (by decide)
    (by simp [sample_os]) (by simp)
  revert h1
  decide

/-- C2, amended.  On a bound device whose mute-set calls succeed and whose tray
tip fits `szTip` in both mute states, when the first call comes at least
`toggle_cooldown` after `last_toggle_time` and each later call at least
`toggle_cooldown` after the one before, every call is accepted: the process is
not ended, there are as many mute-set calls as toggles, and `is_muted` is its
starting value negated once per call. -/
theorem toggle_sequence_alternates (calls : List (Int × OsAnswers)) (s : MicrophoneController)
    (hbound : s.endpoint_volume.isSome = true)
    (hset : ∀ c ∈ calls, ∀ b, c.2.set_mute b = true)
    (hspaced : List.Chain (fun a b => s.config.toggle_cooldown * NS_PER_MS ≤ b - a)
      s.last_toggle_time (calls.map Prod.fst))
    (htip : ∀ muted : Bool, wcslen (tooltip muted s.current_device_name) < SZTIP_SIZE) :
    terminated (toggle_sequence calls s).2 = false
      ∧ (toggle_sequence calls s).1.is_muted = Nat.iterate not calls.length s.is_muted
      ∧ ((toggle_sequence calls s).2.filter Effect.is_set_mute).length = calls.length := by
  induction calls generalizing s with
  | nil => simp [toggle_sequence, terminated]
  | cons c rest ih =>
    obtain ⟨now, os⟩ := c
    simp only [List.map_cons, List.chain_cons] at hspaced
    obtain ⟨hfirst, hrest⟩ := hspaced
    have hgate : ¬ now - s.last_toggle_time < s.config.toggle_cooldown * NS_PER_MS :=
      not_lt.mpr hfirst
    have hok : os.set_mute (!s.is_muted) = true := hset (now, os) (by simp) _
    obtain ⟨hm, ht, hc, he, _, hn, hterm⟩ := toggle_accepted os now s hbound hgate hok
    have hlive : terminated (toggle_microphone_mute os now s).2 = false := by
      cases hx : terminated (toggle_microphone_mute os now s).2
      · rfl
      · exact absurd (htip _) (hterm.mp hx).2
    have hcalls := toggle_accepted_set_mute_calls os now s hbound hgate hok
    have ih1 := ih (toggle_microphone_mute os now s).1 (by rw [he]; exact hbound)
      (fun c hc1 b => hset c (List.mem_cons_of_mem _ hc1) b)
      (by rw [hc, ht]; exact hrest) (by rw [hn]; exact htip)
    simp only [toggle_sequence, hlive, Bool.false_eq_true, if_false, List.length_cons,
      Function.iterate_succ_apply, List.filter_append, List.length_append]
    rw [ih1.2.1, ih1.2.2, hm, hcalls]
    refine ⟨?_, rfl, by simp [Nat.add_comm]⟩
    have h1 := ih1.1
    unfold terminated at h1 hlive ⊢
    simp [List.any_append, h1, hlive]

/-- Three toggles 1000 ms apart, the first one 5000 ms after the epoch: muted,
unmuted, muted. -/
theorem toggle_sequence_alternates_witness :
    terminated (toggle_sequence
        [(5000000000, sample_os), (6000000000, sample_os), (7000000000, sample_os)]
        sample_bound).2 = false
      ∧ (toggle_sequence
        [(5000000000, sample_os), (6000000000, sample_os), (7000000000, sample_os)]
        sample_bound).1.is_muted = Nat.iterate not 3 sample_bound.is_muted
      ∧ ((toggle_sequence
        [(5000000000, sample_os), (6000000000, sample_os), (7000000000, sample_os)]
        sample_bound).2.filter Effect.is_set_mute).length = 3 :=
  toggle_sequence_alternates
    [(5000000000, sample_os), (6000000000, sample_os), (7000000000, sample_os)]
    sample_bound (by decide) (by simp [sample_os])
    (List.Chain.cons (by decide) (List.Chain.cons (by decide)
      (List.Chain.cons (by decide) List.Chain.nil)))
    (by decide)

/-! ## A failed mute-set -/

/-- C3, as stated, fails: on `sample_bound` (cooldown 1000 ms) a toggle at 5000 ms
passes the gate, `SetMute` fails, and afterwards `last_toggle_time` is the time
of the call and `is_muted` differs from its value before the call; a toggle one
millisecond later is dropped by the cooldown. -/
theorem toggle_failed_set_mute_changes_state :
    sample_bound.endpoint_volume.isSome = true
      ∧ ¬ (5000000000 - sample_bound.last_toggle_time
            < sample_bound.config.toggle_cooldown * NS_PER_MS)
      ∧ sample_os_set_mute_fails.set_mute (!sample_bound.is_muted) = false
      ∧ (toggle_microphone_mute sample_os_set_mute_fails 5000000000 sample_bound).1
          ≠ sample_bound
      ∧ (toggle_microphone_mute sample_os_set_mute_fails 5000000000 sample_bound).1.is_muted
          ≠ sample_bound.is_muted
      ∧ (toggle_microphone_mute sample_os_set_mute_fails 5000000000
          sample_bound).1.last_toggle_time ≠ sample_bound.last_toggle_time
      ∧ (toggle_microphone_mute sample_os 5001000000
          (toggle_microphone_mute sample_os_set_mute_fails 5000000000 sample_bound).1).2
          = [] := by
  decide

/-- C3, amended.  When a toggle on a bound device passes the cooldown gate and the
mute-set call fails, the only call issued is that mute-set with the negated
`is_muted` (no sound, no tray refresh), `last_toggle_time` becomes `now`, and
any toggle less than `toggle_cooldown` after `now` is dropped. -/
theorem toggle_failed_set_mute (os : OsAnswers) (now : Int) (s : MicrophoneController)
    (hbound : s.endpoint_volume.isSome = true)
    (hgate : ¬ now - s.last_toggle_time < s.config.toggle_cooldown * NS_PER_MS)
    (hset : os.set_mute (!s.is_muted) = false) :
    (toggle_microphone_mute os now s).2 = [Effect.SetMute (!s.is_muted)]
      ∧ (toggle_microphone_mute os now s).1.last_toggle_time = now
      ∧ ∀ (os2 : OsAnswers) (next : Int),
          next - now < s.config.toggle_cooldown * NS_PER_MS →
          toggle_microphone_mute os2 next (toggle_microphone_mute os now s).1
            = ((toggle_microphone_mute os now s).1, []) := by
  obtain ⟨v, hv⟩ := Option.isSome_iff_exists.mp hbound
  have hr : toggle_microphone_mute os now s
      = ({ s with last_toggle_time := now, is_muted := !s.is_muted },
          [Effect.SetMute (!s.is_muted)]) := by
    simp [toggle_microphone_mute, hgate, hv, hset]
  rw [hr]
  refine ⟨rfl, rfl, ?_⟩
  intro os2 next hnext
  simp [toggle_microphone_mute, hnext]

/-- On `sample_bound` with a failing `SetMute`, at 5000 ms. -/
theorem toggle_failed_set_mute_witness :
    (toggle_microphone_mute sample_os_set_mute_fails 5000000000 sample_bound).2
        = [Effect.SetMute (!sample_bound.is_muted)]
      ∧ (toggle_microphone_mute sample_os_set_mute_fails 5000000000
          sample_bound).1.last_toggle_time = 5000000000
      ∧ ∀ (os2 : OsAnswers) (next : Int),
          next - 5000000000 < sample_bound.config.toggle_cooldown * NS_PER_MS →
          toggle_microphone_mute os2 next
              (toggle_microphone_mute sample_os_set_mute_fails 5000000000 sample_bound).1
            = ((toggle_microphone_mute sample_os_set_mute_fails 5000000000 sample_bound).1,
                []) :=
  toggle_failed_set_mute sample_os_set_mute_fails 5000000000 sample_bound
    (by decide) (by decide) (by decide)

/-! ## No bound mute control -/

/-- C4, as stated, fails: on the freshly constructed controller (nothing bound,
cooldown 1000 ms) a toggle at 5000 ms sets `last_toggle_time` to the time of the
call. -/
theorem toggle_unbound_updates_timestamp :
    MicrophoneController.new.endpoint_volume = none
      ∧ (toggle_microphone_mute sample_os 5000000000
          MicrophoneController.new).1.last_toggle_time = 5000000000
      ∧ MicrophoneController.new.last_toggle_time = 0 := by
  decide

/-- C4, amended.  With no bound mute control (`endpoint_volume` empty) a toggle
issues no call at all and changes no field other than `last_toggle_time`, so
`is_muted` is unchanged; `last_toggle_time` is unchanged when the call falls in
the cooldown window and becomes `now` otherwise. -/
theorem toggle_unbound (os : OsAnswers) (now : Int) (s : MicrophoneController)
    (hunbound : s.endpoint_volume = none) :
    (toggle_microphone_mute os now s).2 = []
      ∧ (toggle_microphone_mute os now s).1.is_muted = s.is_muted
      ∧ (toggle_microphone_mute os now s).1
          = { s with last_toggle_time :=
                if now - s.last_toggle_time < s.config.toggle_cooldown * NS_PER_MS
                then s.last_toggle_time else now } := by
  by_cases hgate : now - s.last_toggle_time < s.config.toggle_cooldown * NS_PER_MS
  · simp [toggle_microphone_mute, hgate]
  · simp only [toggle_microphone_mute, hgate, if_false, hunbound]
    simp

/-- On the freshly constructed controller, at 5000 ms. -/
theorem toggle_unbound_witness :
    (toggle_microphone_mute sample_os 5000000000 MicrophoneController.new).2 = []
      ∧ (toggle_microphone_mute sample_os 5000000000 MicrophoneController.new).1.is_muted
          = MicrophoneController.new.is_muted
      ∧ (toggle_microphone_mute sample_os 5000000000 MicrophoneController.new).1
          = { MicrophoneController.new with last_toggle_time :=
                if 5000000000 - MicrophoneController.new.last_toggle_time
                    < MicrophoneController.new.config.toggle_cooldown * NS_PER_MS
                then MicrophoneController.new.last_toggle_time else 5000000000 } :=
  toggle_unbound sample_os 5000000000 MicrophoneController.new (by decide)

/-! ## A successful toggle -/

/-- An accepted toggle whose mute-set succeeds, when the tray tip of the new state
fits `szTip`: the process is not ended; exactly one mute-set call is issued,
with the negation of the old `is_muted`; `is_muted` becomes that value and
`last_toggle_time` becomes `now`; a playback is requested only for
`mute_sound_file` when the new state is muted and for `unmute_sound_file`
otherwise, and only if `play_sounds` is true and `sound_volume > 0`; and when
the tray icon has been added exactly one tray refresh is issued, showing the
new state and `current_device_name`. -/
theorem toggle_success (os : OsAnswers) (now : Int) (s : MicrophoneController)
    (hbound : s.endpoint_volume.isSome = true)
    (hgate : ¬ now - s.last_toggle_time < s.config.toggle_cooldown * NS_PER_MS)
    (hset : os.set_mute (!s.is_muted) = true)
    (htip : wcslen (tooltip (!s.is_muted) s.current_device_name) < SZTIP_SIZE) :
    terminated (toggle_microphone_mute os now s).2 = false
      ∧ (toggle_microphone_mute os now s).2.filter Effect.is_set_mute
        = [Effect.SetMute (!s.is_muted)]
      ∧ (toggle_microphone_mute os now s).1.is_muted = (!s.is_muted)
      ∧ (toggle_microphone_mute os now s).1.last_toggle_time = now
      ∧ (∀ file, Effect.PlaySound file ∈ (toggle_microphone_mute os now s).2 →
          file = (if (!s.is_muted) = true then s.config.mute_sound_file
                  else s.config.unmute_sound_file)
            ∧ s.config.play_sounds = true ∧ 0 < s.config.sound_volume)
      ∧ (toggle_microphone_mute os now s).2.filter Effect.is_tray_refresh
          = if s.tray_icon_added = true
            then [Effect.ShellNotifyModify (!s.is_muted)
                    (tooltip (!s.is_muted) s.current_device_name)]
            else [] := by
  obtain ⟨hm, ht, _, _, he, _, hterm⟩ := toggle_accepted os now s hbound hgate hset
  have hlive : terminated (toggle_microphone_mute os now s).2 = false := by
    cases hx : terminated (toggle_microphone_mute os now s).2
    · rfl
    · exact absurd htip (hterm.mp hx).2
  refine ⟨hlive, toggle_accepted_set_mute_calls os now s hbound hgate hset, hm, ht, ?_, ?_⟩
  · intro file hfile
    rw [he] at hfile
    simp only [List.mem_append, List.mem_singleton] at hfile
    rcases hfile with (hfile | hfile) | hfile
    · cases hfile
    · exact play_sound_requested _ _ _ _ hfile
    · rw [update_tray_icon_eq] at hfile
      split_ifs at hfile <;> simp at hfile
  · rw [he, update_tray_icon_eq]
    cases htray : s.tray_icon_added <;>
      simp [List.filter_append, play_sound_no_tray_refresh, htray, htip,
        Effect.is_tray_refresh]

/-- On `sample_bound` at 5000 ms: mute-set(true), the mute sound, one tray refresh. -/
theorem toggle_success_sample :
    (toggle_microphone_mute sample_os 5000000000 sample_bound).2
        = [Effect.SetMute true, Effect.GetFileAttributes "mute.wav", Effect.PlaySoundStop,
            Effect.waveOutSetVolume 50, Effect.PlaySound "mute.wav",
            Effect.ShellNotifyModify true "🔇 MUTED - Default Device"]
      ∧ (toggle_microphone_mute sample_os 5000000000 sample_bound).2.filter
          Effect.is_set_mute = [Effect.SetMute (!sample_bound.is_muted)] :=
  ⟨by decide,
    (toggle_success sample_os 5000000000 sample_bound (by decide) (by decide)
      (by decide) (by decide)).2.1⟩

/-- C5 on the code.  Start-up with a configuration that selects, by its name, a
capture device whose name has 116 `WCHAR`s and which is muted: the tip
"🔇 MUTED - " and the name (127 `WCHAR`s) fits `szTip`, `run` enters the message
loop with the device bound and the tray icon added.  The first toggle passes
the cooldown gate and its mute-set succeeds; the sound is played; then the tip
"🎤 UNMUTED - " and the name (129 `WCHAR`s) does not fit, `wcscpy_s` ends the
process, and no tray refresh is issued. -/
theorem toggle_long_device_name_ends_process :
    wcslen long_device_name = 116
      ∧ wcslen (tooltip true long_device_name) = 127
      ∧ wcslen (tooltip false long_device_name) = 129
      ∧ (run sample_os_long_name (sample_host (some long_name_config_text))
          MicrophoneController.new).1 = none
      ∧ terminated (run sample_os_long_name (sample_host (some long_name_config_text))
          MicrophoneController.new).2.2 = false
      ∧ sample_long_name_started.endpoint_volume.isSome = true
      ∧ sample_long_name_started.tray_icon_added = true
      ∧ sample_long_name_started.is_muted = true
      ∧ sample_long_name_started.current_device_name = long_device_name
      ∧ ¬ (5000000000 - sample_long_name_started.last_toggle_time
            < sample_long_name_started.config.toggle_cooldown * NS_PER_MS)
      ∧ sample_os_long_name.set_mute (!sample_long_name_started.is_muted) = true
      ∧ (toggle_microphone_mute sample_os_long_name 5000000000 sample_long_name_started).2
          = [Effect.SetMute false, Effect.GetFileAttributes "unmute.wav",
              Effect.PlaySoundStop, Effect.waveOutSetVolume 50,
              Effect.PlaySound "unmute.wav", Effect.InvalidParameter]
      ∧ (toggle_microphone_mute sample_os_long_name 5000000000
          sample_long_name_started).2.filter Effect.is_tray_refresh = [] := by
  decide

/-! ## Facts about enumeration and the search by name -/

theorem enumerate_audio_devices_held (os : OsAnswers) (s : MicrophoneController)
    (h : s.device_enumerator = true) :
    (enumerate_audio_devices os s).2.1 = s
      ∧ (enumerate_audio_devices os s).2.2.count Effect.GetMute = 0 := by
  cases s
  simp only at h
  subst h
  unfold enumerate_audio_devices
  cases hc : os.enum_audio_endpoints <;> simp

theorem enumerate_audio_devices_list (os : OsAnswers) (s t : MicrophoneController)
    (hs : s.device_enumerator = true ∨ os.create_enumerator = true)
    (ht : t.device_enumerator = true) :
    (enumerate_audio_devices os t).1 = (enumerate_audio_devices os s).1 := by
  unfold enumerate_audio_devices
  rcases hs with hs | hs <;> cases hc : os.enum_audio_endpoints <;> simp [hs, ht]

theorem find_named_device_first (os : OsAnswers) (device_name : String)
    (devices : List AudioDevice) :
    (find_named_device os device_name devices).1
      = (devices.find? (bindable os device_name)).bind
          fun device => (os.get_device device.id).map fun d => (device, d) := by
  induction devices with
  | nil => simp [find_named_device]
  | cons device rest ih =>
    unfold find_named_device
    by_cases hm : device.name = device_name ∧ device.is_enabled = true
    · cases hg : os.get_device device.id with
      | none => simp [hm, hg, ih, bindable, List.find?_cons]
      | some d => simp [hm, hg, bindable, List.find?_cons]
    · have hb : bindable os device_name device = false := by
        simp only [bindable]
        by_cases hn : device.name = device_name
        · have : device.is_enabled = false := by
            cases he : device.is_enabled
            · rfl
            · exact absurd ⟨hn, he⟩ hm
          simp [this]
        · simp [hn]
      simp [hm, ih, List.find?_cons, hb]

theorem find_named_device_calls (os : OsAnswers) (device_name : String)
    (devices : List AudioDevice) :
    ∀ e ∈ (find_named_device os device_name devices).2, ∃ id, e = Effect.GetDevice id := by
  induction devices with
  | nil => simp [find_named_device]
  | cons device rest ih =>
    unfold find_named_device
    split_ifs
    · split
      · simp
      · intro e he
        simp only [List.mem_cons] at he
        rcases he with he | he
        · exact ⟨_, he⟩
        · exact ih e he
    · exact ih

theorem find_named_device_no_get_mute (os : OsAnswers) (device_name : String)
    (devices : List AudioDevice) :
    (find_named_device os device_name devices).2.count Effect.GetMute = 0 := by
  rw [List.count_eq_zero]
  intro h
  obtain ⟨id, hid⟩ := find_named_device_calls os device_name devices _ h
  cases hid

theorem find_named_device_no_enumeration (os : OsAnswers) (device_name : String)
    (devices : List AudioDevice) :
    Effect.EnumAudioEndpoints ∉ (find_named_device os device_name devices).2 := by
  intro h
  obtain ⟨id, hid⟩ := find_named_device_calls os device_name devices _ h
  cases hid

theorem activate_and_read_mute_frame (s : MicrophoneController) (device : IMMDevice)
    (issued : List Effect) :
    (activate_and_read_mute s device issued).2.1.current_device = s.current_device
      ∧ (activate_and_read_mute s device issued).2.1.current_device_name
          = s.current_device_name
      ∧ (activate_and_read_mute s device issued).2.1.available_devices = s.available_devices
      ∧ (activate_and_read_mute s device issued).2.1.config = s.config := by
  unfold activate_and_read_mute
  cases device.activate with
  | none => simp
  | some volume => cases hm : volume.get_mute <;> simp [hm]

theorem activate_and_read_mute_result (s : MicrophoneController) (device : IMMDevice)
    (issued : List Effect) (hissued : issued.count Effect.GetMute = 0) :
    ((activate_and_read_mute s device issued).1 = true →
        (activate_and_read_mute s device issued).2.2.count Effect.GetMute = 1
          ∧ ∃ volume muted, device.activate = some volume ∧ volume.get_mute = some muted
              ∧ (activate_and_read_mute s device issued).2.1.endpoint_volume = some volume
              ∧ (activate_and_read_mute s device issued).2.1.is_muted = muted
              ∧ (activate_and_read_mute s device issued).2.1.initial_mute_state = muted)
      ∧ ((activate_and_read_mute s device issued).1 = false →
          (activate_and_read_mute s device issued).2.1.is_muted = s.is_muted
            ∧ (activate_and_read_mute s device issued).2.1.initial_mute_state
                = s.initial_mute_state) := by
  unfold activate_and_read_mute
  cases ha : device.activate with
  | none => simp
  | some volume => cases hm : volume.get_mute <;> simp [hm, hissued]

theorem activate_and_read_mute_state (s : MicrophoneController) (device : IMMDevice)
    (issued : List Effect) :
    ((activate_and_read_mute s device issued).1 = true →
        (activate_and_read_mute s device issued).2.1.endpoint_volume.isSome = true)
      ∧ ((activate_and_read_mute s device issued).1 = false →
          (device.activate = none
              ∧ (activate_and_read_mute s device issued).2.1.endpoint_volume
                  = s.endpoint_volume)
            ∨ ∃ volume, device.activate = some volume ∧ volume.get_mute = none
                ∧ (activate_and_read_mute s device issued).2.1.endpoint_volume
                    = some volume) := by
  unfold activate_and_read_mute
  cases ha : device.activate with
  | none => simp
  | some volume => cases hm : volume.get_mute <;> simp [hm]

/-- The two ways `find_and_set_target_device` ends: an early `return false`, or
the activation of a device just stored in `current_device`. -/
theorem find_and_set_target_device_shape (os : OsAnswers) (s : MicrophoneController) :
    (∃ s1 issued, find_and_set_target_device os s = (false, s1, issued)
        ∧ s1.is_muted = s.is_muted ∧ s1.initial_mute_state = s.initial_mute_state
        ∧ issued.count Effect.GetMute = 0
        ∧ (s1 = s ∨ (s1.current_device = none ∧ s1.endpoint_volume = none)))
      ∨ (∃ s1 device issued,
          find_and_set_target_device os s = activate_and_read_mute s1 device issued
            ∧ s1.is_muted = s.is_muted ∧ s1.initial_mute_state = s.initial_mute_state
            ∧ issued.count Effect.GetMute = 0
            ∧ s1.current_device = some device ∧ s1.endpoint_volume = none) := by
  unfold find_and_set_target_device
  by_cases h0 : (!s.device_enumerator && !os.create_enumerator) = true
  · left
    simp only [h0, if_true]
    exact ⟨s, _, rfl, rfl, rfl, by simp, Or.inl rfl⟩
  · simp only [h0, if_false]
    have hpre : ((if s.device_enumerator = true then [] else [Effect.CoCreateInstance])
        ++ (if s.current_device.isSome = true then [Effect.ReleaseDevice] else [])
        ++ (if s.endpoint_volume.isSome = true then [Effect.ReleaseEndpointVolume]
            else [])).count Effect.GetMute = 0 := by
      split_ifs <;> simp
    by_cases hd : s.config.use_default_device = true
    · simp only [hd, if_true]
      cases os.default_audio_endpoint with
      | none =>
        left
        exact ⟨_, _, rfl, rfl, rfl, by rw [List.count_append, hpre]; simp, Or.inr ⟨rfl, rfl⟩⟩
      | some device =>
        right
        exact ⟨_, _, _, rfl, rfl, rfl, by rw [List.count_append, hpre]; simp, rfl, rfl⟩
    · simp only [hd, if_false]
      by_cases hn : s.config.device_name = ""
      · left
        simp only [hn, if_true]
        exact ⟨_, _, rfl, rfl, rfl, hpre, Or.inr ⟨rfl, rfl⟩⟩
      · simp only [hn, if_false]
        have he := enumerate_audio_devices_held os
          { s with device_enumerator := true, current_device := none, endpoint_volume := none }
          rfl
        have hf := find_named_device_no_get_mute os s.config.device_name
          (enumerate_audio_devices os
            { s with device_enumerator := true, current_device := none,
                     endpoint_volume := none }).1
        rw [he.1]
        generalize find_named_device os s.config.device_name
          (enumerate_audio_devices os
            { s with device_enumerator := true, current_device := none,
                     endpoint_volume := none }).1 = found at hf ⊢
        obtain ⟨target, e3⟩ := found
        cases target with
        | none =>
          left
          exact ⟨_, _, rfl, rfl, rfl, by
            simp only [List.count_append] at hpre ⊢
            simp only at hf
            omega, Or.inr ⟨rfl, rfl⟩⟩
        | some pair =>
          right
          exact ⟨_, _, _, rfl, rfl, rfl, by
            simp only [List.count_append] at hpre ⊢
            simp only at hf
            omega, rfl, rfl⟩

/-! ## Binding by name -/

/-- Binding by name, once the enumerator is available: the list is enumerated and
searched, and the search result is activated. -/
theorem find_and_set_target_device_by_name (os : OsAnswers) (s : MicrophoneController)
    (hdef : s.config.use_default_device = false) (hname : s.config.device_name ≠ "")
    (henum : s.device_enumerator = true ∨ os.create_enumerator = true) :
    ∃ s2 issued,
      s2.available_devices = (enumerate_audio_devices os s).1
        ∧ s2.current_device = none ∧ s2.endpoint_volume = none
        ∧ find_and_set_target_device os s
          = match find_named_device os s.config.device_name
              (enumerate_audio_devices os s).1 with
            | (none, e3) => (false, s2, issued ++ e3)
            | (some (device, d), e3) =>
              activate_and_read_mute
                { s2 with current_device := some d, current_device_name := device.name }
                d (issued ++ e3) := by
  have h0 : (!s.device_enumerator && !os.create_enumerator) = false := by
    rcases henum with h | h <;> simp [h]
  have he := (enumerate_audio_devices_held os
    { s with device_enumerator := true, current_device := none, endpoint_volume := none }
    rfl).1
  have hl := enumerate_audio_devices_list os s
    { s with device_enumerator := true, current_device := none, endpoint_volume := none }
    henum rfl
  refine ⟨{ s with device_enumerator := true, current_device := none,
                   endpoint_volume := none,
                   available_devices := (enumerate_audio_devices os s).1 },
    (if s.device_enumerator = true then [] else [Effect.CoCreateInstance])
      ++ (if s.current_device.isSome = true then [Effect.ReleaseDevice] else [])
      ++ (if s.endpoint_volume.isSome = true then [Effect.ReleaseEndpointVolume] else [])
      ++ (enumerate_audio_devices os
          { s with device_enumerator := true, current_device := none,
                   endpoint_volume := none }).2.2, rfl, rfl, rfl, ?_⟩
  unfold find_and_set_target_device
  simp only [h0, hdef, hname, if_false, Bool.false_eq_true]
  rw [he, hl]

/-- C6, as stated, fails: with two enabled devices named "USB Mic" of which the
first can no longer be opened, the first entry with that name that is enabled
is "usb-1", and the call binds "usb-2". -/
theorem bind_by_name_passes_over_first_match :
    sample_by_name.config.use_default_device = false
      ∧ sample_by_name.config.device_name = "USB Mic"
      ∧ ((enumerate_audio_devices sample_os_first_mic_gone sample_by_name).1.find?
            fun device => decide (device.name = "USB Mic") && device.is_enabled)
          = some { id := "usb-1", name := "USB Mic", description := "Microphone",
                   is_default := false, is_enabled := true }
      ∧ (find_and_set_target_device sample_os_first_mic_gone sample_by_name).1 = true
      ∧ (find_and_set_target_device sample_os_first_mic_gone sample_by_name).2.1.current_device
          = some (usb_mic "usb-2" 1)
      ∧ (find_and_set_target_device sample_os_first_mic_gone sample_by_name).2.2
          = [Effect.CoCreateInstance, Effect.EnumAudioEndpoints,
              Effect.GetDefaultAudioEndpoint, Effect.GetDevice "usb-1",
              Effect.GetDevice "usb-2", Effect.Activate, Effect.GetMute] := by
  decide

/-- C6, amended.  With `use_default_device = false`, a non-empty `device_name` and
the device enumerator available, the list returned by the enumeration is stored
in `available_devices`, and the call targets the first entry in enumeration
order whose name equals `device_name` exactly, whose `is_enabled` is true and
which `GetDevice` opens: that device is stored in `current_device` and its name
in `current_device_name`.  When there is no such entry the call fails and
nothing is bound.  A device that ends in `current_device` always comes from an
entry with the configured name that is enabled. -/
theorem bind_by_name_targets_first_bindable (os : OsAnswers) (s : MicrophoneController)
    (hdef : s.config.use_default_device = false) (hname : s.config.device_name ≠ "")
    (henum : s.device_enumerator = true ∨ os.create_enumerator = true) :
    (find_and_set_target_device os s).2.1.available_devices = (enumerate_audio_devices os s).1
      ∧ (∀ device,
          (enumerate_audio_devices os s).1.find? (bindable os s.config.device_name)
              = some device →
            (find_and_set_target_device os s).2.1.current_device = os.get_device device.id
              ∧ (find_and_set_target_device os s).2.1.current_device_name = device.name)
      ∧ ((enumerate_audio_devices os s).1.find? (bindable os s.config.device_name) = none →
          (find_and_set_target_device os s).1 = false
            ∧ (find_and_set_target_device os s).2.1.current_device = none
            ∧ (find_and_set_target_device os s).2.1.endpoint_volume = none)
      ∧ (∀ d, (find_and_set_target_device os s).2.1.current_device = some d →
          ∃ device ∈ (enumerate_audio_devices os s).1,
            device.name = s.config.device_name ∧ device.is_enabled = true
              ∧ os.get_device device.id = some d) := by
  obtain ⟨s2, issued, hav, hcur, hvol, heq⟩ :=
    find_and_set_target_device_by_name os s hdef hname henum
  have hfirst := find_named_device_first os s.config.device_name
    (enumerate_audio_devices os s).1
  rw [heq]
  generalize find_named_device os s.config.device_name (enumerate_audio_devices os s).1
    = found at hfirst ⊢
  obtain ⟨target, e3⟩ := found
  simp only at hfirst
  cases hfind : (enumerate_audio_devices os s).1.find? (bindable os s.config.device_name) with
  | none =>
    rw [hfind] at hfirst
    simp only [Option.none_bind] at hfirst
    subst hfirst
    simp [hav, hcur, hvol]
  | some device =>
    have hb : bindable os s.config.device_name device = true := List.find?_some hfind
    have hmem : device ∈ (enumerate_audio_devices os s).1 := List.mem_of_find?_eq_some hfind
    simp only [bindable, Bool.and_eq_true, decide_eq_true_eq] at hb
    obtain ⟨⟨hn, hen⟩, hopen⟩ := hb
    obtain ⟨d, hd⟩ := Option.isSome_iff_exists.mp hopen
    rw [hfind] at hfirst
    simp only [Option.some_bind, hd, Option.map_some'] at hfirst
    subst hfirst
    have hframe := activate_and_read_mute_frame
      { s2 with current_device := some d, current_device_name := device.name } d (issued ++ e3)
    simp only at hframe ⊢
    refine ⟨by rw [hframe.2.2.1]; exact hav, ?_, by simp, ?_⟩
    · intro device2 h2
      cases h2
      exact ⟨by rw [hframe.1, hd], hframe.2.1⟩
    · intro d2 h2
      rw [hframe.1] at h2
      cases h2
      exact ⟨device, hmem, hn, hen, hd⟩

/-- The directory holds a device named "USB Mic" that is not enabled and after it
one that is: the enabled one is bound. -/
theorem bind_by_name_targets_first_bindable_witness :
    (enumerate_audio_devices sample_os_two_usb_mics sample_by_name).1
        = [{ id := "usb-1", name := "USB Mic", description := "Microphone",
             is_default := false, is_enabled := false },
           { id := "usb-2", name := "USB Mic", description := "Microphone",
             is_default := false, is_enabled := true }]
      ∧ (find_and_set_target_device sample_os_two_usb_mics sample_by_name).1 = true
      ∧ (find_and_set_target_device sample_os_two_usb_mics sample_by_name).2.1.current_device
          = sample_os_two_usb_mics.get_device "usb-2"
      ∧ (find_and_set_target_device sample_os_two_usb_mics
          sample_by_name).2.1.current_device_name = "USB Mic" :=
  ⟨by decide, by decide,
    (bind_by_name_targets_first_bindable sample_os_two_usb_mics sample_by_name
      (by decide) (by decide) (Or.inr (by decide))).2.1
      { id := "usb-2", name := "USB Mic", description := "Microphone",
        is_default := false, is_enabled := true } (by decide)⟩

/-! ## Binding by name without a name -/

/-- C7.  With `use_default_device = false` and an empty `device_name`,
`find_and_set_target_device` fails, in every controller state and whatever the
operating system answers, and `EnumAudioEndpoints` is not among the calls it
issues. -/
theorem bind_empty_name_fails_without_enumeration (os : OsAnswers) (s : MicrophoneController)
    (hdef : s.config.use_default_device = false) (hname : s.config.device_name = "") :
    (find_and_set_target_device os s).1 = false
      ∧ Effect.EnumAudioEndpoints ∉ (find_and_set_target_device os s).2.2 := by
  unfold find_and_set_target_device
  by_cases h0 : (!s.device_enumerator && !os.create_enumerator) = true
  · simp [h0]
  · simp only [h0, hdef, hname, if_false, if_true, Bool.false_eq_true]
    split_ifs <;> simp

/-- On the freshly constructed controller configured by name without a name: the
only call issued creates the enumerator. -/
theorem bind_empty_name_fails_without_enumeration_witness :
    (find_and_set_target_device sample_os sample_empty_name).2.2 = [Effect.CoCreateInstance]
      ∧ (find_and_set_target_device sample_os sample_empty_name).1 = false
      ∧ Effect.EnumAudioEndpoints ∉ (find_and_set_target_device sample_os sample_empty_name).2.2 :=
  ⟨by decide,
    bind_empty_name_fails_without_enumeration sample_os sample_empty_name
      (by decide) (by decide)⟩

/-! ## The snapshot of the mute state -/

/-- C8.  When `find_and_set_target_device` succeeds, `GetMute` is called exactly
once, on the endpoint volume now held, and `is_muted` and `initial_mute_state`
both equal the value it returned, whatever they were before (so the snapshot
is retaken on every bind); when it fails, `is_muted` and `initial_mute_state`
keep their previous values. -/
theorem bind_snapshots_mute_state (os : OsAnswers) (s : MicrophoneController) :
    ((find_and_set_target_device os s).1 = true →
        (find_and_set_target_device os s).2.2.count Effect.GetMute = 1
          ∧ ∃ volume muted,
              (find_and_set_target_device os s).2.1.endpoint_volume = some volume
                ∧ volume.get_mute = some muted
                ∧ (find_and_set_target_device os s).2.1.is_muted = muted
                ∧ (find_and_set_target_device os s).2.1.initial_mute_state = muted)
      ∧ ((find_and_set_target_device os s).1 = false →
          (find_and_set_target_device os s).2.1.is_muted = s.is_muted
            ∧ (find_and_set_target_device os s).2.1.initial_mute_state
                = s.initial_mute_state) := by
  rcases find_and_set_target_device_shape os s with
    ⟨s1, issued, heq, hm, hi, _⟩ | ⟨s1, device, issued, heq, hm, hi, hcount, _⟩
  · rw [heq]
    simp [hm, hi]
  · rw [heq]
    obtain ⟨hok, hfail⟩ := activate_and_read_mute_result s1 device issued hcount
    refine ⟨?_, ?_⟩
    · intro h
      obtain ⟨hc, volume, muted, _, hg, hv, h1, h2⟩ := hok h
      exact ⟨hc, volume, muted, hv, hg, h1, h2⟩
    · intro h
      rw [← hm, ← hi]
      exact hfail h

/-- A rebind of a controller that believes the microphone muted, on a system whose
default device reports "not muted": one `GetMute`, and both fields are reset. -/
theorem bind_snapshots_mute_state_witness :
    (find_and_set_target_device sample_os
        { sample_bound with is_muted := true, initial_mute_state := true }).1 = true
      ∧ (find_and_set_target_device sample_os
          { sample_bound with is_muted := true, initial_mute_state := true }).2.2.count
            Effect.GetMute = 1
      ∧ ∃ volume muted,
          (find_and_set_target_device sample_os
              { sample_bound with is_muted := true, initial_mute_state := true
                }).2.1.endpoint_volume = some volume
            ∧ volume.get_mute = some muted
            ∧ (find_and_set_target_device sample_os
                { sample_bound with is_muted := true, initial_mute_state := true
                  }).2.1.is_muted = muted
            ∧ (find_and_set_target_device sample_os
                { sample_bound with is_muted := true, initial_mute_state := true
                  }).2.1.initial_mute_state = muted :=
  ⟨by decide,
    (bind_snapshots_mute_state sample_os
      { sample_bound with is_muted := true, initial_mute_state := true }).1 (by decide)⟩

/-! ## The state after a failed bind -/

/-- What `find_and_set_target_device` leaves behind.  After success both
`current_device` and `endpoint_volume` are held.  After failure either nothing
was touched (the enumerator could not be created), or both are empty, or
`current_device` holds a device that could not be activated (`endpoint_volume`
empty), or it holds a device whose `GetMute` failed and `endpoint_volume` is
held as well. -/
theorem find_and_set_target_device_result_state (os : OsAnswers) (s : MicrophoneController) :
    ((find_and_set_target_device os s).1 = true →
        (find_and_set_target_device os s).2.1.current_device.isSome = true
          ∧ (find_and_set_target_device os s).2.1.endpoint_volume.isSome = true)
      ∧ ((find_and_set_target_device os s).1 = false →
          (find_and_set_target_device os s).2.1 = s
            ∨ ((find_and_set_target_device os s).2.1.current_device = none
                ∧ (find_and_set_target_device os s).2.1.endpoint_volume = none)
            ∨ ∃ device, (find_and_set_target_device os s).2.1.current_device = some device
                ∧ ((device.activate = none
                      ∧ (find_and_set_target_device os s).2.1.endpoint_volume = none)
                    ∨ ∃ volume, device.activate = some volume ∧ volume.get_mute = none
                        ∧ (find_and_set_target_device os s).2.1.endpoint_volume
                            = some volume)) := by
  rcases find_and_set_target_device_shape os s with
    ⟨s1, issued, heq, _, _, _, hstate⟩ | ⟨s1, device, issued, heq, _, _, _, hcur, hvol⟩
  · rw [heq]
    refine ⟨by simp, fun _ => ?_⟩
    rcases hstate with h | h
    · exact Or.inl h
    · exact Or.inr (Or.inl h)
  · rw [heq]
    obtain ⟨hok, hfail⟩ := activate_and_read_mute_state s1 device issued
    have hframe := (activate_and_read_mute_frame s1 device issued).1
    refine ⟨fun h => ⟨by rw [hframe, hcur]; rfl, hok h⟩, fun h => ?_⟩
    refine Or.inr (Or.inr ⟨device, by rw [hframe, hcur], ?_⟩)
    rcases hfail h with ⟨ha, hv⟩ | hv
    · exact Or.inl ⟨ha, by rw [hv, hvol]⟩
    · exact Or.inr hv

/-- C9 on the code.  Rebinding `sample_bound` when the default device can be
activated but does not answer `GetMute`: the call returns failure with
`current_device` and `endpoint_volume` both held, and the next toggle issues a
mute-set call.  When the device cannot be activated, the call returns failure
with `current_device` held and `endpoint_volume` empty. -/
theorem failed_bind_leaves_device_held :
    (find_and_set_target_device sample_os_get_mute_fails sample_bound).1 = false
      ∧ (find_and_set_target_device sample_os_get_mute_fails
          sample_bound).2.1.current_device.isSome = true
      ∧ (find_and_set_target_device sample_os_get_mute_fails
          sample_bound).2.1.endpoint_volume.isSome = true
      ∧ (toggle_microphone_mute sample_os 5000000000
          (find_and_set_target_device sample_os_get_mute_fails sample_bound).2.1).2.filter
            Effect.is_set_mute = [Effect.SetMute true]
      ∧ (find_and_set_target_device sample_os_activate_fails sample_bound).1 = false
      ∧ (find_and_set_target_device sample_os_activate_fails
          sample_bound).2.1.current_device.isSome = true
      ∧ (find_and_set_target_device sample_os_activate_fails
          sample_bound).2.1.endpoint_volume = none := by
  decide

/-! ## The restore on exit -/

/-- C10.  With a bound device, `restore_initial_mute_state` issues exactly the one
call mute-set(false) when `unmute_on_exit` and `is_muted` are both true, and no
call at all otherwise; the calls issued are the same for every value of
`initial_mute_state`, and the state is left as it was. -/
theorem restore_on_exit (s : MicrophoneController)
    (hbound : s.endpoint_volume.isSome = true) :
    (restore_initial_mute_state s).2
        = (if s.config.unmute_on_exit = true ∧ s.is_muted = true
            then [Effect.SetMute false] else [])
      ∧ (∀ initial : Bool,
          (restore_initial_mute_state { s with initial_mute_state := initial }).2
            = (restore_initial_mute_state s).2)
      ∧ (restore_initial_mute_state s).1 = s := by
  obtain ⟨v, hv⟩ := Option.isSome_iff_exists.mp hbound
  unfold restore_initial_mute_state
  cases hu : s.config.unmute_on_exit <;> cases hm : s.is_muted <;> simp [hv, hu, hm]

/-- On `sample_bound` after one toggle (muted, `unmute_on_exit` true): one
mute-set(false). -/
theorem restore_on_exit_witness :
    (restore_initial_mute_state
        (toggle_microphone_mute sample_os 5000000000 sample_bound).1).2
      = [Effect.SetMute false] :=
  ((restore_on_exit (toggle_microphone_mute sample_os 5000000000 sample_bound).1
      (by decide)).1).trans (by decide)


/-! ## Facts about the conversions of `load_config` -/

theorem parse_int_clamped_bounds (val : List Char) (lo hi v : Int) (hle : lo ≤ hi)
    (h : parse_int_clamped val lo hi = some v) : lo ≤ v ∧ v ≤ hi := by
  unfold parse_int_clamped at h
  cases hs : stoi val with
  | none => simp [hs] at h
  | some w =>
    simp only [hs, Option.map_some', Option.some.injEq] at h
    subst h
    exact ⟨le_max_left _ _, max_le hle (min_le_left _ _)⟩

theorem assign_uint_preserves (P : Config → Prop) (s : List (List Char × List Char))
    (key : String) (set : Config → Nat → Config) (config result : Config)
    (hp : P config) (h : assign_uint s key set config = some result)
    (hset : ∀ c v, P c → P (set c v)) : P result := by
  unfold assign_uint at h
  cases hf : find_setting s key with
  | none =>
    simp only [hf, Option.some.injEq] at h
    exact h ▸ hp
  | some val =>
    simp only [hf] at h
    cases hv : parse_uint val with
    | none => simp [hv] at h
    | some v =>
      simp only [hv, Option.map_some', Option.some.injEq] at h
      exact h ▸ hset _ _ hp

theorem assign_int_clamped_preserves (P : Config → Prop) (s : List (List Char × List Char))
    (key : String) (lo hi : Int) (set : Config → Int → Config) (config result : Config)
    (hle : lo ≤ hi) (hp : P config)
    (h : assign_int_clamped s key lo hi set config = some result)
    (hset : ∀ c v, lo ≤ v → v ≤ hi → P c → P (set c v)) : P result := by
  unfold assign_int_clamped at h
  cases hf : find_setting s key with
  | none =>
    simp only [hf, Option.some.injEq] at h
    exact h ▸ hp
  | some val =>
    simp only [hf] at h
    cases hv : parse_int_clamped val lo hi with
    | none => simp [hv] at h
    | some v =>
      simp only [hv, Option.map_some', Option.some.injEq] at h
      have hb := parse_int_clamped_bounds val lo hi v hle hv
      exact h ▸ hset _ _ hb.1 hb.2 hp

theorem assign_bool_preserves (P : Config → Prop) (s : List (List Char × List Char))
    (key : String) (set : Config → Bool → Config) (config : Config)
    (hp : P config) (hset : ∀ c v, P c → P (set c v)) :
    P (assign_bool s key set config) := by
  unfold assign_bool
  cases hf : find_setting s key with
  | none => exact hp
  | some val => exact hset _ _ hp

theorem assign_string_preserves (P : Config → Prop) (s : List (List Char × List Char))
    (key : String) (set : Config → String → Config) (config : Config)
    (hp : P config) (hset : ∀ c v, P c → P (set c v)) :
    P (assign_string s key set config) := by
  unfold assign_string
  cases hf : find_setting s key with
  | none => exact hp
  | some val => exact hset _ _ hp

/-- The end of the `try` block, from the assignment of `use_keyboard_hook` on,
keeps a property that the sound volume assignment and the other assignments
keep. -/
theorem apply_settings_tail_preserves (P : Config → Prop) (s : List (List Char × List Char))
    (c3 : Config) (hp : P c3)
    (hbool : ∀ c (v : Bool), P c → P { c with use_keyboard_hook := v }
      ∧ P { c with play_sounds := v } ∧ P { c with unmute_on_exit := v }
      ∧ P { c with use_default_device := v })
    (hvol : ∀ c (v : Int), MIN_SOUND_VOLUME ≤ v → v ≤ MAX_SOUND_VOLUME → P c →
      P { c with sound_volume := v })
    (hstr : ∀ c (v : String), P c → P { c with device_name := v }
      ∧ P { c with mute_sound_file := v } ∧ P { c with unmute_sound_file := v }) :
    P (match assign_int_clamped s "sound_volume" MIN_SOUND_VOLUME MAX_SOUND_VOLUME
          (fun c v => { c with sound_volume := v })
          (assign_bool s "use_default_device" (fun c v => { c with use_default_device := v })
            (assign_bool s "unmute_on_exit" (fun c v => { c with unmute_on_exit := v })
              (assign_bool s "play_sounds" (fun c v => { c with play_sounds := v })
                (assign_bool s "use_keyboard_hook"
                  (fun c v => { c with use_keyboard_hook := v }) c3)))) with
      | none =>
        assign_bool s "use_default_device" (fun c v => { c with use_default_device := v })
          (assign_bool s "unmute_on_exit" (fun c v => { c with unmute_on_exit := v })
            (assign_bool s "play_sounds" (fun c v => { c with play_sounds := v })
              (assign_bool s "use_keyboard_hook"
                (fun c v => { c with use_keyboard_hook := v }) c3)))
      | some c8 =>
        assign_string s "unmute_sound_file" (fun c v => { c with unmute_sound_file := v })
          (assign_string s "mute_sound_file" (fun c v => { c with mute_sound_file := v })
            (assign_string s "device_name" (fun c v => { c with device_name := v }) c8))) := by
  have h7 := assign_bool_preserves P s "use_default_device"
    (fun c v => { c with use_default_device := v }) _
    (assign_bool_preserves P s "unmute_on_exit" (fun c v => { c with unmute_on_exit := v }) _
      (assign_bool_preserves P s "play_sounds" (fun c v => { c with play_sounds := v }) _
        (assign_bool_preserves P s "use_keyboard_hook"
          (fun c v => { c with use_keyboard_hook := v }) c3 hp
          (fun c v h => (hbool c v h).1))
        (fun c v h => (hbool c v h).2.1))
      (fun c v h => (hbool c v h).2.2.1))
    (fun c v h => (hbool c v h).2.2.2)
  split
  · exact h7
  · rename_i c8 h8
    have hp8 := assign_int_clamped_preserves P s _ _ _ _ _ c8 (by decide) h7 h8 hvol
    exact assign_string_preserves P s _ _ _
      (assign_string_preserves P s _ _ _
        (assign_string_preserves P s _ _ _ hp8 (fun c v h => (hstr c v h).1))
        (fun c v h => (hstr c v h).2.1))
      (fun c v h => (hstr c v h).2.2)

/-- The bounds of `sound_volume` and `toggle_cooldown` survive the `try` block,
whatever the settings are and wherever a conversion throws. -/
theorem apply_settings_in_bounds (s : List (List Char × List Char)) (config : Config)
    (hb : config.in_bounds) : (apply_settings s config).in_bounds := by
  unfold apply_settings
  split
  · exact hb
  · rename_i c1 h1
    have hb1 := assign_uint_preserves Config.in_bounds _ _ _ _ _ hb h1 (fun _ _ h => h)
    split
    · exact hb1
    · rename_i c2 h2
      have hb2 := assign_uint_preserves Config.in_bounds _ _ _ _ _ hb1 h2 (fun _ _ h => h)
      split
      · exact hb2
      · rename_i c3 h3
        have hb3 := assign_int_clamped_preserves Config.in_bounds _ _ _ _ _ _ _ (by decide)
          hb2 h3 (fun c v h1 h2 h => ⟨h.1, h.2.1, h1, h2⟩)
        exact apply_settings_tail_preserves Config.in_bounds s c3 hb3
          (fun c v h => ⟨h, h, h, h⟩) (fun c v h1 h2 h => ⟨h1, h2, h.2.2.1, h.2.2.2⟩)
          (fun c v h => ⟨h, h, h⟩)

theorem assign_uint_well_formed (s : List (List Char × List Char)) (key : String)
    (set : Config → Nat → Config) (get : Config → Nat) (config : Config)
    (hwf : well_formed_value s key parse_uint) (hlens : ∀ c, set c (get c) = c) :
    assign_uint s key set config
      = some (set config (setting_or s key parse_uint (get config))) := by
  unfold assign_uint setting_or
  cases hf : find_setting s key with
  | none => simp [hlens]
  | some val =>
    obtain ⟨v, hv⟩ := Option.isSome_iff_exists.mp (hwf val hf)
    simp [hv]

theorem assign_int_clamped_well_formed (s : List (List Char × List Char)) (key : String)
    (lo hi : Int) (set : Config → Int → Config) (get : Config → Int) (config : Config)
    (hwf : well_formed_value s key stoi) (hlens : ∀ c, set c (get c) = c) :
    assign_int_clamped s key lo hi set config
      = some (set config
          (setting_or s key (fun val => parse_int_clamped val lo hi) (get config))) := by
  unfold assign_int_clamped setting_or
  cases hf : find_setting s key with
  | none => simp [hlens]
  | some val =>
    obtain ⟨v, hv⟩ := Option.isSome_iff_exists.mp (hwf val hf)
    simp [parse_int_clamped, hv]

theorem assign_int_clamped_present (s : List (List Char × List Char)) (key : String)
    (lo hi : Int) (set : Config → Int → Config) (config : Config) (val : List Char) (v : Int)
    (hf : find_setting s key = some val) (hv : stoi val = some v) :
    assign_int_clamped s key lo hi set config
      = some (set config (Max.max lo (Min.min hi v))) := by
  simp [assign_int_clamped, hf, parse_int_clamped, hv]

theorem assign_bool_eq (s : List (List Char × List Char)) (key : String)
    (set : Config → Bool → Config) (get : Config → Bool) (config : Config)
    (hlens : ∀ c, set c (get c) = c) :
    assign_bool s key set config
      = set config (setting_or s key (fun val => some (parse_bool val)) (get config)) := by
  unfold assign_bool setting_or
  cases hf : find_setting s key <;> simp [hlens]

theorem assign_string_eq (s : List (List Char × List Char)) (key : String)
    (set : Config → String → Config) (get : Config → String) (config : Config)
    (hlens : ∀ c, set c (get c) = c) :
    assign_string s key set config
      = set config (setting_or s key (fun val => some (String.mk val)) (get config)) := by
  unfold assign_string setting_or
  cases hf : find_setting s key <;> simp [hlens]

/-- The `try` block when no conversion throws: every field is the converted
value of its key when the key is present, and is unchanged otherwise. -/
theorem apply_settings_well_formed (s : List (List Char × List Char)) (config : Config)
    (hmod : well_formed_value s "hotkey_mod" parse_uint)
    (hvk : well_formed_value s "hotkey_vk" parse_uint)
    (hcool : well_formed_value s "toggle_cooldown" stoi)
    (hvol : well_formed_value s "sound_volume" stoi) :
    apply_settings s config =
      { hotkey_mod := setting_or s "hotkey_mod" parse_uint config.hotkey_mod
        hotkey_vk := setting_or s "hotkey_vk" parse_uint config.hotkey_vk
        use_keyboard_hook := setting_or s "use_keyboard_hook"
          (fun val => some (parse_bool val)) config.use_keyboard_hook
        play_sounds := setting_or s "play_sounds" (fun val => some (parse_bool val))
          config.play_sounds
        unmute_on_exit := setting_or s "unmute_on_exit" (fun val => some (parse_bool val))
          config.unmute_on_exit
        use_default_device := setting_or s "use_default_device"
          (fun val => some (parse_bool val)) config.use_default_device
        sound_volume := setting_or s "sound_volume"
          (fun val => parse_int_clamped val MIN_SOUND_VOLUME MAX_SOUND_VOLUME)
          config.sound_volume
        toggle_cooldown := setting_or s "toggle_cooldown"
          (fun val => parse_int_clamped val MIN_TOGGLE_COOLDOWN MAX_TOGGLE_COOLDOWN)
          config.toggle_cooldown
        device_name := setting_or s "device_name" (fun val => some (String.mk val))
          config.device_name
        mute_sound_file := setting_or s "mute_sound_file" (fun val => some (String.mk val))
          config.mute_sound_file
        unmute_sound_file := setting_or s "unmute_sound_file"
          (fun val => some (String.mk val)) config.unmute_sound_file
        config_file := config.config_file
        devices_list_file := config.devices_list_file } := by
  unfold apply_settings
  rw [assign_uint_well_formed s "hotkey_mod" _ Config.hotkey_mod config hmod (fun _ => rfl)]
  simp only
  rw [assign_uint_well_formed s "hotkey_vk" _ Config.hotkey_vk _ hvk (fun _ => rfl)]
  simp only
  rw [assign_int_clamped_well_formed s "toggle_cooldown" _ _ _ Config.toggle_cooldown _ hcool
    (fun _ => rfl)]
  simp only
  rw [assign_bool_eq s "use_keyboard_hook" _ Config.use_keyboard_hook _ (fun _ => rfl),
    assign_bool_eq s "play_sounds" _ Config.play_sounds _ (fun _ => rfl),
    assign_bool_eq s "unmute_on_exit" _ Config.unmute_on_exit _ (fun _ => rfl),
    assign_bool_eq s "use_default_device" _ Config.use_default_device _ (fun _ => rfl),
    assign_int_clamped_well_formed s "sound_volume" _ _ _ Config.sound_volume _ hvol
      (fun _ => rfl)]
  simp only
  rw [assign_string_eq s "device_name" _ Config.device_name _ (fun _ => rfl),
    assign_string_eq s "mute_sound_file" _ Config.mute_sound_file _ (fun _ => rfl),
    assign_string_eq s "unmute_sound_file" _ Config.unmute_sound_file _ (fun _ => rfl)]

/-! ## Facts about the lines of the configuration file -/

theorem rdropWhile_cons_of_neg {α : Type} (p : α → Bool) (c : α) (l : List α)
    (h : p c = false) : (c :: l).rdropWhile p = c :: l.rdropWhile p := by
  induction l using List.reverseRecOn generalizing c with
  | nil => simp [List.rdropWhile, h]
  | append_singleton l x ih =>
    rw [← List.cons_append, List.rdropWhile_concat, List.rdropWhile_concat]
    cases hx : p x
    · simp
    · simpa using ih c h

theorem head?_rdropWhile_of_neg {α : Type} (p : α → Bool) (c : α) (l : List α)
    (hl : l.head? = some c) (h : p c = false) : (l.rdropWhile p).head? = some c := by
  cases l with
  | nil => simp at hl
  | cons x rest =>
    simp only [List.head?_cons, Option.some.injEq] at hl
    subst hl
    rw [rdropWhile_cons_of_neg p x rest h]
    rfl

/-- A line whose first character outside `" \t\r\n"` is `#` or `=` is skipped. -/
theorem parse_line_comment (raw : List Char)
    (h : (raw.dropWhile is_line_blank).head? = some '#'
      ∨ (raw.dropWhile is_line_blank).head? = some '=') : parse_line raw = none := by
  unfold parse_line
  have hh : ((raw.dropWhile is_line_blank).rdropWhile is_line_blank).head? = some '#'
      ∨ ((raw.dropWhile is_line_blank).rdropWhile is_line_blank).head? = some '=' := by
    rcases h with h | h
    · exact Or.inl (head?_rdropWhile_of_neg _ _ _ h (by decide))
    · exact Or.inr (head?_rdropWhile_of_neg _ _ _ h (by decide))
  cases hl : (raw.dropWhile is_line_blank).rdropWhile is_line_blank with
  | nil => rfl
  | cons c rest =>
    rw [hl] at hh
    simp only [List.head?_cons, Option.some.injEq] at hh
    simp [hh]

/-- A line without `=` is skipped. -/
theorem parse_line_without_equals (raw : List Char) (h : '=' ∉ raw) : parse_line raw = none := by
  unfold parse_line
  have hsub : ∀ x ∈ (raw.dropWhile is_line_blank).rdropWhile is_line_blank, x ∈ raw :=
    fun x hx => (List.dropWhile_suffix _).subset ((List.rdropWhile_prefix _ _).subset hx)
  cases hl : (raw.dropWhile is_line_blank).rdropWhile is_line_blank with
  | nil => rfl
  | cons c rest =>
    have hno : '=' ∉ c :: rest := fun hm => h (hsub _ (hl ▸ hm))
    simp only [hno, if_false]
    split_ifs <;> rfl

/-- A line of characters of `" \t\r\n"` only is skipped. -/
theorem parse_line_blank (raw : List Char) (h : ∀ c ∈ raw, is_line_blank c = true) :
    parse_line raw = none := by
  unfold parse_line
  have : raw.dropWhile is_line_blank = [] := by
    rw [List.dropWhile_eq_nil_iff]
    exact h
  simp [this]

theorem parse_settings_append (l1 l2 : List (List Char)) :
    parse_settings (l1 ++ l2) = parse_settings l2 ++ parse_settings l1 := by
  simp [parse_settings, List.filterMap_append]

theorem parse_settings_skipped_line (l1 l2 : List (List Char)) (line : List Char)
    (h : parse_line line = none) :
    parse_settings (l1 ++ line :: l2) = parse_settings (l1 ++ l2) := by
  simp [parse_settings, List.filterMap_append, List.filterMap_cons, h]

theorem lookup_append_cons_of_ne (key k : List Char) (v : List Char)
    (a b : List (List Char × List Char)) (h : k ≠ key) :
    List.lookup key (a ++ (k, v) :: b) = List.lookup key (a ++ b) := by
  have hk : (key == k) = false := by
    rw [beq_eq_false_iff_ne]
    exact fun e => h e.symm
  induction a with
  | nil => simp [List.lookup, hk]
  | cons x rest ih =>
    obtain ⟨k1, v1⟩ := x
    simp only [List.cons_append, List.lookup_cons]
    rw [ih]

theorem find_setting_other_key (l1 l2 : List (List Char)) (line k v : List Char)
    (key : String) (hline : parse_line line = some (k, v)) (hk : k ≠ key.data) :
    find_setting (parse_settings (l1 ++ line :: l2)) key
      = find_setting (parse_settings (l1 ++ l2)) key := by
  have h1 : parse_settings (l1 ++ line :: l2)
      = parse_settings l2 ++ (k, v) :: parse_settings l1 := by
    simp [parse_settings, List.filterMap_append, List.filterMap_cons, hline]
  rw [h1, parse_settings_append]
  exact lookup_append_cons_of_ne key.data k v _ _ hk

theorem lookup_eq_none_of_keys (key : List Char) (m : List (List Char × List Char))
    (h : ∀ p ∈ m, p.1 ≠ key) : List.lookup key m = none := by
  induction m with
  | nil => rfl
  | cons x rest ih =>
    obtain ⟨k1, v1⟩ := x
    have hk : (key == k1) = false := by
      rw [beq_eq_false_iff_ne]
      exact fun e => h (k1, v1) (by simp) e.symm
    simp only [List.lookup_cons, hk]
    exact ih fun p hp => h p (List.mem_cons_of_mem _ hp)

theorem lookup_append_of_keys (key : List Char) (a b : List (List Char × List Char))
    (h : ∀ p ∈ a, p.1 ≠ key) : List.lookup key (a ++ b) = List.lookup key b := by
  induction a with
  | nil => rfl
  | cons x rest ih =>
    obtain ⟨k1, v1⟩ := x
    have hk : (key == k1) = false := by
      rw [beq_eq_false_iff_ne]
      exact fun e => h (k1, v1) (by simp) e.symm
    simp only [List.cons_append, List.lookup_cons, hk]
    exact ih fun p hp => h p (List.mem_cons_of_mem _ hp)

theorem mem_parse_settings (lines : List (List Char)) (p : List Char × List Char)
    (h : p ∈ parse_settings lines) : ∃ l ∈ lines, parse_line l = some p := by
  simpa [parse_settings, List.mem_filterMap] using h

/-- The value found for a key is the value of the last line with that key. -/
theorem find_setting_last_line (l1 l2 : List (List Char)) (line val : List Char) (key : String)
    (hline : parse_line line = some (key.data, val))
    (hlater : ∀ l ∈ l2, ∀ p, parse_line l = some p → p.1 ≠ key.data) :
    find_setting (parse_settings (l1 ++ line :: l2)) key = some val := by
  have h1 : parse_settings (l1 ++ line :: l2)
      = parse_settings l2 ++ (key.data, val) :: parse_settings l1 := by
    simp [parse_settings, List.filterMap_append, List.filterMap_cons, hline]
  unfold find_setting
  rw [h1, lookup_append_of_keys]
  · simp [List.lookup]
  · intro p hp
    obtain ⟨l, hl, hpl⟩ := mem_parse_settings l2 p hp
    exact hlater l hl p hpl

/-- No value is found for a key that no line has. -/
theorem find_setting_no_line (lines : List (List Char)) (key : String)
    (h : ∀ l ∈ lines, ∀ p, parse_line l = some p → p.1 ≠ key.data) :
    find_setting (parse_settings lines) key = none := by
  unfold find_setting
  apply lookup_eq_none_of_keys
  intro p hp
  obtain ⟨l, hl, hpl⟩ := mem_parse_settings lines p hp
  exact h l hl p hpl

/-- The `try` block looks at the settings only through the known keys. -/
theorem apply_settings_congr (m1 m2 : List (List Char × List Char)) (config : Config)
    (h : ∀ key ∈ known_keys, find_setting m1 key = find_setting m2 key) :
    apply_settings m1 config = apply_settings m2 config := by
  have h1 := h "hotkey_mod" (by decide)
  have h2 := h "hotkey_vk" (by decide)
  have h3 := h "toggle_cooldown" (by decide)
  have h4 := h "use_keyboard_hook" (by decide)
  have h5 := h "play_sounds" (by decide)
  have h6 := h "unmute_on_exit" (by decide)
  have h7 := h "use_default_device" (by decide)
  have h8 := h "sound_volume" (by decide)
  have h9 := h "device_name" (by decide)
  have h10 := h "mute_sound_file" (by decide)
  have h11 := h "unmute_sound_file" (by decide)
  simp only [apply_settings, assign_uint, assign_int_clamped, assign_bool, assign_string,
    h1, h2, h3, h4, h5, h6, h7, h8, h9, h10, h11]

/-! ## A malformed numeric value -/

/-- C11 on the code.  With the file `hotkey_mod = 3`, `hotkey_vk = abc`,
`sound_volume = 80`, loaded at start-up into the default configuration, the
conversion of `abc` throws after `hotkey_mod` has been assigned: `hotkey_mod`
is 3, not its default 6, and `sound_volume` stays 50.  Loaded into a
configuration whose `sound_volume` is 80, a file with a malformed `hotkey_mod`
leaves `sound_volume` at 80: nothing is reset to a default. -/
theorem load_config_malformed_keeps_assignments :
    stoul "abc".data = none
      ∧ (load_config
          (sample_host (some "hotkey_mod = 3\nhotkey_vk = abc\nsound_volume = 80\n"))
          MicrophoneController.new).1.config = { hotkey_mod := 3 }
      ∧ ({ hotkey_mod := 3 } : Config) ≠ {}
      ∧ (load_config_text "hotkey_mod = x\n" { sound_volume := 80 }).sound_volume = 80
      ∧ ({} : Config).sound_volume = 50 := by
  decide

/-! ## The clamped fields -/

/-- C12, as stated, fails for a value that is not reached or not converted: after
a malformed `toggle_cooldown`, `sound_volume = 200` is not stored (the field
stays 50, not 100), and `sound_volume = 99999999999` is beyond the range of
`int`, so `std::stoi` throws and the field stays 50. -/
theorem load_config_value_not_stored :
    find_setting (parse_settings (getlines "toggle_cooldown = x\nsound_volume = 200\n"))
        "sound_volume" = some "200".data
      ∧ stoi "200".data = some 200
      ∧ Max.max MIN_SOUND_VOLUME (Min.min MAX_SOUND_VOLUME 200) = 100
      ∧ (load_config (sample_host (some "toggle_cooldown = x\nsound_volume = 200\n"))
          MicrophoneController.new).1.config.sound_volume = 50
      ∧ stoi "99999999999".data = none
      ∧ (load_config (sample_host (some "sound_volume = 99999999999\n"))
          MicrophoneController.new).1.config.sound_volume = 50 := by
  decide

/-- C12, amended.  Starting from a configuration within the bounds, after
`load_config` on any file contents (or no file) `sound_volume` lies in 0..100
and `toggle_cooldown` in 0..60000.  When the value of `toggle_cooldown` converts
to the `int` `v` and the values of `hotkey_mod` and `hotkey_vk` convert, the
stored `toggle_cooldown` is `max(0, min(60000, v))`; when the value of
`sound_volume` converts to the `int` `v` and the values of `hotkey_mod`,
`hotkey_vk` and `toggle_cooldown` convert, the stored `sound_volume` is
`max(0, min(100, v))`. -/
theorem load_config_clamps (host : HostAnswers) (s : MicrophoneController)
    (hb : s.config.in_bounds) :
    (load_config host s).1.config.in_bounds
      ∧ ∀ text, host.read_file s.config.config_file = some text →
          (∀ val v,
              find_setting (parse_settings (getlines text)) "toggle_cooldown" = some val →
              stoi val = some v →
              well_formed_value (parse_settings (getlines text)) "hotkey_mod" parse_uint →
              well_formed_value (parse_settings (getlines text)) "hotkey_vk" parse_uint →
              (load_config host s).1.config.toggle_cooldown
                = Max.max MIN_TOGGLE_COOLDOWN (Min.min MAX_TOGGLE_COOLDOWN v))
            ∧ (∀ val v,
              find_setting (parse_settings (getlines text)) "sound_volume" = some val →
              stoi val = some v →
              well_formed_value (parse_settings (getlines text)) "hotkey_mod" parse_uint →
              well_formed_value (parse_settings (getlines text)) "hotkey_vk" parse_uint →
              well_formed_value (parse_settings (getlines text)) "toggle_cooldown" stoi →
              (load_config host s).1.config.sound_volume
                = Max.max MIN_SOUND_VOLUME (Min.min MAX_SOUND_VOLUME v)) := by
  refine ⟨?_, ?_⟩
  · unfold load_config
    cases hr : host.read_file s.config.config_file with
    | none => exact hb
    | some text => exact apply_settings_in_bounds _ _ hb
  · intro text hr
    have hload : (load_config host s).1.config
        = apply_settings (parse_settings (getlines text)) s.config := by
      simp [load_config, hr, load_config_text]
    rw [hload]
    refine ⟨?_, ?_⟩
    · intro val v hf hv hmod hvk
      unfold apply_settings
      rw [assign_uint_well_formed _ "hotkey_mod" _ Config.hotkey_mod _ hmod (fun _ => rfl)]
      simp only
      rw [assign_uint_well_formed _ "hotkey_vk" _ Config.hotkey_vk _ hvk (fun _ => rfl)]
      simp only
      rw [assign_int_clamped_present _ "toggle_cooldown" _ _ _ _ val v hf hv]
      simp only
      exact apply_settings_tail_preserves
        (fun c => c.toggle_cooldown
          = Max.max MIN_TOGGLE_COOLDOWN (Min.min MAX_TOGGLE_COOLDOWN v))
        _ _ rfl (fun c v h => ⟨h, h, h, h⟩) (fun c v _ _ h => h) (fun c v h => ⟨h, h, h⟩)
    · intro val v hf hv hmod hvk hcool
      unfold apply_settings
      rw [assign_uint_well_formed _ "hotkey_mod" _ Config.hotkey_mod _ hmod (fun _ => rfl)]
      simp only
      rw [assign_uint_well_formed _ "hotkey_vk" _ Config.hotkey_vk _ hvk (fun _ => rfl)]
      simp only
      rw [assign_int_clamped_well_formed _ "toggle_cooldown" _ _ _ Config.toggle_cooldown _
        hcool (fun _ => rfl)]
      simp only
      rw [assign_int_clamped_present _ "sound_volume" _ _ _ _ val v hf hv]
      simp only
      exact assign_string_preserves
        (fun c => c.sound_volume = Max.max MIN_SOUND_VOLUME (Min.min MAX_SOUND_VOLUME v))
        _ _ _ _
        (assign_string_preserves
          (fun c => c.sound_volume = Max.max MIN_SOUND_VOLUME (Min.min MAX_SOUND_VOLUME v))
          _ _ _ _
          (assign_string_preserves
            (fun c => c.sound_volume = Max.max MIN_SOUND_VOLUME (Min.min MAX_SOUND_VOLUME v))
            _ _ _ _ rfl (fun _ _ h => h))
          (fun _ _ h => h))
        (fun _ _ h => h)

/-- A file with three values out of range, loaded at start-up: the bounds hold
and `sound_volume = 150` is stored as 100. -/
theorem load_config_clamps_witness :
    (load_config
        (sample_host (some "toggle_cooldown = 70000\nsound_volume = 150\nhotkey_vk = 65\n"))
        MicrophoneController.new).1.config.in_bounds
      ∧ (load_config
        (sample_host (some "toggle_cooldown = 70000\nsound_volume = 150\nhotkey_vk = 65\n"))
        MicrophoneController.new).1.config.sound_volume = 100 :=
  ⟨(load_config_clamps
      (sample_host (some "toggle_cooldown = 70000\nsound_volume = 150\nhotkey_vk = 65\n"))
      MicrophoneController.new ⟨by decide, by decide, by decide, by decide⟩).1,
    by decide⟩

/-! ## A well-formed file -/

/-- C13.  For a file in which the values of the four numeric keys convert (where
the keys are present), `load_config` from the default configuration gives, for
each field, the converted value of its key when the key is present and the
default otherwise (`setting_or`, whose two cases are spelled out).  The value
of a key is the value of the last line with that key, and a key that no line
has is missing.  A line whose first character outside `" \t\r\n"` is `#` or
`=`, a blank line, a line without `=`, and a line with an unknown key have no
effect on the configuration loaded, wherever they stand among the lines. -/
theorem load_config_well_formed_file (text : String)
    (hmod : well_formed_value (parse_settings (getlines text)) "hotkey_mod" parse_uint)
    (hvk : well_formed_value (parse_settings (getlines text)) "hotkey_vk" parse_uint)
    (hcool : well_formed_value (parse_settings (getlines text)) "toggle_cooldown" stoi)
    (hvol : well_formed_value (parse_settings (getlines text)) "sound_volume" stoi) :
    load_config_text text {} =
        { hotkey_mod := setting_or (parse_settings (getlines text)) "hotkey_mod" parse_uint
            (MOD_CONTROL ||| MOD_SHIFT)
          hotkey_vk := setting_or (parse_settings (getlines text)) "hotkey_vk" parse_uint VK_F1
          use_keyboard_hook := setting_or (parse_settings (getlines text)) "use_keyboard_hook"
            (fun val => some (parse_bool val)) true
          play_sounds := setting_or (parse_settings (getlines text)) "play_sounds"
            (fun val => some (parse_bool val)) true
          unmute_on_exit := setting_or (parse_settings (getlines text)) "unmute_on_exit"
            (fun val => some (parse_bool val)) true
          use_default_device := setting_or (parse_settings (getlines text))
            "use_default_device" (fun val => some (parse_bool val)) true
          sound_volume := setting_or (parse_settings (getlines text)) "sound_volume"
            (fun val => parse_int_clamped val MIN_SOUND_VOLUME MAX_SOUND_VOLUME) 50
          toggle_cooldown := setting_or (parse_settings (getlines text)) "toggle_cooldown"
            (fun val => parse_int_clamped val MIN_TOGGLE_COOLDOWN MAX_TOGGLE_COOLDOWN) 1000
          device_name := setting_or (parse_settings (getlines text)) "device_name"
            (fun val => some (String.mk val)) ""
          mute_sound_file := setting_or (parse_settings (getlines text)) "mute_sound_file"
            (fun val => some (String.mk val)) "mute.wav"
          unmute_sound_file := setting_or (parse_settings (getlines text)) "unmute_sound_file"
            (fun val => some (String.mk val)) "unmute.wav"
          config_file := "mic_config.txt"
          devices_list_file := "available_devices.txt" }
      ∧ (∀ (α : Type) (m : List (List Char × List Char)) (key : String)
          (parse : List Char → Option α) (default : α),
          (∀ val v, find_setting m key = some val → parse val = some v →
              setting_or m key parse default = v)
            ∧ (find_setting m key = none → setting_or m key parse default = default))
      ∧ (∀ (l1 l2 : List (List Char)) (line val : List Char) (key : String),
          parse_line line = some (key.data, val) →
          (∀ l ∈ l2, ∀ p, parse_line l = some p → p.1 ≠ key.data) →
          find_setting (parse_settings (l1 ++ line :: l2)) key = some val)
      ∧ (∀ (lines : List (List Char)) (key : String),
          (∀ l ∈ lines, ∀ p, parse_line l = some p → p.1 ≠ key.data) →
          find_setting (parse_settings lines) key = none)
      ∧ (∀ raw : List Char,
          ((raw.dropWhile is_line_blank).head? = some '#'
            ∨ (raw.dropWhile is_line_blank).head? = some '='
            ∨ (∀ c ∈ raw, is_line_blank c = true) ∨ '=' ∉ raw) → parse_line raw = none)
      ∧ (∀ (l1 l2 : List (List Char)) (line : List Char) (config : Config),
          (parse_line line = none
            ∨ ∃ k v, parse_line line = some (k, v) ∧ ∀ key ∈ known_keys, k ≠ key.data) →
          apply_settings (parse_settings (l1 ++ line :: l2)) config
            = apply_settings (parse_settings (l1 ++ l2)) config) := by
  refine ⟨?_, ?_, find_setting_last_line, find_setting_no_line, ?_, ?_⟩
  · unfold load_config_text
    rw [apply_settings_well_formed _ _ hmod hvk hcool hvol]
  · intro α m key parse default
    refine ⟨fun val v hf hp => ?_, fun hf => ?_⟩
    · simp [setting_or, hf, hp]
    · simp [setting_or, hf]
  · intro raw h
    rcases h with h | h | h | h
    · exact parse_line_comment raw (Or.inl h)
    · exact parse_line_comment raw (Or.inr h)
    · exact parse_line_blank raw h
    · exact parse_line_without_equals raw h
  · intro l1 l2 line config h
    rcases h with h | ⟨k, v, h, hk⟩
    · rw [parse_settings_skipped_line l1 l2 line h]
    · exact apply_settings_congr _ _ _
        fun key hkey => find_setting_other_key l1 l2 line k v key h (hk key hkey)

/-- A file with a comment, a heading, an unknown key, a key given twice and a
value out of range. -/
theorem load_config_well_formed_file_witness :
    load_config_text
        "# comment\n=== HEADING ===\nhotkey_mod = 1\nvolume = 9\nhotkey_mod = 3\nsound_volume = 150\nplay_sounds = no\ndevice_name = USB Mic\n"
        {}
      = { hotkey_mod := 3, sound_volume := 100, play_sounds := false,
          device_name := "USB Mic" } :=
  (load_config_well_formed_file
    "# comment\n=== HEADING ===\nhotkey_mod = 1\nvolume = 9\nhotkey_mod = 3\nsound_volume = 150\nplay_sounds = no\ndevice_name = USB Mic\n"
    (fun val h => by
      rw [show find_setting _ "hotkey_mod" = some "3".data from by decide] at h
      cases h
      decide)
    (fun val h => by
      rw [show find_setting _ "hotkey_vk" = none from by decide] at h
      cases h)
    (fun val h => by
      rw [show find_setting _ "toggle_cooldown" = none from by decide] at h
      cases h)
    (fun val h => by
      rw [show find_setting _ "sound_volume" = some "150".data from by decide] at h
      cases h
      decide)).1.trans (by decide)


/-! ## The hotkey test of the keyboard hook -/

theorem and_two_pow_ne_zero (n k : Nat) : ((n &&& 2 ^ k) != 0) = n.testBit k := by
  cases h : n.testBit k
  · have : n &&& 2 ^ k = 0 := by
      apply Nat.eq_of_testBit_eq
      intro i
      simp only [Nat.testBit_and, Nat.testBit_two_pow, Nat.zero_testBit]
      by_cases hki : k = i
      · subst hki
        simp [h]
      · simp [hki]
    simp [this]
  · have : (n &&& 2 ^ k).testBit k = true := by
      simp [Nat.testBit_and, Nat.testBit_two_pow, h]
    have hne : n &&& 2 ^ k ≠ 0 := by
      intro h0
      rw [h0] at this
      simp at this
    simpa using hne

theorem exact_match_iff (config : Config) (keyboardState : Nat → Nat) :
    exact_match config keyboardState = true ↔
      key_pressed keyboardState VK_CONTROL = config.hotkey_mod.testBit 1
        ∧ key_pressed keyboardState VK_MENU = config.hotkey_mod.testBit 0
        ∧ key_pressed keyboardState VK_SHIFT = config.hotkey_mod.testBit 2
        ∧ (key_pressed keyboardState VK_LWIN || key_pressed keyboardState VK_RWIN)
            = config.hotkey_mod.testBit 3 := by
  have h1 := and_two_pow_ne_zero config.hotkey_mod 1
  have h0 := and_two_pow_ne_zero config.hotkey_mod 0
  have h2 := and_two_pow_ne_zero config.hotkey_mod 2
  have h3 := and_two_pow_ne_zero config.hotkey_mod 3
  simp only [pow_zero, pow_one, Nat.reducePow] at h0 h1 h2 h3
  simp only [exact_match, MOD_CONTROL, MOD_ALT, MOD_SHIFT, MOD_WIN, h0, h1, h2, h3,
    Bool.and_eq_true, beq_iff_eq]
  tauto

/-- C20.  `should_handle_hotkey` returns true exactly when the event is a key-down
(`WM_KEYDOWN` or `WM_SYSKEYDOWN`), the virtual-key code equals `hotkey_vk`, and
each of Control, Alt, Shift and Win (left or right) is pressed exactly when its
bit (1, 0, 2, 3) is set in `hotkey_mod`.  In the branch for `hotkey_mod == 0`
the additional tests change nothing: the value returned is that of the general
`exact_match`, so in every case the function is key-down and key code and
`exact_match`. -/
theorem should_handle_hotkey_iff (s : MicrophoneController) (keyboardState : Nat → Nat)
    (vkCode wParam : Nat) :
    (should_handle_hotkey s keyboardState vkCode wParam = true ↔
        (wParam = WM_KEYDOWN ∨ wParam = WM_SYSKEYDOWN) ∧ vkCode = s.config.hotkey_vk
          ∧ key_pressed keyboardState VK_CONTROL = s.config.hotkey_mod.testBit 1
          ∧ key_pressed keyboardState VK_MENU = s.config.hotkey_mod.testBit 0
          ∧ key_pressed keyboardState VK_SHIFT = s.config.hotkey_mod.testBit 2
          ∧ (key_pressed keyboardState VK_LWIN || key_pressed keyboardState VK_RWIN)
              = s.config.hotkey_mod.testBit 3)
      ∧ (s.config.hotkey_mod = 0 →
          (exact_match s.config keyboardState
            && !key_pressed keyboardState VK_CONTROL && !key_pressed keyboardState VK_MENU
            && !key_pressed keyboardState VK_SHIFT
            && !(key_pressed keyboardState VK_LWIN || key_pressed keyboardState VK_RWIN))
          = exact_match s.config keyboardState)
      ∧ should_handle_hotkey s keyboardState vkCode wParam
          = (decide (wParam = WM_KEYDOWN ∨ wParam = WM_SYSKEYDOWN)
              && decide (vkCode = s.config.hotkey_vk) && exact_match s.config keyboardState) := by
  have hzero : s.config.hotkey_mod = 0 →
      (exact_match s.config keyboardState
        && !key_pressed keyboardState VK_CONTROL && !key_pressed keyboardState VK_MENU
        && !key_pressed keyboardState VK_SHIFT
        && !(key_pressed keyboardState VK_LWIN || key_pressed keyboardState VK_RWIN))
      = exact_match s.config keyboardState := by
    intro h0
    cases hm : exact_match s.config keyboardState
    · simp
    · obtain ⟨h1, h2, h3, h4⟩ := (exact_match_iff s.config keyboardState).mp hm
      rw [h0] at h1 h2 h3 h4
      simp only [Nat.zero_testBit] at h1 h2 h3 h4
      simp [h1, h2, h3, h4]
  have heq : should_handle_hotkey s keyboardState vkCode wParam
      = (decide (wParam = WM_KEYDOWN ∨ wParam = WM_SYSKEYDOWN)
          && decide (vkCode = s.config.hotkey_vk) && exact_match s.config keyboardState) := by
    unfold should_handle_hotkey
    by_cases hw : wParam ≠ WM_KEYDOWN ∧ wParam ≠ WM_SYSKEYDOWN
    · have : ¬ (wParam = WM_KEYDOWN ∨ wParam = WM_SYSKEYDOWN) := by tauto
      simp [hw, this]
    · have hw2 : wParam = WM_KEYDOWN ∨ wParam = WM_SYSKEYDOWN := by tauto
      by_cases hv : vkCode ≠ s.config.hotkey_vk
      · simp [hw, hv]
      · have hv2 : vkCode = s.config.hotkey_vk := not_not.mp hv
        by_cases h0 : s.config.hotkey_mod = 0
        · rw [if_neg hw, if_neg hv, if_pos h0, hzero h0]
          simp [hw2, hv2]
        · rw [if_neg hw, if_neg hv, if_neg h0]
          simp [hw2, hv2]
  refine ⟨?_, hzero, heq⟩
  rw [heq]
  simp only [Bool.and_eq_true, decide_eq_true_eq, exact_match_iff]
  tauto

/-- With no modifier configured and F1 as the key: F1 alone is handled, F1 with
Shift held is not. -/
theorem should_handle_hotkey_iff_witness :
    should_handle_hotkey
        { MicrophoneController.new with config := { hotkey_mod := 0 } }
        (keys_down []) VK_F1 WM_KEYDOWN = true
      ∧ should_handle_hotkey
        { MicrophoneController.new with config := { hotkey_mod := 0 } }
        (keys_down [VK_SHIFT]) VK_F1 WM_KEYDOWN = false
      ∧ (exact_match { hotkey_mod := 0 } (keys_down [VK_SHIFT])
          && !key_pressed (keys_down [VK_SHIFT]) VK_CONTROL
          && !key_pressed (keys_down [VK_SHIFT]) VK_MENU
          && !key_pressed (keys_down [VK_SHIFT]) VK_SHIFT
          && !(key_pressed (keys_down [VK_SHIFT]) VK_LWIN
                || key_pressed (keys_down [VK_SHIFT]) VK_RWIN))
        = exact_match { hotkey_mod := 0 } (keys_down [VK_SHIFT]) :=
  ⟨by decide, by decide,
    (should_handle_hotkey_iff
      { MicrophoneController.new with config := { hotkey_mod := 0 } }
      (keys_down [VK_SHIFT]) VK_F1 WM_KEYDOWN).2.1 rfl⟩

/-! ## The order of shutdown -/

theorem cleanup_segments_ordered (b0 b1 b2 b3 b4 b5 b6 b7 b8 : Bool) :
    List.Pairwise (fun a b => cleanup_stage a ≤ cleanup_stage b)
      ((if b0 = true then [Effect.SetMute false] else [])
        ++ (if b1 = true then [Effect.ShellNotifyDelete] else [])
        ++ (if b2 = true then [Effect.UnregisterHotKey] else [])
        ++ (if b3 = true then [Effect.UnhookWindowsHookEx] else [])
        ++ (if b4 = true then [Effect.ReleaseEndpointVolume] else [])
        ++ (if b5 = true then [Effect.ReleaseDevice] else [])
        ++ (if b6 = true then [Effect.ReleaseEnumerator] else [])
        ++ (if b7 = true then [Effect.CoUninitialize] else [])
        ++ (if b8 = true then [Effect.DestroyWindow] else [])) := by
  cases b0 <;> cases b1 <;> cases b2 <;> cases b3 <;> cases b4 <;> cases b5 <;> cases b6
    <;> cases b7 <;> cases b8 <;> decide

theorem cleanup_segments_members (b0 b1 b2 b3 b4 b5 b6 b7 b8 : Bool) :
    List.Nodup
      ((if b0 = true then [Effect.SetMute false] else [])
        ++ (if b1 = true then [Effect.ShellNotifyDelete] else [])
        ++ (if b2 = true then [Effect.UnregisterHotKey] else [])
        ++ (if b3 = true then [Effect.UnhookWindowsHookEx] else [])
        ++ (if b4 = true then [Effect.ReleaseEndpointVolume] else [])
        ++ (if b5 = true then [Effect.ReleaseDevice] else [])
        ++ (if b6 = true then [Effect.ReleaseEnumerator] else [])
        ++ (if b7 = true then [Effect.CoUninitialize] else [])
        ++ (if b8 = true then [Effect.DestroyWindow] else []))
      ∧ (Effect.SetMute false ∈
      ((if b0 = true then [Effect.SetMute false] else [])
        ++ (if b1 = true then [Effect.ShellNotifyDelete] else [])
        ++ (if b2 = true then [Effect.UnregisterHotKey] else [])
        ++ (if b3 = true then [Effect.UnhookWindowsHookEx] else [])
        ++ (if b4 = true then [Effect.ReleaseEndpointVolume] else [])
        ++ (if b5 = true then [Effect.ReleaseDevice] else [])
        ++ (if b6 = true then [Effect.ReleaseEnumerator] else [])
        ++ (if b7 = true then [Effect.CoUninitialize] else [])
        ++ (if b8 = true then [Effect.DestroyWindow] else [])) ↔ b0 = true)
      ∧ (Effect.ShellNotifyDelete ∈
      ((if b0 = true then [Effect.SetMute false] else [])
        ++ (if b1 = true then [Effect.ShellNotifyDelete] else [])
        ++ (if b2 = true then [Effect.UnregisterHotKey] else [])
        ++ (if b3 = true then [Effect.UnhookWindowsHookEx] else [])
        ++ (if b4 = true then [Effect.ReleaseEndpointVolume] else [])
        ++ (if b5 = true then [Effect.ReleaseDevice] else [])
        ++ (if b6 = true then [Effect.ReleaseEnumerator] else [])
        ++ (if b7 = true then [Effect.CoUninitialize] else [])
        ++ (if b8 = true then [Effect.DestroyWindow] else [])) ↔ b1 = true)
      ∧ (Effect.UnregisterHotKey ∈
      ((if b0 = true then [Effect.SetMute false] else [])
        ++ (if b1 = true then [Effect.ShellNotifyDelete] else [])
        ++ (if b2 = true then [Effect.UnregisterHotKey] else [])
        ++ (if b3 = true then [Effect.UnhookWindowsHookEx] else [])
        ++ (if b4 = true then [Effect.ReleaseEndpointVolume] else [])
        ++ (if b5 = true then [Effect.ReleaseDevice] else [])
        ++ (if b6 = true then [Effect.ReleaseEnumerator] else [])
        ++ (if b7 = true then [Effect.CoUninitialize] else [])
        ++ (if b8 = true then [Effect.DestroyWindow] else [])) ↔ b2 = true)
      ∧ (Effect.UnhookWindowsHookEx ∈
      ((if b0 = true then [Effect.SetMute false] else [])
        ++ (if b1 = true then [Effect.ShellNotifyDelete] else [])
        ++ (if b2 = true then [Effect.UnregisterHotKey] else [])
        ++ (if b3 = true then [Effect.UnhookWindowsHookEx] else [])
        ++ (if b4 = true then [Effect.ReleaseEndpointVolume] else [])
        ++ (if b5 = true then [Effect.ReleaseDevice] else [])
        ++ (if b6 = true then [Effect.ReleaseEnumerator] else [])
        ++ (if b7 = true then [Effect.CoUninitialize] else [])
        ++ (if b8 = true then [Effect.DestroyWindow] else [])) ↔ b3 = true)
      ∧ (Effect.ReleaseEndpointVolume ∈
      ((if b0 = true then [Effect.SetMute false] else [])
        ++ (if b1 = true then [Effect.ShellNotifyDelete] else [])
        ++ (if b2 = true then [Effect.UnregisterHotKey] else [])
        ++ (if b3 = true then [Effect.UnhookWindowsHookEx] else [])
        ++ (if b4 = true then [Effect.ReleaseEndpointVolume] else [])
        ++ (if b5 = true then [Effect.ReleaseDevice] else [])
        ++ (if b6 = true then [Effect.ReleaseEnumerator] else [])
        ++ (if b7 = true then [Effect.CoUninitialize] else [])
        ++ (if b8 = true then [Effect.DestroyWindow] else [])) ↔ b4 = true)
      ∧ (Effect.ReleaseDevice ∈
      ((if b0 = true then [Effect.SetMute false] else [])
        ++ (if b1 = true then [Effect.ShellNotifyDelete] else [])
        ++ (if b2 = true then [Effect.UnregisterHotKey] else [])
        ++ (if b3 = true then [Effect.UnhookWindowsHookEx] else [])
        ++ (if b4 = true then [Effect.ReleaseEndpointVolume] else [])
        ++ (if b5 = true then [Effect.ReleaseDevice] else [])
        ++ (if b6 = true then [Effect.ReleaseEnumerator] else [])
        ++ (if b7 = true then [Effect.CoUninitialize] else [])
        ++ (if b8 = true then [Effect.DestroyWindow] else [])) ↔ b5 = true)
      ∧ (Effect.ReleaseEnumerator ∈
      ((if b0 = true then [Effect.SetMute false] else [])
        ++ (if b1 = true then [Effect.ShellNotifyDelete] else [])
        ++ (if b2 = true then [Effect.UnregisterHotKey] else [])
        ++ (if b3 = true then [Effect.UnhookWindowsHookEx] else [])
        ++ (if b4 = true then [Effect.ReleaseEndpointVolume] else [])
        ++ (if b5 = true then [Effect.ReleaseDevice] else [])
        ++ (if b6 = true then [Effect.ReleaseEnumerator] else [])
        ++ (if b7 = true then [Effect.CoUninitialize] else [])
        ++ (if b8 = true then [Effect.DestroyWindow] else [])) ↔ b6 = true)
      ∧ (Effect.CoUninitialize ∈
      ((if b0 = true then [Effect.SetMute false] else [])
        ++ (if b1 = true then [Effect.ShellNotifyDelete] else [])
        ++ (if b2 = true then [Effect.UnregisterHotKey] else [])
        ++ (if b3 = true then [Effect.UnhookWindowsHookEx] else [])
        ++ (if b4 = true then [Effect.ReleaseEndpointVolume] else [])
        ++ (if b5 = true then [Effect.ReleaseDevice] else [])
        ++ (if b6 = true then [Effect.ReleaseEnumerator] else [])
        ++ (if b7 = true then [Effect.CoUninitialize] else [])
        ++ (if b8 = true then [Effect.DestroyWindow] else [])) ↔ b7 = true)
      ∧ (Effect.DestroyWindow ∈
      ((if b0 = true then [Effect.SetMute false] else [])
        ++ (if b1 = true then [Effect.ShellNotifyDelete] else [])
        ++ (if b2 = true then [Effect.UnregisterHotKey] else [])
        ++ (if b3 = true then [Effect.UnhookWindowsHookEx] else [])
        ++ (if b4 = true then [Effect.ReleaseEndpointVolume] else [])
        ++ (if b5 = true then [Effect.ReleaseDevice] else [])
        ++ (if b6 = true then [Effect.ReleaseEnumerator] else [])
        ++ (if b7 = true then [Effect.CoUninitialize] else [])
        ++ (if b8 = true then [Effect.DestroyWindow] else [])) ↔ b8 = true) := by
  cases b0 <;> cases b1 <;> cases b2 <;> cases b3 <;> cases b4 <;> cases b5 <;> cases b6
    <;> cases b7 <;> cases b8 <;> decide

theorem restore_initial_mute_state_calls (s : MicrophoneController) :
    (restore_initial_mute_state s).2
        = (if (s.endpoint_volume.isSome && s.config.unmute_on_exit && s.is_muted) = true
            then [Effect.SetMute false] else [])
      ∧ (restore_initial_mute_state s).1 = s := by
  unfold restore_initial_mute_state
  cases hv : s.endpoint_volume <;> cases hu : s.config.unmute_on_exit
    <;> cases hm : s.is_muted <;> simp

/-- C18.  In every state the calls issued by `cleanup` are ordered by stage: the
mute restore (`SetMute`), then the removal of the tray icon, then the release
of the hotkey delivery (`UnregisterHotKey`, `UnhookWindowsHookEx`), then the
release of the endpoint volume and of the device, then the release of the
device enumerator, then `CoUninitialize` (and last the destruction of the
window); every call belongs to one of these stages and none is made twice.
Each call is made exactly when there is something to release: the mute restore
when the endpoint volume is held, `unmute_on_exit` is set and the device is
muted; the removal of the tray icon when it was added; `UnregisterHotKey` when
the hotkey is registered and the window exists; `UnhookWindowsHookEx` when the
hook is installed; the releases when the endpoint volume, the device and the
enumerator are held; `CoUninitialize` when COM was initialised;
`DestroyWindow` when the window exists.  A mute restore is the first call of
all and is only made when the endpoint volume is held, so it happens while the
device is still bound. -/
theorem cleanup_order (s : MicrophoneController) :
    List.Pairwise (fun a b => cleanup_stage a ≤ cleanup_stage b) (cleanup s).2
      ∧ (∀ e ∈ (cleanup s).2, 1 ≤ cleanup_stage e)
      ∧ (∀ mute, Effect.SetMute mute ∈ (cleanup s).2 →
          (cleanup s).2.head? = some (Effect.SetMute false)
            ∧ s.endpoint_volume.isSome = true)
      ∧ (cleanup s).2.Nodup
      ∧ (Effect.SetMute false ∈ (cleanup s).2
          ↔ s.endpoint_volume.isSome = true ∧ s.config.unmute_on_exit = true
            ∧ s.is_muted = true)
      ∧ (Effect.ShellNotifyDelete ∈ (cleanup s).2 ↔ s.tray_icon_added = true)
      ∧ (Effect.UnregisterHotKey ∈ (cleanup s).2
          ↔ s.hotkey_registered = true ∧ s.main_hwnd = true)
      ∧ (Effect.UnhookWindowsHookEx ∈ (cleanup s).2 ↔ s.keyboard_hook = true)
      ∧ (Effect.ReleaseEndpointVolume ∈ (cleanup s).2 ↔ s.endpoint_volume.isSome = true)
      ∧ (Effect.ReleaseDevice ∈ (cleanup s).2 ↔ s.current_device.isSome = true)
      ∧ (Effect.ReleaseEnumerator ∈ (cleanup s).2 ↔ s.device_enumerator = true)
      ∧ (Effect.CoUninitialize ∈ (cleanup s).2 ↔ s.com_initialized = true)
      ∧ (Effect.DestroyWindow ∈ (cleanup s).2 ↔ s.main_hwnd = true) := by
  obtain ⟨hcalls, hstate⟩ := restore_initial_mute_state_calls s
  have heq : (cleanup s).2
      = (if (s.endpoint_volume.isSome && s.config.unmute_on_exit && s.is_muted) = true
            then [Effect.SetMute false] else [])
        ++ (if s.tray_icon_added = true then [Effect.ShellNotifyDelete] else [])
        ++ (if (s.hotkey_registered && s.main_hwnd) = true then [Effect.UnregisterHotKey]
            else [])
        ++ (if s.keyboard_hook = true then [Effect.UnhookWindowsHookEx] else [])
        ++ (if s.endpoint_volume.isSome = true then [Effect.ReleaseEndpointVolume] else [])
        ++ (if s.current_device.isSome = true then [Effect.ReleaseDevice] else [])
        ++ (if s.device_enumerator = true then [Effect.ReleaseEnumerator] else [])
        ++ (if s.com_initialized = true then [Effect.CoUninitialize] else [])
        ++ (if s.main_hwnd = true then [Effect.DestroyWindow] else []) := by
    simp only [cleanup, hcalls, hstate]
  obtain ⟨m0, m1, m2, m3, m4, m5, m6, m7, m8, m9⟩ := cleanup_segments_members
    (s.endpoint_volume.isSome && s.config.unmute_on_exit && s.is_muted) s.tray_icon_added
    (s.hotkey_registered && s.main_hwnd) s.keyboard_hook s.endpoint_volume.isSome
    s.current_device.isSome s.device_enumerator s.com_initialized s.main_hwnd
  rw [heq]
  refine ⟨cleanup_segments_ordered _ _ _ _ _ _ _ _ _, ?_, ?_, m0, ?_, m2, ?_, m4, m5, m6, m7,
    m8, m9⟩
  · intro e he
    simp only [List.mem_append] at he
    rcases he with (((((((he | he) | he) | he) | he) | he) | he) | he) | he <;>
      split_ifs at he <;> simp at he <;> subst he <;> simp [cleanup_stage]
  · intro mute hm
    cases hb : (s.endpoint_volume.isSome && s.config.unmute_on_exit && s.is_muted)
    · exfalso
      simp only [hb, Bool.false_eq_true, if_false, List.nil_append, List.mem_append] at hm
      rcases hm with ((((((hm | hm) | hm) | hm) | hm) | hm) | hm) | hm <;>
        split_ifs at hm <;> simp at hm
    · simp only [Bool.and_eq_true] at hb
      exact ⟨by simp, hb.1.1⟩
  · rw [m1]
    simp only [Bool.and_eq_true, and_assoc]
  · rw [m3]
    simp only [Bool.and_eq_true]

/-- The shutdown of `sample_muted`, where everything but the hotkey registration
is held: eight calls, the mute restore first. -/
theorem cleanup_order_witness :
    (cleanup sample_muted).2
        = [Effect.SetMute false, Effect.ShellNotifyDelete, Effect.UnhookWindowsHookEx,
            Effect.ReleaseEndpointVolume, Effect.ReleaseDevice, Effect.ReleaseEnumerator,
            Effect.CoUninitialize, Effect.DestroyWindow]
      ∧ (cleanup sample_muted).2.head? = some (Effect.SetMute false)
      ∧ sample_muted.endpoint_volume.isSome = true :=
  ⟨by decide, (cleanup_order sample_muted).2.2.1 false (by decide)⟩

/-! ## What binding a device leaves alone -/

theorem enumerate_audio_devices_audio_calls (os : OsAnswers) (s : MicrophoneController) :
    ∀ e ∈ (enumerate_audio_devices os s).2.2, e.is_audio_call = true := by
  have key : ∀ l : List Effect, l.all Effect.is_audio_call = true →
      ∀ e ∈ l, e.is_audio_call = true := fun l hl e he => List.all_eq_true.mp hl e he
  apply key
  unfold enumerate_audio_devices
  cases hde : s.device_enumerator <;> cases hce : os.create_enumerator
    <;> cases hc : os.enum_audio_endpoints <;> rfl

theorem enumerate_audio_devices_same_shell (os : OsAnswers) (s : MicrophoneController) :
    same_shell (enumerate_audio_devices os s).2.1 s := by
  unfold enumerate_audio_devices same_shell
  cases hde : s.device_enumerator <;> cases hce : os.create_enumerator
    <;> cases hc : os.enum_audio_endpoints <;> simp

theorem activate_and_read_mute_same_shell (s : MicrophoneController) (device : IMMDevice)
    (issued : List Effect) (h : ∀ e ∈ issued, e.is_audio_call = true) :
    same_shell (activate_and_read_mute s device issued).2.1 s
      ∧ ∀ e ∈ (activate_and_read_mute s device issued).2.2, e.is_audio_call = true := by
  unfold activate_and_read_mute same_shell
  cases ha : device.activate with
  | none =>
    refine ⟨by simp, fun e he => ?_⟩
    simp only [List.mem_append, List.mem_singleton] at he
    rcases he with he | he
    · exact h e he
    · subst he
      rfl
  | some volume =>
    cases hm : volume.get_mute <;>
    · simp only [hm]
      refine ⟨by simp, fun e he => ?_⟩
      simp only [List.mem_append, List.mem_cons, List.mem_singleton, List.not_mem_nil,
        or_false] at he
      rcases he with he | he | he
      · exact h e he
      · subst he
        rfl
      · subst he
        rfl

/-- Member `find_and_set_target_device` changes nothing outside the audio side and
issues calls to the audio subsystem only. -/
theorem find_and_set_target_device_same_shell (os : OsAnswers) (s : MicrophoneController) :
    same_shell (find_and_set_target_device os s).2.1 s
      ∧ ∀ e ∈ (find_and_set_target_device os s).2.2, e.is_audio_call = true := by
  unfold find_and_set_target_device
  by_cases h0 : (!s.device_enumerator && !os.create_enumerator) = true
  · simp only [h0, if_true]
    refine ⟨⟨rfl, rfl, rfl, rfl, rfl, rfl, rfl⟩, fun e he => ?_⟩
    simp at he
    subst he
    rfl
  · simp only [h0, if_false]
    have hpre : ∀ e ∈ (if s.device_enumerator = true then [] else [Effect.CoCreateInstance])
        ++ (if s.current_device.isSome = true then [Effect.ReleaseDevice] else [])
        ++ (if s.endpoint_volume.isSome = true then [Effect.ReleaseEndpointVolume]
            else []), e.is_audio_call = true := by
      intro e he
      simp only [List.mem_append] at he
      rcases he with (he | he) | he <;> split_ifs at he <;> simp at he <;> subst he <;> rfl
    by_cases hd : s.config.use_default_device = true
    · simp only [hd, if_true]
      cases os.default_audio_endpoint with
      | none =>
        refine ⟨⟨rfl, rfl, rfl, rfl, rfl, rfl, rfl⟩, fun e he => ?_⟩
        rcases List.mem_append.mp he with h1 | h1
        · exact hpre e h1
        · rw [List.mem_singleton] at h1
          subst h1
          rfl
      | some device =>
        simp only
        refine activate_and_read_mute_same_shell _ device _ fun e he => ?_
        rcases List.mem_append.mp he with h1 | h1
        · exact hpre e h1
        · rw [List.mem_singleton] at h1
          subst h1
          rfl
    · simp only [hd, if_false]
      by_cases hn : s.config.device_name = ""
      · simp only [hn, if_true]
        exact ⟨⟨rfl, rfl, rfl, rfl, rfl, rfl, rfl⟩, hpre⟩
      · simp only [hn, if_false]
        have he := enumerate_audio_devices_held os
          { s with device_enumerator := true, current_device := none, endpoint_volume := none }
          rfl
        have hcalls := enumerate_audio_devices_audio_calls os
          { s with device_enumerator := true, current_device := none, endpoint_volume := none }
        have hfound := find_named_device_calls os s.config.device_name
          (enumerate_audio_devices os
            { s with device_enumerator := true, current_device := none,
                     endpoint_volume := none }).1
        rw [he.1]
        generalize find_named_device os s.config.device_name
          (enumerate_audio_devices os
            { s with device_enumerator := true, current_device := none,
                     endpoint_volume := none }).1 = found at hfound ⊢
        obtain ⟨target, e3⟩ := found
        have hall : ∀ e ∈ (if s.device_enumerator = true then [] else [Effect.CoCreateInstance])
            ++ (if s.current_device.isSome = true then [Effect.ReleaseDevice] else [])
            ++ (if s.endpoint_volume.isSome = true then [Effect.ReleaseEndpointVolume]
                else [])
            ++ (enumerate_audio_devices os
                { s with device_enumerator := true, current_device := none,
                         endpoint_volume := none }).2.2 ++ e3, e.is_audio_call = true := by
          intro e hmem
          rw [List.mem_append, List.mem_append] at hmem
          rcases hmem with (hmem | hmem) | hmem
          · exact hpre e hmem
          · exact hcalls e hmem
          · obtain ⟨id, hid⟩ := hfound e hmem
            subst hid
            rfl
        cases target with
        | none => exact ⟨⟨rfl, rfl, rfl, rfl, rfl, rfl, rfl⟩, hall⟩
        | some pair => exact activate_and_read_mute_same_shell _ pair.2 _ hall

/-! ## Facts about the calls of the steps of a reload -/

theorem audio_call_kinds (e : Effect) (h : e.is_audio_call = true) :
    e.caption = none ∧ e.is_register_hot_key = false ∧ e.is_devices_list_write = false
      ∧ e.creates_ui = false ∧ e ≠ Effect.UnhookWindowsHookEx
      ∧ e ≠ Effect.UnregisterHotKey := by
  cases e <;> simp [Effect.is_audio_call] at h <;>
    simp [Effect.caption, Effect.is_register_hot_key, Effect.is_devices_list_write,
      Effect.creates_ui]

theorem audio_calls_kinds (calls : List Effect) (h : ∀ e ∈ calls, e.is_audio_call = true) :
    message_captions calls = [] ∧ calls.filter Effect.is_register_hot_key = []
      ∧ calls.filter Effect.is_devices_list_write = []
      ∧ calls.filter Effect.creates_ui = []
      ∧ Effect.UnhookWindowsHookEx ∉ calls := by
  refine ⟨?_, ?_, ?_, ?_, ?_⟩
  · unfold message_captions
    rw [List.filterMap_eq_nil_iff]
    exact fun e he => (audio_call_kinds e (h e he)).1
  · rw [List.filter_eq_nil_iff]
    exact fun e he => by simp [(audio_call_kinds e (h e he)).2.1]
  · rw [List.filter_eq_nil_iff]
    exact fun e he => by simp [(audio_call_kinds e (h e he)).2.2.1]
  · rw [List.filter_eq_nil_iff]
    exact fun e he => by simp [(audio_call_kinds e (h e he)).2.2.2.1]
  · exact fun he => (audio_call_kinds _ (h _ he)).2.2.2.2.1 rfl

theorem load_config_result (host : HostAnswers) (s : MicrophoneController) :
    (load_config host s).1
        = { s with config :=
              match host.read_file s.config.config_file with
              | none => s.config
              | some text => load_config_text text s.config }
      ∧ message_captions (load_config host s).2 = []
      ∧ (load_config host s).2.filter Effect.is_register_hot_key = []
      ∧ (load_config host s).2.filter Effect.is_devices_list_write = []
      ∧ (load_config host s).2.filter Effect.creates_ui = []
      ∧ Effect.UnhookWindowsHookEx ∉ (load_config host s).2 := by
  unfold load_config save_config
  cases hr : host.read_file s.config.config_file <;>
    simp [message_captions, Effect.caption, Effect.is_register_hot_key,
      Effect.is_devices_list_write, Effect.creates_ui]

theorem update_tray_icon_result (s : MicrophoneController) :
    same_shell (update_tray_icon s).1 s
      ∧ message_captions (update_tray_icon s).2 = []
      ∧ (update_tray_icon s).2.filter Effect.is_register_hot_key = []
      ∧ Effect.UnhookWindowsHookEx ∉ (update_tray_icon s).2 := by
  rw [update_tray_icon_eq]
  unfold same_shell
  split_ifs <;> simp [message_captions, Effect.caption, Effect.is_register_hot_key]

theorem unregistered_eq (s : MicrophoneController) :
    (if s.hotkey_registered = true then { s with hotkey_registered := false } else s)
      = { s with hotkey_registered := false } := by
  cases s with
  | mk a b c d e f g h i j hotkey l m n o p q =>
    cases hotkey <;> rfl

theorem terminated_append (a b : List Effect) :
    terminated (a ++ b) = (terminated a || terminated b) := by
  simp [terminated, List.any_append]

theorem audio_calls_not_terminated (calls : List Effect)
    (h : ∀ e ∈ calls, e.is_audio_call = true) : terminated calls = false := by
  unfold terminated
  rw [List.any_eq_false]
  intro e he
  have ha := h e he
  cases e <;> simp [Effect.is_audio_call] at ha <;> simp [Effect.is_invalid_parameter]

theorem load_config_not_terminated (host : HostAnswers) (s : MicrophoneController) :
    terminated (load_config host s).2 = false := by
  unfold load_config save_config
  cases hr : host.read_file s.config.config_file <;>
    simp [terminated, Effect.is_invalid_parameter]

/-- The state and the calls of `reload_configuration` up to the tray refresh or
the notice of the failed rebind. -/
theorem reload_rebind_result (os : OsAnswers) (host : HostAnswers)
    (s : MicrophoneController) :
    (reload_rebind os host s).2.1.config = (load_config host s).1.config
      ∧ (reload_rebind os host s).2.1.keyboard_hook = s.keyboard_hook
      ∧ (reload_rebind os host s).2.1.hotkey_registered = false
      ∧ (reload_rebind os host s).2.1.tray_icon_added = s.tray_icon_added
      ∧ terminated ((if s.hotkey_registered = true then [Effect.UnregisterHotKey] else [])
            ++ (load_config host { s with hotkey_registered := false }).2
            ++ (reload_rebind os host s).2.2) = false
      ∧ message_captions ((if s.hotkey_registered = true then [Effect.UnregisterHotKey]
              else [])
            ++ (load_config host { s with hotkey_registered := false }).2
            ++ (reload_rebind os host s).2.2) = []
      ∧ ((if s.hotkey_registered = true then [Effect.UnregisterHotKey] else [])
            ++ (load_config host { s with hotkey_registered := false }).2
            ++ (reload_rebind os host s).2.2).filter Effect.is_register_hot_key = []
      ∧ Effect.UnhookWindowsHookEx ∉
          (if s.hotkey_registered = true then [Effect.UnregisterHotKey] else [])
            ++ (load_config host { s with hotkey_registered := false }).2
            ++ (reload_rebind os host s).2.2 := by
  have hload := load_config_result host { s with hotkey_registered := false }
  have hload0 := (load_config_result host s).1
  have hbind := find_and_set_target_device_same_shell os
    (load_config host { s with hotkey_registered := false }).1
  have hkinds := audio_calls_kinds _ hbind.2
  have hlive := audio_calls_not_terminated _ hbind.2
  have hlive0 := load_config_not_terminated host { s with hotkey_registered := false }
  unfold reload_rebind
  refine ⟨?_, ?_, ?_, ?_, ?_, ?_, ?_, ?_⟩
  · rw [hbind.1.1, hload.1, hload0]
  · rw [hbind.1.2.2.2.2.1, hload.1]
  · rw [hbind.1.2.2.2.1, hload.1]
  · rw [hbind.1.2.2.1, hload.1]
  · rw [terminated_append, terminated_append, hlive, hlive0]
    cases s.hotkey_registered <;> simp [terminated, Effect.is_invalid_parameter]
  · unfold message_captions at hkinds hload ⊢
    rw [List.filterMap_append, List.filterMap_append, hkinds.1, hload.2.1]
    cases s.hotkey_registered <;> simp [Effect.caption]
  · rw [List.filter_append, List.filter_append, hkinds.2.1, hload.2.2.1]
    cases s.hotkey_registered <;> simp [Effect.is_register_hot_key]
  · intro hm
    rcases List.mem_append.mp hm with hm1 | hm1
    · rcases List.mem_append.mp hm1 with hm2 | hm2
      · cases hh : s.hotkey_registered <;> simp [hh] at hm2
      · exact hload.2.2.2.2.2 hm2
    · exact hkinds.2.2.2.2 hm1

/-- Member `reload_configuration`, step by step: the calls up to the rebind, then
the notice of the failed rebind or the tray refresh, then (unless the refresh
ended the process) the registration of the hotkey and its notice. -/
theorem reload_configuration_eq (os : OsAnswers) (host : HostAnswers)
    (s : MicrophoneController) :
    reload_configuration os host s
      = if (reload_rebind os host s).1 = false then
          ((register_global_hotkey host (reload_rebind os host s).2.1).2.1,
            (if s.hotkey_registered = true then [Effect.UnregisterHotKey] else [])
              ++ (load_config host { s with hotkey_registered := false }).2
              ++ (reload_rebind os host s).2.2
              ++ [Effect.MessageBox
                  ("Failed to reinitialize audio device after config reload.\n"
                    ++ (if !(reload_rebind os host s).2.1.config.use_default_device
                        then "Check your device_name setting in the config file." else ""))
                  "Device Error"]
              ++ (register_global_hotkey host (reload_rebind os host s).2.1).2.2
              ++ (if !(register_global_hotkey host (reload_rebind os host s).2.1).1 then
                    [Effect.MessageBox
                      "Failed to register new hotkey after config reload.\nThe key combination might be in use."
                      "Hotkey Registration Failed"]
                  else []))
        else if terminated (update_tray_icon (reload_rebind os host s).2.1).2 = true then
          ((update_tray_icon (reload_rebind os host s).2.1).1,
            (if s.hotkey_registered = true then [Effect.UnregisterHotKey] else [])
              ++ (load_config host { s with hotkey_registered := false }).2
              ++ (reload_rebind os host s).2.2
              ++ (update_tray_icon (reload_rebind os host s).2.1).2)
        else
          ((register_global_hotkey host
              (update_tray_icon (reload_rebind os host s).2.1).1).2.1,
            (if s.hotkey_registered = true then [Effect.UnregisterHotKey] else [])
              ++ (load_config host { s with hotkey_registered := false }).2
              ++ (reload_rebind os host s).2.2
              ++ (update_tray_icon (reload_rebind os host s).2.1).2
              ++ (register_global_hotkey host
                  (update_tray_icon (reload_rebind os host s).2.1).1).2.2
              ++ (if !(register_global_hotkey host
                        (update_tray_icon (reload_rebind os host s).2.1).1).1 then
                    [Effect.MessageBox
                      "Failed to register new hotkey after config reload.\nThe key combination might be in use."
                      "Hotkey Registration Failed"]
                  else [])) := by
  unfold reload_configuration reload_rebind
  simp only [unregistered_eq]
  cases hb : (find_and_set_target_device os
      (load_config host { s with hotkey_registered := false }).1).1
  · simp [terminated, Effect.is_invalid_parameter]
  · cases ht : terminated (update_tray_icon (find_and_set_target_device os
        (load_config host { s with hotkey_registered := false }).1).2.1).2 <;>
      simp [ht]

/-- When the tray refresh of a reload ends the process. -/
theorem reload_refresh_terminated (os : OsAnswers) (host : HostAnswers)
    (s : MicrophoneController) :
    ((reload_rebind os host s).1 = true
        ∧ terminated (update_tray_icon (reload_rebind os host s).2.1).2 = true)
      ↔ ¬ reload_tip_fits os host s := by
  obtain ⟨_, _, _, htray, _⟩ := reload_rebind_result os host s
  have hiff := (update_tray_icon_fields (reload_rebind os host s).2.1).2.2.2.2.2.2
  rw [htray] at hiff
  unfold reload_tip_fits
  constructor
  · rintro ⟨hb, ht⟩ hfit
    exact (hiff.mp ht).2 (hfit hb (hiff.mp ht).1)
  · intro hn
    by_contra hc
    apply hn
    intro hb htr
    by_contra hlen
    exact hc ⟨hb, hiff.mpr ⟨htr, hlen⟩⟩

/-- When the tray refresh of a reload does not fit `szTip`, the process is ended
there: the hotkey is not registered again. -/
theorem reload_long_tip_ends_process (os : OsAnswers) (host : HostAnswers)
    (s : MicrophoneController) (hlong : ¬ reload_tip_fits os host s) :
    terminated (reload_configuration os host s).2 = true
      ∧ (reload_configuration os host s).2.filter Effect.is_register_hot_key = [] := by
  obtain ⟨hb, ht⟩ := (reload_refresh_terminated os host s).mpr hlong
  obtain ⟨_, _, _, _, _, _, hfil, _⟩ := reload_rebind_result os host s
  have htray := update_tray_icon_result (reload_rebind os host s).2.1
  rw [reload_configuration_eq]
  simp only [hb, ht, Bool.true_eq_false, if_false, if_true]
  refine ⟨?_, ?_⟩
  · rw [terminated_append, ht, Bool.or_true]
  · rw [List.filter_append, hfil, htray.2.2.1]
    rfl

/-- The last step of `reload_configuration`, after the calls `calls` made in the
state `t`: the registration of the hotkey and the notice of its failure. -/
theorem reload_registration (host : HostAnswers) (t : MicrophoneController)
    (calls : List Effect) (hlive : terminated calls = false)
    (hfil : calls.filter Effect.is_register_hot_key = [])
    (hun : Effect.UnhookWindowsHookEx ∉ calls) :
    terminated (calls ++ (register_global_hotkey host t).2.2
        ++ (if !(register_global_hotkey host t).1 then
              [Effect.MessageBox
                "Failed to register new hotkey after config reload.\nThe key combination might be in use."
                "Hotkey Registration Failed"]
            else [])) = false
      ∧ (register_global_hotkey host t).2.1.config = t.config
      ∧ (register_global_hotkey host t).2.1.keyboard_hook = t.keyboard_hook
      ∧ (t.hotkey_registered = false → (register_global_hotkey host t).2.1.hotkey_registered
          = host.register_hot_key t.config.hotkey_mod t.config.hotkey_vk)
      ∧ (calls ++ (register_global_hotkey host t).2.2
          ++ (if !(register_global_hotkey host t).1 then
                [Effect.MessageBox
                  "Failed to register new hotkey after config reload.\nThe key combination might be in use."
                  "Hotkey Registration Failed"]
              else [])).filter Effect.is_register_hot_key
          = [Effect.RegisterHotKey t.config.hotkey_mod t.config.hotkey_vk]
      ∧ message_captions (calls ++ (register_global_hotkey host t).2.2
          ++ (if !(register_global_hotkey host t).1 then
                [Effect.MessageBox
                  "Failed to register new hotkey after config reload.\nThe key combination might be in use."
                  "Hotkey Registration Failed"]
              else []))
          = message_captions calls
            ++ (if host.register_hot_key t.config.hotkey_mod t.config.hotkey_vk = false
                then ["Hotkey Registration Failed"] else [])
      ∧ Effect.UnhookWindowsHookEx ∉ calls ++ (register_global_hotkey host t).2.2
          ++ (if !(register_global_hotkey host t).1 then
                [Effect.MessageBox
                  "Failed to register new hotkey after config reload.\nThe key combination might be in use."
                  "Hotkey Registration Failed"]
              else []) := by
  unfold register_global_hotkey
  cases hr : host.register_hot_key t.config.hotkey_mod t.config.hotkey_vk
  · refine ⟨?_, rfl, rfl, fun h => ?_, ?_, ?_, ?_⟩
    · simp only [terminated_append, hlive, Bool.false_or]
      simp [terminated, Effect.is_invalid_parameter]
    · simp [h]
    · simp [List.filter_append, hfil, Effect.is_register_hot_key]
    · simp [message_captions, List.filterMap_append, Effect.caption]
    · simp [hun]
  · refine ⟨?_, rfl, rfl, fun _ => ?_, ?_, ?_, ?_⟩
    · simp only [terminated_append, hlive, Bool.false_or]
      simp [terminated, Effect.is_invalid_parameter]
    · simp
    · simp [List.filter_append, hfil, Effect.is_register_hot_key]
    · simp [message_captions, List.filterMap_append, Effect.caption]
    · simp [hun]

/-- What `reload_configuration` gives when its tray refresh fits: the process is
not ended; the configuration is the one that `load_config` gives from the
configuration held before; the hook is left as it was; `RegisterHotKey` is
called once, with the new hotkey, and `hotkey_registered` tells whether it
succeeded; a notice captioned "Device Error" is shown exactly when the rebind
fails and one captioned "Hotkey Registration Failed" exactly when the
registration fails. -/
theorem reload_configuration_result (os : OsAnswers) (host : HostAnswers)
    (s : MicrophoneController) (hfit : reload_tip_fits os host s) :
    terminated (reload_configuration os host s).2 = false
      ∧ (reload_configuration os host s).1.config = (load_config host s).1.config
      ∧ (reload_configuration os host s).1.keyboard_hook = s.keyboard_hook
      ∧ (reload_configuration os host s).1.hotkey_registered
          = host.register_hot_key (load_config host s).1.config.hotkey_mod
              (load_config host s).1.config.hotkey_vk
      ∧ (reload_configuration os host s).2.filter Effect.is_register_hot_key
          = [Effect.RegisterHotKey (load_config host s).1.config.hotkey_mod
              (load_config host s).1.config.hotkey_vk]
      ∧ message_captions (reload_configuration os host s).2
          = (if (reload_rebind os host s).1 = false then ["Device Error"] else [])
            ++ (if host.register_hot_key (load_config host s).1.config.hotkey_mod
                    (load_config host s).1.config.hotkey_vk = false
                then ["Hotkey Registration Failed"] else [])
      ∧ Effect.UnhookWindowsHookEx ∉ (reload_configuration os host s).2 := by
  obtain ⟨hcfg, hhook, hreg, _, hlive, hcap, hfil, hun⟩ := reload_rebind_result os host s
  have htray := update_tray_icon_result (reload_rebind os host s).2.1
  have hterm := reload_refresh_terminated os host s
  rw [reload_configuration_eq]
  cases hb : (reload_rebind os host s).1
  · simp only [if_true]
    obtain ⟨g1, g2, g3, g4, g5, g6, g7⟩ := reload_registration host (reload_rebind os host s).2.1
      ((if s.hotkey_registered = true then [Effect.UnregisterHotKey] else [])
        ++ (load_config host { s with hotkey_registered := false }).2
        ++ (reload_rebind os host s).2.2
        ++ [Effect.MessageBox
            ("Failed to reinitialize audio device after config reload.\n"
              ++ (if !(reload_rebind os host s).2.1.config.use_default_device
                  then "Check your device_name setting in the config file." else ""))
            "Device Error"])
      (by rw [terminated_append, hlive]; rfl)
      (by rw [List.filter_append, hfil]; rfl)
      (by
        intro hm
        rcases List.mem_append.mp hm with hm1 | hm1
        · exact hun hm1
        · simp at hm1)
    rw [← hcfg]
    refine ⟨g1, g2, g3.trans hhook, g4 hreg, g5, ?_, g7⟩
    rw [g6]
    unfold message_captions at hcap ⊢
    rw [List.filterMap_append, hcap]
    rfl
  · have hlive2 : terminated (update_tray_icon (reload_rebind os host s).2.1).2 = false := by
      cases hx : terminated (update_tray_icon (reload_rebind os host s).2.1).2
      · rfl
      · exact absurd hfit (hterm.mp ⟨hb, hx⟩)
    simp only [Bool.true_eq_false, Bool.false_eq_true, if_false, hlive2]
    obtain ⟨g1, g2, g3, g4, g5, g6, g7⟩ := reload_registration host
      (update_tray_icon (reload_rebind os host s).2.1).1
      ((if s.hotkey_registered = true then [Effect.UnregisterHotKey] else [])
        ++ (load_config host { s with hotkey_registered := false }).2
        ++ (reload_rebind os host s).2.2
        ++ (update_tray_icon (reload_rebind os host s).2.1).2)
      (by rw [terminated_append, hlive, hlive2]; rfl)
      (by rw [List.filter_append, hfil, htray.2.2.1]; rfl)
      (by
        intro hm
        rcases List.mem_append.mp hm with hm1 | hm1
        · exact hun hm1
        · exact htray.2.2.2 hm1)
    rw [htray.1.1, hcfg] at g2 g4 g5 g6
    refine ⟨g1, g2, (g3.trans htray.1.2.2.2.2.1).trans hhook,
      g4 (htray.1.2.2.2.1.trans hreg), g5, ?_, g7⟩
    rw [g6]
    have hcap2 : List.filterMap Effect.caption
        (update_tray_icon (reload_rebind os host s).2.1).2 = [] := htray.2.1
    unfold message_captions at hcap ⊢
    rw [List.filterMap_append, hcap, hcap2]
    rfl

/-! ## Keys that are missing from the file -/

/-- C15 on the code.  Start-up with the default configuration installs the
keyboard hook and registers no hotkey.  A reload with the same configuration
leaves the hook installed (no `UnhookWindowsHookEx` is issued) and registers
the hotkey as well: both mechanisms are active.  After a start-up with
`use_keyboard_hook = false`, a reload with `use_keyboard_hook = true` in the
file installs no hook and registers the hotkey again. -/
theorem reload_ignores_keyboard_hook :
    (run sample_os (sample_host (some "")) MicrophoneController.new).1 = none
      ∧ (run sample_os (sample_host (some "")) MicrophoneController.new).2.1.keyboard_hook
          = true
      ∧ (run sample_os (sample_host (some ""))
          MicrophoneController.new).2.1.hotkey_registered = false
      ∧ (reload_configuration sample_os (sample_host (some ""))
          (run sample_os (sample_host (some ""))
            MicrophoneController.new).2.1).1.config.use_keyboard_hook = true
      ∧ (reload_configuration sample_os (sample_host (some ""))
          (run sample_os (sample_host (some ""))
            MicrophoneController.new).2.1).1.keyboard_hook = true
      ∧ (reload_configuration sample_os (sample_host (some ""))
          (run sample_os (sample_host (some ""))
            MicrophoneController.new).2.1).1.hotkey_registered = true
      ∧ Effect.UnhookWindowsHookEx ∉
          (reload_configuration sample_os (sample_host (some ""))
            (run sample_os (sample_host (some "")) MicrophoneController.new).2.1).2
      ∧ (run sample_os (sample_host (some "use_keyboard_hook = false\n"))
          MicrophoneController.new).2.1.hotkey_registered = true
      ∧ (reload_configuration sample_os (sample_host (some "use_keyboard_hook = true\n"))
          (run sample_os (sample_host (some "use_keyboard_hook = false\n"))
            MicrophoneController.new).2.1).1.config.use_keyboard_hook = true
      ∧ (reload_configuration sample_os (sample_host (some "use_keyboard_hook = true\n"))
          (run sample_os (sample_host (some "use_keyboard_hook = false\n"))
            MicrophoneController.new).2.1).1.keyboard_hook = false
      ∧ (reload_configuration sample_os (sample_host (some "use_keyboard_hook = true\n"))
          (run sample_os (sample_host (some "use_keyboard_hook = false\n"))
            MicrophoneController.new).2.1).1.hotkey_registered = true := by
  decide

/-! ## The notices of the Reload Config command -/

/-- C16, as stated, fails: when the rebind and the hotkey registration both fail,
the Reload Config command shows three notices, one for each failure and then
the notice of success. -/
theorem reload_command_shows_three_notices :
    (find_and_set_target_device sample_os_no_devices
        (load_config (sample_host_hotkey_taken (some ""))
          { sample_bound with hotkey_registered := false }).1).1 = false
      ∧ message_captions
          (handle_menu_command sample_os_no_devices (sample_host_hotkey_taken (some "")) 0
            ID_TRAY_RELOAD_CONFIG sample_bound).2
        = ["Device Error", "Hotkey Registration Failed", "Config Reload"] := by
  decide

/-- C16, amended.  When the tray refresh of the reload fits `szTip` (as it does
after a failed rebind, where no refresh is made), handling the Reload Config
command does not end the process; it shows a notice captioned "Device Error"
exactly when the rebind fails and a notice captioned
"Hotkey Registration Failed" exactly when the hotkey registration fails, each
shown by its own step, in this order, and no other notice of a failure;
`RegisterHotKey` is called exactly once, with the hotkey of the configuration
just loaded, whether the rebind failed or not. -/
theorem reload_command_notices (os : OsAnswers) (host : HostAnswers) (now : Int)
    (s : MicrophoneController) (hfit : reload_tip_fits os host s) :
    terminated (handle_menu_command os host now ID_TRAY_RELOAD_CONFIG s).2 = false
      ∧ failure_notices (handle_menu_command os host now ID_TRAY_RELOAD_CONFIG s).2
        = (if (reload_rebind os host s).1 = false then ["Device Error"] else [])
          ++ (if host.register_hot_key (load_config host s).1.config.hotkey_mod
                  (load_config host s).1.config.hotkey_vk = false
              then ["Hotkey Registration Failed"] else [])
      ∧ (handle_menu_command os host now ID_TRAY_RELOAD_CONFIG s).2.filter
          Effect.is_register_hot_key
        = [Effect.RegisterHotKey (load_config host s).1.config.hotkey_mod
            (load_config host s).1.config.hotkey_vk] := by
  obtain ⟨hlive, _, _, _, hreg, hcap, _⟩ := reload_configuration_result os host s hfit
  have hcmd : handle_menu_command os host now ID_TRAY_RELOAD_CONFIG s
      = ((reload_configuration os host s).1, (reload_configuration os host s).2
          ++ [Effect.MessageBox "Configuration reloaded successfully!" "Config Reload"]) := by
    simp [handle_menu_command, ID_TRAY_RELOAD_CONFIG, ID_TRAY_TOGGLE, ID_TRAY_LIST_DEVICES,
      ID_TRAY_CONFIG, hlive]
  rw [hcmd]
  refine ⟨?_, ?_, ?_⟩
  · rw [terminated_append, hlive]
    rfl
  · unfold failure_notices
    simp only [message_captions, List.filterMap_append] at hcap ⊢
    rw [hcap]
    cases (reload_rebind os host s).1 <;>
      cases host.register_hot_key (load_config host s).1.config.hotkey_mod
        (load_config host s).1.config.hotkey_vk <;> decide
  · rw [List.filter_append, hreg]
    rfl

/-- The reload of the counterexample: the rebind and the registration both fail,
each shows its notice, and `RegisterHotKey` is called once. -/
theorem reload_command_notices_witness :
    failure_notices
        (handle_menu_command sample_os_no_devices (sample_host_hotkey_taken (some "")) 0
          ID_TRAY_RELOAD_CONFIG sample_bound).2
        = ["Device Error", "Hotkey Registration Failed"]
      ∧ (handle_menu_command sample_os_no_devices (sample_host_hotkey_taken (some "")) 0
          ID_TRAY_RELOAD_CONFIG sample_bound).2.filter Effect.is_register_hot_key
        = [Effect.RegisterHotKey 6 112] :=
  ⟨(reload_command_notices sample_os_no_devices (sample_host_hotkey_taken (some "")) 0
      sample_bound (fun h => absurd h (by decide))).2.1,
    (reload_command_notices sample_os_no_devices (sample_host_hotkey_taken (some "")) 0
      sample_bound (fun h => absurd h (by decide))).2.2⟩

/-! ## A bind failure at start-up -/

theorem save_devices_list_result (os : OsAnswers) (host : HostAnswers)
    (s : MicrophoneController) :
    same_shell (save_devices_list os host s).1 s
      ∧ (save_devices_list os host s).1.available_devices = (enumerate_audio_devices os s).1
      ∧ (save_devices_list os host s).2.filter Effect.is_devices_list_write
          = [Effect.WriteDevicesList s.config.devices_list_file
              (if host.open_for_write s.config.devices_list_file = true
                then some (devices_list_text s.config (enumerate_audio_devices os s).1)
                else none)]
      ∧ message_captions (save_devices_list os host s).2 = []
      ∧ (save_devices_list os host s).2.filter Effect.creates_ui = [] := by
  have hshell := enumerate_audio_devices_same_shell os s
  have hkinds := audio_calls_kinds _ (enumerate_audio_devices_audio_calls os s)
  have hcap : List.filterMap Effect.caption (enumerate_audio_devices os s).2.2 = [] :=
    hkinds.1
  unfold save_devices_list
  refine ⟨?_, rfl, ?_, ?_, ?_⟩
  · exact ⟨hshell.1, hshell.2.1, hshell.2.2.1, hshell.2.2.2.1, hshell.2.2.2.2.1,
      hshell.2.2.2.2.2.1, hshell.2.2.2.2.2.2⟩
  · simp [List.filter_append, hkinds.2.2.1, hshell.1, Effect.is_devices_list_write]
  · simp [message_captions, List.filterMap_append, hcap, Effect.caption]
  · simp [List.filter_append, hkinds.2.2.2.1, Effect.creates_ui]

/-- Member `initialize_audio` when the bind fails: the device list is saved once and
one message box is shown, whichever of the three branches is taken. -/
theorem initialize_audio_failure (os : OsAnswers) (host : HostAnswers)
    (s : MicrophoneController) (hfail : (find_and_set_target_device os s).1 = false) :
    ∃ text caption,
      initialize_audio os host s
        = (false, (save_devices_list os host (find_and_set_target_device os s).2.1).1,
            (find_and_set_target_device os s).2.2
              ++ (save_devices_list os host (find_and_set_target_device os s).2.1).2
              ++ [Effect.MessageBox text caption]) := by
  unfold initialize_audio
  simp only [hfail, Bool.not_false, if_true]
  split_ifs
  · exact ⟨_, _, rfl⟩
  · exact ⟨_, _, rfl⟩
  · exact ⟨_, _, rfl⟩

/-- C17.  When the system initialises and binding fails at start-up, `run` returns
1; it writes the device list file exactly once (one `std::ofstream` on
`devices_list_file`, holding the text of `save_devices_list` for the devices
just enumerated when it can be opened); it shows exactly one message box; it
issues no call that creates a window, a tray icon or a hotkey delivery, and
the window, tray and hotkey fields of the state are untouched.  When the
enumeration yields no device, the text is the header followed by the
no-devices message, with no device entry and no instructions. -/
theorem run_bind_failure (os : OsAnswers) (host : HostAnswers) (s : MicrophoneController)
    (hco : host.co_initialize = true) (hcc : host.init_common_controls = true)
    (hfail : (find_and_set_target_device os
      (load_config host { s with com_initialized := true }).1).1 = false) :
    (run os host s).1 = some 1
      ∧ (run os host s).2.2.filter Effect.is_devices_list_write
          = [Effect.WriteDevicesList (run os host s).2.1.config.devices_list_file
              (if host.open_for_write (run os host s).2.1.config.devices_list_file = true
                then some (devices_list_text (run os host s).2.1.config
                  (run os host s).2.1.available_devices)
                else none)]
      ∧ (message_captions (run os host s).2.2).length = 1
      ∧ (run os host s).2.2.filter Effect.creates_ui = []
      ∧ (run os host s).2.1.main_hwnd = s.main_hwnd
      ∧ (run os host s).2.1.tray_icon_added = s.tray_icon_added
      ∧ (run os host s).2.1.hotkey_registered = s.hotkey_registered
      ∧ (run os host s).2.1.keyboard_hook = s.keyboard_hook
      ∧ (run os host s).2.1.available_devices
          = (enumerate_audio_devices os
              (find_and_set_target_device os
                (load_config host { s with com_initialized := true }).1).2.1).1
      ∧ ((run os host s).2.1.available_devices = [] →
          devices_list_text (run os host s).2.1.config (run os host s).2.1.available_devices
            = devices_list_header (run os host s).2.1.config ++ no_devices_message) := by
  obtain ⟨text, caption, haudio⟩ := initialize_audio_failure os host
    (load_config host { s with com_initialized := true }).1 hfail
  have hload := load_config_result host { s with com_initialized := true }
  have hbind := find_and_set_target_device_same_shell os
    (load_config host { s with com_initialized := true }).1
  have hkinds := audio_calls_kinds _ hbind.2
  have hsave := save_devices_list_result os host
    (find_and_set_target_device os
      (load_config host { s with com_initialized := true }).1).2.1
  have hrun : run os host s
      = (some 1,
          (save_devices_list os host
            (find_and_set_target_device os
              (load_config host { s with com_initialized := true }).1).2.1).1,
          [Effect.CoInitializeEx, Effect.InitCommonControlsEx]
            ++ (load_config host { s with com_initialized := true }).2
            ++ ((find_and_set_target_device os
                  (load_config host { s with com_initialized := true }).1).2.2
                ++ (save_devices_list os host
                    (find_and_set_target_device os
                      (load_config host { s with com_initialized := true }).1).2.1).2
                ++ [Effect.MessageBox text caption])) := by
    simp [run, initialize_system, hco, hcc, haudio]
  have hcap1 : List.filterMap Effect.caption
      (load_config host { s with com_initialized := true }).2 = [] := hload.2.1
  have hcap2 : List.filterMap Effect.caption
      (find_and_set_target_device os
        (load_config host { s with com_initialized := true }).1).2.2 = [] := hkinds.1
  have hcap3 : List.filterMap Effect.caption
      (save_devices_list os host
        (find_and_set_target_device os
          (load_config host { s with com_initialized := true }).1).2.1).2 = [] :=
    hsave.2.2.2.1
  rw [hrun]
  refine ⟨rfl, ?_, ?_, ?_, ?_, ?_, ?_, ?_, hsave.2.1, ?_⟩
  · simp only [List.filter_append, hload.2.2.2.1, hkinds.2.2.1, hsave.2.2.1, hsave.1.1,
      hsave.2.1]
    simp [Effect.is_devices_list_write]
  · simp [message_captions, List.filterMap_append, hcap1, hcap2, hcap3, Effect.caption]
  · simp only [List.filter_append, hload.2.2.2.2.1, hkinds.2.2.2.1, hsave.2.2.2.2]
    simp [Effect.creates_ui]
  · rw [hsave.1.2.1, hbind.1.2.1, hload.1]
  · rw [hsave.1.2.2.1, hbind.1.2.2.1, hload.1]
  · rw [hsave.1.2.2.2.1, hbind.1.2.2.2.1, hload.1]
  · rw [hsave.1.2.2.2.2.1, hbind.1.2.2.2.2.1, hload.1]
  · intro hnone
    simp only at hnone ⊢
    rw [hnone]
    rfl

set_option maxRecDepth 8000

/-- With `use_default_device = true` (the default) and no capture device: `run`
returns 1, and the device list written is the header and the no-devices
message. -/
theorem run_bind_failure_witness :
    (run sample_os_no_devices (sample_host (some "")) MicrophoneController.new).1 = some 1
      ∧ (run sample_os_no_devices (sample_host (some ""))
          MicrophoneController.new).2.2.filter Effect.is_devices_list_write
        = [Effect.WriteDevicesList "available_devices.txt"
            (some (devices_list_header {} ++ no_devices_message))]
      ∧ message_captions
          (run sample_os_no_devices (sample_host (some "")) MicrophoneController.new).2.2
        = ["Audio System Error"] :=
  ⟨(run_bind_failure sample_os_no_devices (sample_host (some "")) MicrophoneController.new
      (by decide) (by decide) (by decide)).1,
    by decide, by decide⟩

/-! ## Writing and reading numbers -/

theorem digit_char_spec : ∀ d, d < 10 →
    (digit_char d).isDigit = true ∧ (digit_char d).toNat - 48 = d := by
  decide

theorem digits_value_concat (digits : List Char) (c : Char) :
    digits_value (digits ++ [c]) = 10 * digits_value digits + (c.toNat - 48) := by
  simp [digits_value, List.foldl_append]

theorem decimal_loop_spec (fuel : Nat) : ∀ (n : Nat) (acc : List Char), n < fuel →
    ∃ digits, decimal_loop fuel n acc = digits ++ acc ∧ digits ≠ []
      ∧ (∀ c ∈ digits, c.isDigit = true) ∧ digits_value digits = n := by
  induction fuel with
  | zero => intro n acc h; omega
  | succ fuel ih =>
    intro n acc hn
    have hd := digit_char_spec (n % 10) (Nat.mod_lt _ (by decide))
    unfold decimal_loop
    by_cases h0 : n / 10 = 0
    · rw [if_pos h0]
      refine ⟨[digit_char (n % 10)], rfl, by simp, ?_, ?_⟩
      · intro c hc
        rw [List.mem_singleton] at hc
        rw [hc]
        exact hd.1
      · have hmod : n % 10 = n := by omega
        rw [hmod] at hd ⊢
        simp [digits_value, hd.2]
    · rw [if_neg h0]
      obtain ⟨digits, heq, hne, hall, hval⟩ :=
        ih (n / 10) (digit_char (n % 10) :: acc) (by omega)
      refine ⟨digits ++ [digit_char (n % 10)], by simp [heq], by simp, ?_, ?_⟩
      · intro c hc
        rw [List.mem_append, List.mem_singleton] at hc
        rcases hc with hc | hc
        · exact hall c hc
        · rw [hc]
          exact hd.1
      · rw [digits_value_concat, hval, hd.2]
        omega

theorem decimal_spec (n : Nat) :
    decimal n ≠ [] ∧ (∀ c ∈ decimal n, c.isDigit = true) ∧ digits_value (decimal n) = n := by
  obtain ⟨digits, heq, hne, hall, hval⟩ := decimal_loop_spec (n + 1) n [] (by omega)
  have : decimal n = digits := by simp [decimal, heq]
  rw [this]
  exact ⟨hne, hall, hval⟩

theorem isDigit_not_special (c : Char) (h : c.isDigit = true) :
    isspace c = false ∧ is_line_blank c = false ∧ is_key_blank c = false ∧ c ≠ '-'
      ∧ c ≠ '+' ∧ c ≠ '\n' := by
  have key : ∀ d : Char, d.isDigit = false → c ≠ d := fun d hd e => by
    rw [e, hd] at h
    cases h
  have h1 := key ' ' (by decide)
  have h2 := key '\t' (by decide)
  have h3 := key '\n' (by decide)
  have h4 := key '\x0b' (by decide)
  have h5 := key '\x0c' (by decide)
  have h6 := key '\r' (by decide)
  have h7 := key '-' (by decide)
  have h8 := key '+' (by decide)
  simp [isspace, is_line_blank, is_key_blank, h1, h2, h3, h4, h5, h6, h7, h8]

theorem scan_integer_decimal (n : Nat) : scan_integer (decimal n) = some (false, n) := by
  obtain ⟨hne, hall, hval⟩ := decimal_spec n
  cases hd : decimal n with
  | nil => exact absurd hd hne
  | cons d rest =>
    rw [hd] at hall hval
    have hdig := isDigit_not_special d (hall d (by simp))
    have hskip : (d :: rest).dropWhile isspace = d :: rest := by
      simp [List.dropWhile, hdig.1]
    have htake : (d :: rest).takeWhile Char.isDigit = d :: rest :=
      List.takeWhile_eq_self_iff.mpr hall
    unfold scan_integer
    rw [hskip]
    simp only [if_neg hdig.2.2.2.1, if_neg hdig.2.2.2.2.1, htake]
    simp [hval]

theorem stoul_decimal (n : Nat) (h : n ≤ ULONG_MAX) : stoul (decimal n) = some n := by
  have : ¬ n > ULONG_MAX := by omega
  simp [stoul, scan_integer_decimal, this]

theorem stoi_decimal_int (v : Int) (h0 : 0 ≤ v) (h1 : v ≤ INT_MAX) :
    stoi (decimal_int v) = some v := by
  have hv : ¬ v < 0 := by omega
  have hnat : (v.natAbs : Int) = v := Int.natAbs_of_nonneg h0
  unfold decimal_int stoi
  rw [if_neg hv, scan_integer_decimal]
  simp only [Bool.false_eq_true, if_false, hnat]
  have : ¬ (v < INT_MIN ∨ v > INT_MAX) := by
    simp only [INT_MIN, INT_MAX] at h1 ⊢
    omega
  rw [if_neg this]

theorem parse_int_clamped_decimal_int (v lo hi : Int) (h0 : 0 ≤ lo) (hlo : lo ≤ v)
    (hhi : v ≤ hi) (hmax : hi ≤ INT_MAX) :
    parse_int_clamped (decimal_int v) lo hi = some v := by
  unfold parse_int_clamped
  rw [stoi_decimal_int v (by omega) (by omega)]
  simp only [Option.map_some', Option.some.injEq]
  rw [min_eq_right hhi, max_eq_right hlo]

theorem parse_bool_bool_text (flag : Bool) : parse_bool (bool_text flag).data = flag := by
  cases flag <;> decide

theorem clean_value_of_digits (v : List Char) (hall : ∀ c ∈ v, c.isDigit = true) :
    clean_value v := by
  refine ⟨fun hm => ?_, fun c hc => ?_, fun c hc => ?_⟩
  · exact (isDigit_not_special _ (hall _ hm)).2.2.2.2.2 rfl
  · exact (isDigit_not_special c (hall c (List.mem_of_mem_head? hc))).2.2.1
  · exact (isDigit_not_special c (hall c (List.mem_of_getLast?_eq_some hc))).2.1

theorem clean_value_decimal (n : Nat) : clean_value (decimal n) :=
  clean_value_of_digits _ (decimal_spec n).2.1

theorem clean_value_decimal_int (v : Int) (h0 : 0 ≤ v) : clean_value (decimal_int v) := by
  have hv : ¬ v < 0 := by omega
  unfold decimal_int
  rw [if_neg hv]
  exact clean_value_decimal _

theorem clean_value_bool_text (flag : Bool) : clean_value (bool_text flag).data := by
  cases flag <;> exact ⟨by decide, by decide, by decide⟩

/-! ## Reading back the lines of `save_config` -/

theorem getline_loop_line (line : List Char) :
    ∀ (current rest : List Char), '\n' ∉ line →
      getline_loop current (line ++ '\n' :: rest)
        = (current.reverse ++ line) :: getline_loop [] rest := by
  induction line with
  | nil =>
    intro current rest _
    simp [getline_loop]
  | cons c line ih =>
    intro current rest h
    have hc : c ≠ '\n' := fun e => h (by simp [e])
    have hl : '\n' ∉ line := fun e => h (List.mem_cons_of_mem _ e)
    have := ih (c :: current) rest hl
    simp only [List.cons_append, getline_loop, if_neg hc]
    simpa using this

theorem unlines_data (line : String) (rest : List String) :
    (unlines (line :: rest)).data = line.data ++ '\n' :: (unlines rest).data := by
  simp only [unlines, String.data_append]
  simp

/-- Reading the text of a list of lines without line feeds gives the lines back. -/
theorem getlines_unlines (lines : List String) (h : ∀ l ∈ lines, '\n' ∉ l.data) :
    getlines (unlines lines) = lines.map String.data := by
  unfold getlines
  induction lines with
  | nil => rfl
  | cons line rest ih =>
    rw [unlines_data, getline_loop_line line.data [] _ (h line (by simp))]
    simp only [List.reverse_nil, List.nil_append, List.map_cons]
    rw [ih fun l hl => h l (List.mem_cons_of_mem _ hl)]

theorem rdropWhile_eq_self_of_getLast? {α : Type} (p : α → Bool) (l : List α)
    (h : ∀ c, l.getLast? = some c → p c = false) : l.rdropWhile p = l := by
  rw [List.rdropWhile_eq_self_iff]
  intro hl
  have := h (l.getLast hl) (List.getLast?_eq_getLast l hl)
  simp [this]

/-- A line that starts with a character outside `" \t\r\n"`, other than `#` and
`=`: if it gives a setting, the key starts with that character. -/
theorem parse_line_key_head (c : Char) (rest k v : List Char) (hb : is_line_blank c = false)
    (hc : c ≠ '#' ∧ c ≠ '=') (h : parse_line (c :: rest) = some (k, v)) :
    k.head? = some c := by
  have hkb : is_key_blank c = false := by
    simp only [is_line_blank, Bool.or_eq_false_iff, decide_eq_false_iff_not] at hb
    simp [is_key_blank, hb.1.1.1, hb.1.1.2]
  unfold parse_line at h
  have hd : (c :: rest).dropWhile is_line_blank = c :: rest := by
    simp [List.dropWhile, hb]
  rw [hd, rdropWhile_cons_of_neg _ _ _ hb] at h
  simp only [hc.1, hc.2, or_self, if_false] at h
  split_ifs at h
  simp only [Option.some.injEq, Prod.mk.injEq] at h
  rw [← h.1, List.takeWhile_cons_of_pos (by simpa using hc.2),
    rdropWhile_cons_of_neg _ _ _ hkb]
  rfl

/-- A line `key = value` of `save_config` is read back as the key and the value. -/
theorem parse_line_key_value (key v : List Char) (c : Char) (krest : List Char)
    (hkey : key = c :: krest)
    (hk : ∀ x ∈ key, is_line_blank x = false ∧ x ≠ '=') (hc : c ≠ '#')
    (hv : clean_value v) :
    parse_line (key ++ ' ' :: '=' :: ' ' :: v) = some (key, v) := by
  obtain ⟨_, hhead, hlast⟩ := hv
  have hcb := (hk c (by simp [hkey])).1
  have hceq := (hk c (by simp [hkey])).2
  have hkb : ∀ x ∈ key, is_key_blank x = false := by
    intro x hx
    have := (hk x hx).1
    simp only [is_line_blank, Bool.or_eq_false_iff, decide_eq_false_iff_not] at this
    simp [is_key_blank, this.1.1.1, this.1.1.2]
  -- the line after the two trims
  have htrim : ((key ++ ' ' :: '=' :: ' ' :: v).dropWhile is_line_blank).rdropWhile
      is_line_blank
      = key ++ ' ' :: '=' :: (if v = [] then [] else ' ' :: v) := by
    have hd : (key ++ ' ' :: '=' :: ' ' :: v).dropWhile is_line_blank
        = key ++ ' ' :: '=' :: ' ' :: v := by
      rw [hkey]
      simp [List.dropWhile, hcb]
    rw [hd]
    by_cases hvn : v = []
    · subst hvn
      have : key ++ [' ', '=', ' '] = (key ++ [' ', '=']) ++ [' '] := by simp
      rw [if_pos rfl, this, List.rdropWhile_concat_pos _ _ _ (by decide)]
      have : key ++ [' ', '='] = (key ++ [' ']) ++ ['='] := by simp
      rw [this, List.rdropWhile_concat_neg _ _ _ (by decide)]
    · rw [if_neg hvn]
      apply rdropWhile_eq_self_of_getLast?
      intro x hx
      have : (key ++ ' ' :: '=' :: ' ' :: v).getLast? = v.getLast? := by
        have hv2 : v.getLast? ≠ none := by
          simpa [List.getLast?_eq_none_iff] using hvn
        obtain ⟨y, hy⟩ := Option.ne_none_iff_exists'.mp hv2
        have e : key ++ ' ' :: '=' :: ' ' :: v = (key ++ [' ', '=', ' ']) ++ v := by simp
        rw [e, List.getLast?_append, hy]
        rfl
      rw [this] at hx
      exact hlast x hx
  have hmem : '=' ∈ key ++ ' ' :: '=' :: (if v = [] then [] else ' ' :: v) := by simp
  have htake : (key ++ ' ' :: '=' :: (if v = [] then [] else ' ' :: v)).takeWhile
      (fun x => x ≠ '=') = key ++ [' '] := by
    rw [List.takeWhile_append_of_pos (fun x hx => by simpa using (hk x hx).2)]
    simp [List.takeWhile]
  have hdrop : (key ++ ' ' :: '=' :: (if v = [] then [] else ' ' :: v)).dropWhile
      (fun x => x ≠ '=') = '=' :: (if v = [] then [] else ' ' :: v) := by
    rw [List.dropWhile_append_of_pos (fun x hx => by simpa using (hk x hx).2)]
    simp [List.dropWhile]
  have hkeytrim : (key ++ [' ']).rdropWhile is_key_blank = key := by
    rw [List.rdropWhile_concat_pos _ _ _ (by decide)]
    apply rdropWhile_eq_self_of_getLast?
    intro x hx
    exact hkb x (List.mem_of_getLast?_eq_some hx)
  have hvalue : (((if v = [] then [] else ' ' :: v) : List Char).dropWhile
      is_key_blank).rdropWhile is_key_blank = v := by
    by_cases hvn : v = []
    · simp [hvn]
    · rw [if_neg hvn]
      have hd : (' ' :: v).dropWhile is_key_blank = v := by
        cases v with
        | nil => exact absurd rfl hvn
        | cons y ys =>
          have := hhead y rfl
          simp [List.dropWhile, is_key_blank] at this ⊢
          simp [this]
      rw [hd]
      apply rdropWhile_eq_self_of_getLast?
      intro x hx
      have := hlast x hx
      simp only [is_line_blank, Bool.or_eq_false_iff, decide_eq_false_iff_not] at this
      simp [is_key_blank, this.1.1.1, this.1.1.2]
  unfold parse_line
  rw [htrim]
  have hshape : key ++ ' ' :: '=' :: (if v = [] then [] else ' ' :: v)
      = c :: (krest ++ ' ' :: '=' :: (if v = [] then [] else ' ' :: v)) := by
    rw [hkey]
    rfl
  rw [hshape]
  simp only [hc, hceq, or_self, if_false]
  rw [← hshape, if_pos hmem, htake, hdrop, hkeytrim]
  simp only [List.tail_cons]
  rw [hvalue]

theorem save_config_lines_eq (config : Config) :
    save_config_lines config =
      config_block_0
        ++ ["use_default_device = " ++ bool_text config.use_default_device]
        ++ config_block_1
        ++ ["# Run the program to generate '" ++ config.devices_list_file ++ "' with available devices"]
        ++ config_block_2
        ++ ["device_name = " ++ config.device_name]
        ++ config_block_3
        ++ ["hotkey_mod = " ++ String.mk (decimal config.hotkey_mod)]
        ++ config_block_4
        ++ ["hotkey_vk = " ++ String.mk (decimal config.hotkey_vk)]
        ++ config_block_5
        ++ ["toggle_cooldown = " ++ String.mk (decimal_int config.toggle_cooldown)]
        ++ config_block_6
        ++ ["use_keyboard_hook = " ++ bool_text config.use_keyboard_hook]
        ++ config_block_7
        ++ ["play_sounds = " ++ bool_text config.play_sounds]
        ++ config_block_8
        ++ ["sound_volume = " ++ String.mk (decimal_int config.sound_volume)]
        ++ config_block_9
        ++ ["mute_sound_file = " ++ config.mute_sound_file]
        ++ ["unmute_sound_file = " ++ config.unmute_sound_file]
        ++ config_block_10
        ++ ["unmute_on_exit = " ++ bool_text config.unmute_on_exit]
        ++ config_block_11
        ++ ["2. Check '" ++ config.devices_list_file ++ "' for available microphones"]
        ++ config_block_12 := by
  simp only [save_config_lines, config_block_0, config_block_1, config_block_2, config_block_3, config_block_4, config_block_5, config_block_6, config_block_7, config_block_8, config_block_9, config_block_10, config_block_11, config_block_12,
    List.append_assoc, List.cons_append, List.nil_append]

theorem config_blocks_skipped :
    (config_block_0.map String.data).filterMap parse_line = []
      ∧ (config_block_1.map String.data).filterMap parse_line = []
      ∧ (config_block_2.map String.data).filterMap parse_line = []
      ∧ (config_block_3.map String.data).filterMap parse_line = []
      ∧ (config_block_4.map String.data).filterMap parse_line = []
      ∧ (config_block_5.map String.data).filterMap parse_line = []
      ∧ (config_block_6.map String.data).filterMap parse_line = []
      ∧ (config_block_7.map String.data).filterMap parse_line = []
      ∧ (config_block_8.map String.data).filterMap parse_line = []
      ∧ (config_block_9.map String.data).filterMap parse_line = []
      ∧ (config_block_10.map String.data).filterMap parse_line = []
      ∧ (config_block_11.map String.data).filterMap parse_line = []
      ∧ (config_block_12.map String.data).filterMap parse_line = [] := by
  refine ⟨?_, ?_, ?_, ?_, ?_, ?_, ?_, ?_, ?_, ?_, ?_, ?_, ?_⟩ <;> decide

theorem config_blocks_no_line_feed :
    (∀ l ∈ config_block_0, '\n' ∉ l.data)
      ∧ (∀ l ∈ config_block_1, '\n' ∉ l.data)
      ∧ (∀ l ∈ config_block_2, '\n' ∉ l.data)
      ∧ (∀ l ∈ config_block_3, '\n' ∉ l.data)
      ∧ (∀ l ∈ config_block_4, '\n' ∉ l.data)
      ∧ (∀ l ∈ config_block_5, '\n' ∉ l.data)
      ∧ (∀ l ∈ config_block_6, '\n' ∉ l.data)
      ∧ (∀ l ∈ config_block_7, '\n' ∉ l.data)
      ∧ (∀ l ∈ config_block_8, '\n' ∉ l.data)
      ∧ (∀ l ∈ config_block_9, '\n' ∉ l.data)
      ∧ (∀ l ∈ config_block_10, '\n' ∉ l.data)
      ∧ (∀ l ∈ config_block_11, '\n' ∉ l.data)
      ∧ (∀ l ∈ config_block_12, '\n' ∉ l.data) := by
  refine ⟨?_, ?_, ?_, ?_, ?_, ?_, ?_, ?_, ?_, ?_, ?_, ?_, ?_⟩ <;> decide

theorem parse_line_setting (start key value : String) (c : Char) (krest : List Char)
    (hstart : start.data = key.data ++ [' ', '=', ' ']) (hkey : key.data = c :: krest)
    (hk : ∀ x ∈ key.data, is_line_blank x = false ∧ x ≠ '=') (hc : c ≠ '#')
    (hv : clean_value value.data) :
    parse_line (start ++ value).data = some (key.data, value.data) := by
  have h := parse_line_key_value key.data value.data c krest hkey hk hc hv
  rw [String.data_append, hstart, List.append_assoc]
  exact h

theorem parse_line_comment_start (start : String) (rest : List Char)
    (h : start.data.head? = some '#') : parse_line (start.data ++ rest) = none := by
  obtain ⟨tail, ht⟩ := List.head?_eq_some_iff.mp h
  apply parse_line_comment
  left
  rw [ht]
  simp [List.dropWhile, is_line_blank]

/-- No line of the file written by `save_config` holds a line feed. -/
theorem save_config_lines_no_line_feed (config : Config) (hs : config.saveable) :
    ∀ l ∈ save_config_lines config, '\n' ∉ l.data := by
  obtain ⟨hmod, hvk, hb, hname, hmute, hunmute, hdlf⟩ := hs
  obtain ⟨b0, b1, b2, b3, b4, b5, b6, b7, b8, b9, b10, b11, b12⟩ := config_blocks_no_line_feed
  have hbool : ∀ flag : Bool, '\n' ∉ (bool_text flag).data := fun flag =>
    (clean_value_bool_text flag).1
  have hdec : ∀ n : Nat, '\n' ∉ decimal n := fun n => (clean_value_decimal n).1
  have hint : ∀ v : Int, 0 ≤ v → '\n' ∉ decimal_int v := fun v h =>
    (clean_value_decimal_int v h).1
  have hcool := hint config.toggle_cooldown hb.2.2.1
  have hvol := hint config.sound_volume hb.1
  have p_use_default_device : '\n' ∉ "use_default_device = ".data := by decide
  have p_device_name : '\n' ∉ "device_name = ".data := by decide
  have p_hotkey_mod : '\n' ∉ "hotkey_mod = ".data := by decide
  have p_hotkey_vk : '\n' ∉ "hotkey_vk = ".data := by decide
  have p_toggle_cooldown : '\n' ∉ "toggle_cooldown = ".data := by decide
  have p_use_keyboard_hook : '\n' ∉ "use_keyboard_hook = ".data := by decide
  have p_play_sounds : '\n' ∉ "play_sounds = ".data := by decide
  have p_sound_volume : '\n' ∉ "sound_volume = ".data := by decide
  have p_mute_sound_file : '\n' ∉ "mute_sound_file = ".data := by decide
  have p_unmute_sound_file : '\n' ∉ "unmute_sound_file = ".data := by decide
  have p_unmute_on_exit : '\n' ∉ "unmute_on_exit = ".data := by decide
  have c1a : '\n' ∉ "# Run the program to generate '".data := by decide
  have c1b : '\n' ∉ "' with available devices".data := by decide
  have c2a : '\n' ∉ "2. Check '".data := by decide
  have c2b : '\n' ∉ "' for available microphones".data := by decide
  rw [save_config_lines_eq]
  simp only [List.forall_mem_append, List.forall_mem_singleton]
  simp only [String.data_append, List.mem_append, not_or]
  refine ⟨⟨⟨⟨⟨⟨⟨⟨⟨⟨⟨⟨⟨⟨⟨⟨⟨⟨⟨⟨⟨⟨⟨⟨⟨?_, ?_⟩, ?_⟩, ?_⟩, ?_⟩, ?_⟩, ?_⟩, ?_⟩, ?_⟩, ?_⟩, ?_⟩, ?_⟩, ?_⟩, ?_⟩,
    ?_⟩, ?_⟩, ?_⟩, ?_⟩, ?_⟩, ?_⟩, ?_⟩, ?_⟩, ?_⟩, ?_⟩, ?_⟩, ?_⟩
  · exact b0
  · exact ⟨p_use_default_device, hbool _⟩
  · exact b1
  · exact ⟨⟨c1a, hdlf⟩, c1b⟩
  · exact b2
  · exact ⟨p_device_name, hname.1⟩
  · exact b3
  · exact ⟨p_hotkey_mod, hdec _⟩
  · exact b4
  · exact ⟨p_hotkey_vk, hdec _⟩
  · exact b5
  · exact ⟨p_toggle_cooldown, hcool⟩
  · exact b6
  · exact ⟨p_use_keyboard_hook, hbool _⟩
  · exact b7
  · exact ⟨p_play_sounds, hbool _⟩
  · exact b8
  · exact ⟨p_sound_volume, hvol⟩
  · exact b9
  · exact ⟨p_mute_sound_file, hmute.1⟩
  · exact ⟨p_unmute_sound_file, hunmute.1⟩
  · exact b10
  · exact ⟨p_unmute_on_exit, hbool _⟩
  · exact b11
  · exact ⟨⟨c2a, hdlf⟩, c2b⟩
  · exact b12

/-- The settings read back from the file written by `save_config`: the eleven
setting lines, the last one first, possibly after one entry whose key starts
with `2` (the instruction line that quotes `devices_list_file`). -/
theorem saved_settings (config : Config) (hs : config.saveable) :
    ∃ junk : List (List Char × List Char),
      (∀ p ∈ junk, p.1.head? = some '2')
        ∧ parse_settings (getlines (save_config_text config))
          = junk ++ [("unmute_on_exit".data, (bool_text config.unmute_on_exit).data),
              ("unmute_sound_file".data, config.unmute_sound_file.data),
              ("mute_sound_file".data, config.mute_sound_file.data),
              ("sound_volume".data, (decimal_int config.sound_volume)),
              ("play_sounds".data, (bool_text config.play_sounds).data),
              ("use_keyboard_hook".data, (bool_text config.use_keyboard_hook).data),
              ("toggle_cooldown".data, (decimal_int config.toggle_cooldown)),
              ("hotkey_vk".data, (decimal config.hotkey_vk)),
              ("hotkey_mod".data, (decimal config.hotkey_mod)),
              ("device_name".data, config.device_name.data),
              ("use_default_device".data, (bool_text config.use_default_device).data)] := by
  have hnl := save_config_lines_no_line_feed config hs
  obtain ⟨hmod, hvk, hb, hname, hmute, hunmute, hdlf⟩ := hs
  obtain ⟨b0, b1, b2, b3, b4, b5, b6, b7, b8, b9, b10, b11, b12⟩ := config_blocks_skipped
  have v_use_default_device := parse_line_setting "use_default_device = " "use_default_device" (bool_text config.use_default_device) 'u' "se_default_device".data
    rfl rfl (by decide) (by decide) (clean_value_bool_text _)
  have v_device_name := parse_line_setting "device_name = " "device_name" (config.device_name) 'd' "evice_name".data
    rfl rfl (by decide) (by decide) hname
  have v_hotkey_mod := parse_line_setting "hotkey_mod = " "hotkey_mod" (String.mk (decimal config.hotkey_mod)) 'h' "otkey_mod".data
    rfl rfl (by decide) (by decide) (clean_value_decimal _)
  have v_hotkey_vk := parse_line_setting "hotkey_vk = " "hotkey_vk" (String.mk (decimal config.hotkey_vk)) 'h' "otkey_vk".data
    rfl rfl (by decide) (by decide) (clean_value_decimal _)
  have v_toggle_cooldown := parse_line_setting "toggle_cooldown = " "toggle_cooldown" (String.mk (decimal_int config.toggle_cooldown)) 't' "oggle_cooldown".data
    rfl rfl (by decide) (by decide) (clean_value_decimal_int _ hb.2.2.1)
  have v_use_keyboard_hook := parse_line_setting "use_keyboard_hook = " "use_keyboard_hook" (bool_text config.use_keyboard_hook) 'u' "se_keyboard_hook".data
    rfl rfl (by decide) (by decide) (clean_value_bool_text _)
  have v_play_sounds := parse_line_setting "play_sounds = " "play_sounds" (bool_text config.play_sounds) 'p' "lay_sounds".data
    rfl rfl (by decide) (by decide) (clean_value_bool_text _)
  have v_sound_volume := parse_line_setting "sound_volume = " "sound_volume" (String.mk (decimal_int config.sound_volume)) 's' "ound_volume".data
    rfl rfl (by decide) (by decide) (clean_value_decimal_int _ hb.1)
  have v_mute_sound_file := parse_line_setting "mute_sound_file = " "mute_sound_file" (config.mute_sound_file) 'm' "ute_sound_file".data
    rfl rfl (by decide) (by decide) hmute
  have v_unmute_sound_file := parse_line_setting "unmute_sound_file = " "unmute_sound_file" (config.unmute_sound_file) 'u' "nmute_sound_file".data
    rfl rfl (by decide) (by decide) hunmute
  have v_unmute_on_exit := parse_line_setting "unmute_on_exit = " "unmute_on_exit" (bool_text config.unmute_on_exit) 'u' "nmute_on_exit".data
    rfl rfl (by decide) (by decide) (clean_value_bool_text _)
  have c1 : parse_line ("# Run the program to generate '" ++ config.devices_list_file
      ++ "' with available devices").data = none := by
    rw [String.data_append, String.data_append, List.append_assoc]
    exact parse_line_comment_start _ _ rfl
  have c2 : ∀ k v, parse_line ("2. Check '" ++ config.devices_list_file
      ++ "' for available microphones").data = some (k, v) → k.head? = some '2' := by
    intro k v h
    rw [String.data_append, String.data_append, List.append_assoc,
      show "2. Check '".data = '2' :: ". Check '".data from rfl, List.cons_append] at h
    exact parse_line_key_head '2' _ k v (by decide) (by decide) h
  unfold save_config_text parse_settings
  rw [getlines_unlines _ hnl, save_config_lines_eq]
  simp only [List.map_append, List.filterMap_append, List.map_cons, List.map_nil,
    List.filterMap_cons, List.filterMap_nil, b0, b1, b2, b3, b4, b5, b6, b7, b8, b9, b10, b11, b12,
    v_use_default_device, v_device_name, v_hotkey_mod, v_hotkey_vk, v_toggle_cooldown, v_use_keyboard_hook, v_play_sounds, v_sound_volume, v_mute_sound_file, v_unmute_sound_file, v_unmute_on_exit, c1,
    List.nil_append, List.append_nil]
  cases hj : parse_line ("2. Check '" ++ config.devices_list_file
      ++ "' for available microphones").data with
  | none =>
    refine ⟨[], by simp, ?_⟩
    simp
  | some p =>
    refine ⟨[p], ?_, ?_⟩
    · intro q hq
      rw [List.mem_singleton] at hq
      subst hq
      exact c2 q.1 q.2 hj
    · simp

theorem clean_value_of_check (v : List Char)
    (h : '\n' ∉ v ∧ v.head?.all (fun c => !is_key_blank c) = true
      ∧ v.getLast?.all (fun c => !is_line_blank c) = true) : clean_value v := by
  obtain ⟨h1, h2, h3⟩ := h
  refine ⟨h1, fun c hc => ?_, fun c hc => ?_⟩
  · rw [hc] at h2
    simpa using h2
  · rw [hc] at h3
    simpa using h3

/-- In the file written by `save_config`, the value found for each known key is
the one of its setting line. -/
theorem saved_find_setting (config : Config) (hs : config.saveable) :
    find_setting (parse_settings (getlines (save_config_text config))) "hotkey_mod"
          = some (decimal config.hotkey_mod)
      ∧ find_setting (parse_settings (getlines (save_config_text config))) "hotkey_vk"
          = some (decimal config.hotkey_vk)
      ∧ find_setting (parse_settings (getlines (save_config_text config))) "toggle_cooldown"
          = some (decimal_int config.toggle_cooldown)
      ∧ find_setting (parse_settings (getlines (save_config_text config))) "use_keyboard_hook"
          = some (bool_text config.use_keyboard_hook).data
      ∧ find_setting (parse_settings (getlines (save_config_text config))) "play_sounds"
          = some (bool_text config.play_sounds).data
      ∧ find_setting (parse_settings (getlines (save_config_text config))) "unmute_on_exit"
          = some (bool_text config.unmute_on_exit).data
      ∧ find_setting (parse_settings (getlines (save_config_text config))) "use_default_device"
          = some (bool_text config.use_default_device).data
      ∧ find_setting (parse_settings (getlines (save_config_text config))) "sound_volume"
          = some (decimal_int config.sound_volume)
      ∧ find_setting (parse_settings (getlines (save_config_text config))) "device_name"
          = some config.device_name.data
      ∧ find_setting (parse_settings (getlines (save_config_text config))) "mute_sound_file"
          = some config.mute_sound_file.data
      ∧ find_setting (parse_settings (getlines (save_config_text config))) "unmute_sound_file"
          = some config.unmute_sound_file.data := by
  obtain ⟨junk, hjunk, heq⟩ := saved_settings config hs
  have hskip : ∀ key : String, (∃ c, key.data.head? = some c ∧ c ≠ '2') →
      find_setting (parse_settings (getlines (save_config_text config))) key
        = List.lookup key.data (config_settings_list config) := by
    intro key hkey
    obtain ⟨c, hc, hne⟩ := hkey
    unfold find_setting
    rw [heq]
    apply lookup_append_of_keys
    intro p hp e
    have := hjunk p hp
    rw [e, hc] at this
    simp only [Option.some.injEq] at this
    exact hne this
  refine ⟨?_, ?_, ?_, ?_, ?_, ?_, ?_, ?_, ?_, ?_, ?_⟩
  · rw [hskip "hotkey_mod" ⟨'h', rfl, by decide⟩]
    rfl
  · rw [hskip "hotkey_vk" ⟨'h', rfl, by decide⟩]
    rfl
  · rw [hskip "toggle_cooldown" ⟨'t', rfl, by decide⟩]
    rfl
  · rw [hskip "use_keyboard_hook" ⟨'u', rfl, by decide⟩]
    rfl
  · rw [hskip "play_sounds" ⟨'p', rfl, by decide⟩]
    rfl
  · rw [hskip "unmute_on_exit" ⟨'u', rfl, by decide⟩]
    rfl
  · rw [hskip "use_default_device" ⟨'u', rfl, by decide⟩]
    rfl
  · rw [hskip "sound_volume" ⟨'s', rfl, by decide⟩]
    rfl
  · rw [hskip "device_name" ⟨'d', rfl, by decide⟩]
    rfl
  · rw [hskip "mute_sound_file" ⟨'m', rfl, by decide⟩]
    rfl
  · rw [hskip "unmute_sound_file" ⟨'u', rfl, by decide⟩]
    rfl

/-! ## Loading undoes saving -/

/-- C19.  For a configuration whose `sound_volume` and `toggle_cooldown` are
within their bounds and whose `device_name`, `mute_sound_file` and
`unmute_sound_file` hold no line break and no leading or trailing space or tab
(what is used of it: no line feed, no space or tab at the start, no space, tab
or carriage return at the end): loading the text written by `save_config`,
starting from any configuration, restores every persisted field to the saved
value and leaves `config_file` and `devices_list_file` as they were; the value
found for each known key is that of its setting line, so no banner, heading,
comment or instruction line sets a field.  The hypothesis also holds what is
true of every configuration of the program: the hotkey numbers fit `UINT`,
their type, and `devices_list_file`, which no statement assigns, holds no
line feed. -/
theorem load_undoes_save (saved start : Config) (hs : saved.saveable) :
    ((load_config_text (save_config_text saved) start).use_default_device
        = saved.use_default_device
      ∧ (load_config_text (save_config_text saved) start).device_name = saved.device_name
      ∧ (load_config_text (save_config_text saved) start).hotkey_mod = saved.hotkey_mod
      ∧ (load_config_text (save_config_text saved) start).hotkey_vk = saved.hotkey_vk
      ∧ (load_config_text (save_config_text saved) start).toggle_cooldown
          = saved.toggle_cooldown
      ∧ (load_config_text (save_config_text saved) start).use_keyboard_hook
          = saved.use_keyboard_hook
      ∧ (load_config_text (save_config_text saved) start).play_sounds = saved.play_sounds
      ∧ (load_config_text (save_config_text saved) start).sound_volume = saved.sound_volume
      ∧ (load_config_text (save_config_text saved) start).mute_sound_file
          = saved.mute_sound_file
      ∧ (load_config_text (save_config_text saved) start).unmute_sound_file
          = saved.unmute_sound_file
      ∧ (load_config_text (save_config_text saved) start).unmute_on_exit
          = saved.unmute_on_exit)
      ∧ (load_config_text (save_config_text saved) start).config_file = start.config_file
      ∧ (load_config_text (save_config_text saved) start).devices_list_file
          = start.devices_list_file
      ∧ ∀ key ∈ known_keys,
          find_setting (parse_settings (getlines (save_config_text saved))) key
            = List.lookup key.data (config_settings_list saved) := by
  obtain ⟨f1, f2, f3, f4, f5, f6, f7, f8, f9, f10, f11⟩ := saved_find_setting saved hs
  obtain ⟨hmod, hvk, hb, _, _, _, _⟩ := hs
  have p1 := stoul_decimal saved.hotkey_mod hmod
  have p2 := stoul_decimal saved.hotkey_vk hvk
  have p3 := parse_int_clamped_decimal_int saved.toggle_cooldown MIN_TOGGLE_COOLDOWN
    MAX_TOGGLE_COOLDOWN (by decide) hb.2.2.1 hb.2.2.2 (by decide)
  have p8 := parse_int_clamped_decimal_int saved.sound_volume MIN_SOUND_VOLUME
    MAX_SOUND_VOLUME (by decide) hb.1 hb.2.1 (by decide)
  have s3 : stoi (decimal_int saved.toggle_cooldown) = some saved.toggle_cooldown :=
    stoi_decimal_int _ hb.2.2.1 (le_trans hb.2.2.2 (by decide))
  have s8 : stoi (decimal_int saved.sound_volume) = some saved.sound_volume :=
    stoi_decimal_int _ hb.1 (le_trans hb.2.1 (by decide))
  have hwf := apply_settings_well_formed
    (parse_settings (getlines (save_config_text saved))) start
    (fun val h => by rw [f1] at h; cases h; simp [parse_uint, p1])
    (fun val h => by rw [f2] at h; cases h; simp [parse_uint, p2])
    (fun val h => by rw [f3] at h; cases h; simp [s3])
    (fun val h => by rw [f8] at h; cases h; simp [s8])
  unfold load_config_text
  rw [hwf]
  refine ⟨⟨?_, ?_, ?_, ?_, ?_, ?_, ?_, ?_, ?_, ?_, ?_⟩, rfl, rfl, ?_⟩
  · simp [setting_or, f7, parse_bool_bool_text]
  · simp [setting_or, f9]
  · simp [setting_or, f1, parse_uint, p1]
  · simp [setting_or, f2, parse_uint, p2]
  · simp [setting_or, f3, p3]
  · simp [setting_or, f4, parse_bool_bool_text]
  · simp [setting_or, f5, parse_bool_bool_text]
  · simp [setting_or, f8, p8]
  · simp [setting_or, f10]
  · simp [setting_or, f11]
  · simp [setting_or, f6, parse_bool_bool_text]
  · intro key hkey
    simp only [known_keys, List.mem_cons, List.mem_singleton, List.not_mem_nil,
      or_false] at hkey
    rcases hkey with h | h | h | h | h | h | h | h | h | h | h <;> subst h
    · rw [f1]; rfl
    · rw [f2]; rfl
    · rw [f3]; rfl
    · rw [f4]; rfl
    · rw [f5]; rfl
    · rw [f6]; rfl
    · rw [f7]; rfl
    · rw [f8]; rfl
    · rw [f9]; rfl
    · rw [f10]; rfl
    · rw [f11]; rfl

/-- A configuration with a device name, saved and loaded into the default
configuration. -/
theorem load_undoes_save_witness :
    (load_config_text
        (save_config_text
          { use_default_device := false, device_name := "USB Mic", hotkey_mod := 3,
            sound_volume := 80, play_sounds := false })
        {}).device_name = "USB Mic"
      ∧ load_config_text
        (save_config_text
          { use_default_device := false, device_name := "USB Mic", hotkey_mod := 3,
            sound_volume := 80, play_sounds := false })
        {}
        = { use_default_device := false, device_name := "USB Mic", hotkey_mod := 3,
            sound_volume := 80, play_sounds := false } :=
  ⟨(load_undoes_save
      { use_default_device := false, device_name := "USB Mic", hotkey_mod := 3,
        sound_volume := 80, play_sounds := false }
      {}
      ⟨by decide, by decide, ⟨by decide, by decide, by decide, by decide⟩,
        clean_value_of_check _ (by decide), clean_value_of_check _ (by decide),
        clean_value_of_check _ (by decide), by decide⟩).1.2.1,
    by decide⟩

end MicToggler
